import Mathlib

/-! # no_time_to_fly: game coordinator and peripheral services

A shallow embedding of the event-driven services of the arcade game controller
(`GameService.c`, `LEDMissileService.c`, `DCMotorService.c`, `ServoService.c`,
`AudioService.c`, `OptoSensorService.c`, `ThrottleService.c`, `IRService.c`,
`LEDFuelService.c`, `PIC32_PORT_HAL.c`) and of the configuration in `ES_Configure.h`,
together with theorems about their transition functions.

Conventions of the embedding:

* every service's module-level variables are collected in a structure, and its run
  function is a pure function from (state, event) to (state, effects, return event);
* calls into the framework (`ES_Timer_InitTimer`, `ES_Timer_StopTimer`, the `Post...`
  functions) are recorded, in program order, in a list of `Effect`s;
* `uint16_t` values are natural numbers reduced modulo `2 ^ 16` where a store could
  wrap, `int` values are integers;
* the results of `rand()` are supplied by the caller as a function from the call
  number to the value returned;
* a local `ES_Event_t` whose `EventParam` is never assigned is posted with an
  indeterminate parameter, supplied by the caller as `undef`.
-/

namespace NoTimeToFly

/-! ## Events, timers and effects (`ES_Configure.h`) -/

/-- The event tags of `ES_EventType_t`, in declaration order. -/
inductive ES_EventType_t where
  | ES_NO_EVENT
  | ES_ERROR
  | ES_INIT
  | ES_TIMEOUT
  | ES_SHORT_TIMEOUT
  | ES_NEW_KEY
  | ES_LOCK
  | ES_UNLOCK
  | ES_HAND_DETECTED
  | ES_COUNTDOWN_TIMEOUT
  | ES_PROGRESS_DONE
  | ES_INACTIVITY_TIMEOUT
  | ES_FUEL_TIMEOUT
  | ES_FUEL_BAR_TIMEOUT
  | ES_MISSILE_HIT
  | ES_LOSE
  | ES_WIN
  | IR_READ
  | IR_VALUE
  | MOTOR_CMD
  | MOTOR_MAX
  | MOTOR_MIN
  | MOTOR_RESET
  | ROS_READ
  | ROS_RESET
  | THROTTLE_UPDATE
  | THROTTLE_VALUE
  | FIRE_MISSILE
  | UPDATEDISPLAY
  | WRITE2DISPLAY
  | FUEL_UPDATE
  | FUEL_DONE
  | ENCODER_UPDATE
  | SERVO_RESET
  | RESET_ALL
  | RESET
  deriving DecidableEq, Repr

open ES_EventType_t

/-- An event record: a tag and a 16-bit parameter. -/
structure ES_Event_t where
  EventType : ES_EventType_t
  EventParam : Nat
  deriving DecidableEq, Repr

def SERVO_STEP_TIMER : Nat := 15
def COUNTDOWN_TIMER : Nat := 14
def PROGRESS_TIMER : Nat := 13
def INACTIVITY_TIMER : Nat := 12
def FUEL_TIMER : Nat := 11
def FUEL_BAR_TIMER : Nat := 10
def AUDIO_TIMER : Nat := 9
def IR_TIMER : Nat := 7
def OPTO_TIMER : Nat := 8
def LED_MISSILE_TIMER : Nat := 5
def THROTTLE_TIMER : Nat := 6
def ENCODER_TIMER : Nat := 4
def MOTOR_RESET_TIMER : Nat := 3
def MISSILE_TIMER : Nat := 2

/-- The services an event can be posted to (one per `Post...Service` function). -/
inductive Service where
  | GameService
  | ServoService
  | AudioService
  | DCMotorService
  | LEDMissileService
  | LEDFuelService
  | ThrottleService
  | OptoSensorService
  | IRService
  deriving DecidableEq, Repr

/-- The port pins written by the services: RB3, RB4, RB10, RB11 select the audio
tracks, RB6 and RB7 are the inputs H1 and H2 of the H-bridge. -/
inductive Pin where
  | RB3
  | RB4
  | RB6
  | RB7
  | RB10
  | RB11
  deriving DecidableEq, Repr

/-- The externally visible actions of a run function, recorded in program order. -/
inductive Effect where
  /-- The call `ES_Timer_InitTimer(id, ticks)`. -/
  | InitTimer (id ticks : Nat)
  /-- The call `ES_Timer_StopTimer(id)`. -/
  | StopTimer (id : Nat)
  /-- The call of the post function of `svc` with `ev`. -/
  | Post (svc : Service) (ev : ES_Event_t)
  /-- The call `ledOn(l1, l2, l3, status)`, a write of the missile LED shift register. -/
  | LedOn (l1 l2 l3 : Nat) (status : Int)
  /-- The call `PWMOperate_SetDutyOnChannel(duty, channel)`. -/
  | SetDuty (duty channel : Nat)
  /-- The call `PWMOperate_SetPulseWidthOnChannel(width, channel)`. -/
  | SetPulseWidth (width channel : Nat)
  /-- The store of `value` to the port or latch bit `pin`. -/
  | WritePin (pin : Pin) (value : Nat)
  /-- The store of a mask to `PORTBINV`, which inverts the listed pins. -/
  | InvertPins (pins : List Pin)
  deriving DecidableEq, Repr

/-! ## GameService.c -/

/-- The states of `GameServiceState_t`. -/
inductive GameServiceState_t where
  | InitGame
  | GameWelcome
  | GameWaiting
  | GamePlaying
  | GameLose
  | GameWin
  | GameRestart
  deriving DecidableEq, Repr

open GameServiceState_t

def CountdownTime : Nat := 4000
def InactivityTime : Nat := 30000
def InitMissileTime : Nat := 100
def MissileFireTime : Nat := 4000
def MAX_READ : Nat := 1023
def MIN_READ : Nat := 300
def MID : Nat := 661
def deltaThrottle : Int := 10

/-- The module variables of `GameService.c`. -/
structure GameVars where
  CurrentState : GameServiceState_t
  lastThrottleValue : Nat
  numMissiles : Int
  Missile : Bool
  deriving DecidableEq, Repr

/-- The result of one call of a run function. -/
structure RunResult (σ : Type) where
  vars : σ
  effects : List Effect
  ReturnEvent : ES_EventType_t

/-! ### Binary floating point

`SendCmd` computes in `double`. A finite non-negative value is represented by a
fraction `(n, d)` with `d > 0`; every arithmetic operation computes the exact
result and rounds it to `p` significant bits, ties to even (the exponent range is
not limited: the values that occur lie in `[25, 72300]` or are zero). -/

/-- Binary logarithm of a number below `2 ^ 2 ^ k`, by binary splitting. -/
def ilog2Aux : Nat → Nat → Nat
  | 0, _ => 0
  | k + 1, n => if 2 ^ 2 ^ k ≤ n then 2 ^ k + ilog2Aux k (n / 2 ^ 2 ^ k) else ilog2Aux k n

/-- The first `j ≥ k` with `n < 2 ^ 2 ^ j`; `fuel` bounds the search. -/
def ilog2Width : Nat → Nat → Nat → Nat
  | 0, k, _ => k
  | fuel + 1, k, n => if n < 2 ^ 2 ^ k then k else ilog2Width fuel (k + 1) n

/-- The integer `k` with `2 ^ k ≤ n < 2 ^ (k + 1)`, for `n > 0`. -/
def ilog2 (n : Nat) : Nat := ilog2Aux (ilog2Width n 0 n) n

/-- Round the fraction `n / d` to `p` significant bits, ties to even. With `ln` and `ld`
the binary logarithms of `n` and `d`, the fraction lies in `[2 ^ e, 2 ^ (e + 1))` for
`e = ln - ld - b`; it is scaled by `2 ^ (p - 1 - e) = 2 ^ (up - ln)` and the scaled
fraction `N / D` is rounded to the nearest integer `q`. -/
def fpRound (p : Nat) (n d : Nat) : Nat × Nat :=
  if n = 0 then (0, 1)
  else
    let ln := ilog2 n
    let ld := ilog2 d
    let b : Nat :=
      if ld ≤ ln then (if d * 2 ^ (ln - ld) ≤ n then 0 else 1)
      else (if d ≤ n * 2 ^ (ld - ln) then 0 else 1)
    let up := p - 1 + ld + b
    let N : Nat := n * 2 ^ (up - ln)
    let D : Nat := d * 2 ^ (ln - up)
    let q0 := N / D
    let r := N % D
    let q := if 2 * r < D then q0 else if D < 2 * r then q0 + 1 else q0 + q0 % 2
    (q * 2 ^ (ln - up), 2 ^ (up - ln))

/-- Conversion of a non-negative integer to floating point. -/
def fpOfNat (p : Nat) (n : Nat) : Nat × Nat := fpRound p n 1

def fpMul (p : Nat) (a b : Nat × Nat) : Nat × Nat := fpRound p (a.1 * b.1) (a.2 * b.2)

def fpDiv (p : Nat) (a b : Nat × Nat) : Nat × Nat := fpRound p (a.1 * b.2) (a.2 * b.1)

def fpAdd (p : Nat) (a b : Nat × Nat) : Nat × Nat :=
  fpRound p (a.1 * b.2 + b.1 * a.2) (a.2 * b.2)

def fpSub (p : Nat) (a b : Nat × Nat) : Nat × Nat :=
  fpRound p (a.1 * b.2 - b.1 * a.2) (a.2 * b.2)

/-- The conversion `(uint16_t)x` of a non-negative floating point value: truncation. -/
def fpToU16 (a : Nat × Nat) : Nat := (a.1 / a.2) % 65536

/-- The event posted by `SendCmd(val)` to the motor service, computed with `p`
significant bits. -/
def SendCmdP (p : Nat) (val : Nat) : ES_Event_t :=
  let cmd : Nat × Nat :=
    if val < MIN_READ ∨ val > MAX_READ then
      fpOfNat p 0
    else
      let cmd1 := fpDiv p (fpMul p (fpOfNat p 100) (fpOfNat p (val - MIN_READ)))
        (fpOfNat p (MAX_READ - MIN_READ))
      fpAdd p (fpDiv p (fpMul p cmd1 (fpSub p (fpOfNat p 45) (fpOfNat p 25))) (fpOfNat p 100))
        (fpOfNat p 25)
  { EventType := MOTOR_CMD, EventParam := fpToU16 cmd }

/-- The event posted by `SendCmd(val)`, with `double` as IEEE binary64 (53 significant bits). -/
def SendCmd (val : Nat) : ES_Event_t := SendCmdP 53 val

/-- The loop of the missile timeout: `n` iterations remain, `i` calls of `rand()` have
been made, `param` is the 16-bit accumulator. Each iteration draws `r = rand() % 12`
and stores `param + pow(2, r)` (an exact sum of integers in `double`) back into the
`uint16_t`. -/
def missileLoop (rand : Nat → Nat) : Nat → Nat → Nat → Nat
  | 0, _, param => param
  | n + 1, i, param => missileLoop rand n (i + 1) ((param + 2 ^ (rand i % 12)) % 65536)

/-- The parameter of the `FIRE_MISSILE` event built from `numMissiles` draws. -/
def missileParam (rand : Nat → Nat) (numMissiles : Int) : Nat :=
  missileLoop rand numMissiles.toNat 0 0

/-- `RunGameService(ThisEvent)` on the module variables `s`. -/
def RunGameService (s : GameVars) (ThisEvent : ES_Event_t) (rand : Nat → Nat) (undef : Nat) :
    RunResult GameVars :=
  match s.CurrentState with
  | InitGame =>
    if ThisEvent.EventType = ES_INIT then
      { vars := { s with CurrentState := GameWelcome, Missile := true }
        effects := [Effect.Post Service.ServoService ThisEvent]
        ReturnEvent := ES_NO_EVENT }
    else
      { vars := s, effects := [], ReturnEvent := ES_NO_EVENT }
  | GameWelcome =>
    match ThisEvent.EventType with
    | ES_HAND_DETECTED =>
      { vars := { s with lastThrottleValue := 0 }
        effects := [Effect.InitTimer COUNTDOWN_TIMER CountdownTime,
          Effect.Post Service.AudioService ThisEvent]
        ReturnEvent := ES_NO_EVENT }
    | ES_TIMEOUT =>
      if ThisEvent.EventParam = COUNTDOWN_TIMER then
        { vars := { s with CurrentState := GamePlaying }
          effects := [Effect.Post Service.ServoService ThisEvent,
            Effect.InitTimer MISSILE_TIMER InitMissileTime]
          ReturnEvent := ES_NO_EVENT }
      else
        { vars := s, effects := [], ReturnEvent := ES_NO_EVENT }
    | _ => { vars := s, effects := [], ReturnEvent := ES_NO_EVENT }
  | GamePlaying =>
    match ThisEvent.EventType with
    | RESET =>
      { vars := { s with CurrentState := GameWelcome, Missile := true }
        effects := []
        ReturnEvent := ES_NO_EVENT }
    | IR_VALUE =>
      { vars := s
        effects := [Effect.Post Service.DCMotorService (SendCmd ThisEvent.EventParam),
          Effect.InitTimer INACTIVITY_TIMER InactivityTime]
        ReturnEvent := ES_NO_EVENT }
    | THROTTLE_VALUE =>
      let delta : Int := (ThisEvent.EventParam : Int) - (s.lastThrottleValue : Int)
      let rearm : List Effect :=
        if delta > deltaThrottle ∨ delta < deltaThrottle then
          [Effect.InitTimer INACTIVITY_TIMER InactivityTime]
        else []
      let lastThrottleValue := ThisEvent.EventParam
      let Event2Post : ES_Event_t := { EventType := FUEL_UPDATE, EventParam := lastThrottleValue }
      let numMissiles : Int :=
        if lastThrottleValue < 850 then 3
        else if lastThrottleValue < 925 then 2
        else if lastThrottleValue < 1024 then 1
        else s.numMissiles
      { vars := { s with lastThrottleValue := lastThrottleValue, numMissiles := numMissiles }
        effects := rearm ++ [Effect.Post Service.LEDFuelService Event2Post]
        ReturnEvent := ES_NO_EVENT }
    | ES_TIMEOUT =>
      let fire : List Effect :=
        if ThisEvent.EventParam = MISSILE_TIMER then
          let Event2Post : ES_Event_t :=
            { EventType := FIRE_MISSILE, EventParam := missileParam rand s.numMissiles }
          [Effect.Post Service.LEDMissileService Event2Post,
            Effect.InitTimer MISSILE_TIMER MissileFireTime]
        else []
      if ThisEvent.EventParam = INACTIVITY_TIMER then
        { vars := { s with CurrentState := GameRestart }
          effects := fire ++ [Effect.Post Service.GameService { ThisEvent with EventType := RESET_ALL }]
          ReturnEvent := ES_NO_EVENT }
      else
        { vars := s, effects := fire, ReturnEvent := ES_NO_EVENT }
    | ES_PROGRESS_DONE =>
      { vars := { s with CurrentState := GameWin }
        effects := [Effect.StopTimer INACTIVITY_TIMER, Effect.StopTimer FUEL_TIMER,
          Effect.StopTimer FUEL_BAR_TIMER,
          Effect.Post Service.GameService { ThisEvent with EventType := ES_WIN }]
        ReturnEvent := ES_NO_EVENT }
    | FUEL_DONE =>
      { vars := { s with Missile := false }
        effects := [Effect.Post Service.GameService
          { EventType := ES_MISSILE_HIT, EventParam := undef }]
        ReturnEvent := ES_NO_EVENT }
    | ES_MISSILE_HIT =>
      { vars := { s with CurrentState := GameLose, Missile := true }
        effects := [Effect.Post Service.DCMotorService (SendCmd MID),
          Effect.Post Service.AudioService ThisEvent,
          Effect.Post Service.GameService { ThisEvent with EventType := ES_LOSE }]
        ReturnEvent := ES_NO_EVENT }
    | _ => { vars := s, effects := [], ReturnEvent := ES_NO_EVENT }
  | GameLose =>
    if ThisEvent.EventType = ES_LOSE then
      { vars := { s with CurrentState := GameRestart }
        effects := [Effect.Post Service.AudioService ThisEvent,
          Effect.Post Service.ServoService ThisEvent,
          Effect.Post Service.GameService { ThisEvent with EventType := RESET_ALL }]
        ReturnEvent := ES_NO_EVENT }
    else
      { vars := s, effects := [], ReturnEvent := ES_NO_EVENT }
  | GameWin =>
    if ThisEvent.EventType = ES_WIN then
      { vars := { s with CurrentState := GameRestart }
        effects := [Effect.Post Service.AudioService ThisEvent,
          Effect.Post Service.ServoService ThisEvent,
          Effect.Post Service.GameService { ThisEvent with EventType := RESET_ALL }]
        ReturnEvent := ES_NO_EVENT }
    else
      { vars := s, effects := [], ReturnEvent := ES_NO_EVENT }
  | GameRestart =>
    match ThisEvent.EventType with
    | MOTOR_RESET =>
      { vars := s
        effects := [Effect.Post Service.DCMotorService { ThisEvent with EventType := RESET },
          Effect.Post Service.GameService { ThisEvent with EventType := SERVO_RESET }]
        ReturnEvent := ES_NO_EVENT }
    | SERVO_RESET =>
      { vars := s
        effects := [Effect.Post Service.ServoService ThisEvent,
          Effect.Post Service.GameService { ThisEvent with EventType := RESET_ALL }]
        ReturnEvent := ES_NO_EVENT }
    | RESET_ALL =>
      let ev : ES_Event_t := { ThisEvent with EventType := RESET }
      { vars := { s with CurrentState := GameWelcome }
        effects := [Effect.Post Service.GameService ev,
          Effect.Post Service.OptoSensorService ev,
          Effect.Post Service.AudioService ev,
          Effect.Post Service.IRService ev,
          Effect.Post Service.LEDMissileService ev,
          Effect.Post Service.LEDFuelService ev,
          Effect.Post Service.ServoService ev,
          Effect.Post Service.DCMotorService ev,
          Effect.Post Service.ThrottleService ev]
        ReturnEvent := ES_NO_EVENT }
    | _ => { vars := s, effects := [], ReturnEvent := ES_NO_EVENT }
  | GameWaiting => { vars := s, effects := [], ReturnEvent := ES_NO_EVENT }

/-! ## LEDMissileService.c -/

/-- The states of `MissileState_t`. -/
inductive MissileState_t where
  | InitPState
  | MissileFiring
  deriving DecidableEq, Repr

open MissileState_t

def INIT_TIME : Nat := 200
def BLINK_TIME : Nat := 200
def MISSILE_TIME : Nat := 1000
def delta : Int := 30
def thresh : Int := 10

/-- The module variables of `LEDMissileService.c`. `ledStatus` is the array
`int ledStatus[12]`. -/
structure MissileVars where
  CurrentState : MissileState_t
  BlinkFlag : Int
  MissileFlag : Int
  temp : Nat
  ledStatus : List Int
  led1 : Nat
  led2 : Nat
  led3 : Nat
  EncoderFlag : Bool
  deriving DecidableEq, Repr

/-- The module variables after `InitLEDMissileService`: the static initialisers and
`CurrentState = InitPState`. -/
def InitLEDMissileVars : MissileVars :=
  { CurrentState := InitPState, BlinkFlag := 0, MissileFlag := 0, temp := 0,
    ledStatus := List.replicate 12 0, led1 := 0, led2 := 0, led3 := 0, EncoderFlag := false }

/-- The first loop of `decodeParam`:
`for (; param > 0; i++) { ledStatus[i] = param % 2; param = param / 2; }`,
returning the final `i` and the array. `param` is a `uint16_t`, so sixteen halvings
(the fuel `decodeParam` passes) always reach `param = 0`. A store beyond the end of
the array is dropped by `List.set`. -/
def decodeLoop1 : Nat → Nat → Nat → List Int → Nat × List Int
  | 0, _, i, ledStatus => (i, ledStatus)
  | fuel + 1, param, i, ledStatus =>
    if param > 0 then
      decodeLoop1 fuel (param / 2) (i + 1) (ledStatus.set i ((param % 2 : Nat) : Int))
    else (i, ledStatus)

/-- The second loop of `decodeParam`: `for (; i < 12; i++) { ledStatus[i] = 0; }`,
with `n` the number of iterations left. -/
def decodeLoop2 : Nat → Nat → List Int → List Int
  | 0, _, ledStatus => ledStatus
  | n + 1, i, ledStatus => decodeLoop2 n (i + 1) (ledStatus.set i 0)

/-- `decodeParam(param, ledStatus)`: the array after the call. -/
def decodeParam (param : Nat) (ledStatus : List Int) : List Int :=
  let r := decodeLoop1 16 param 0 ledStatus
  decodeLoop2 (12 - r.1) r.1 r.2

/-- The local variables of the scan for the active LEDs. -/
structure LedScan where
  led1 : Nat
  led2 : Nat
  led3 : Nat
  count : Int
  deriving DecidableEq, Repr

/-- One iteration of the scan `for (int i = 0; i < 12; i++)` over `ledStatus`. -/
def ledScanStep (ledStatus : List Int) (c : LedScan) (i : Nat) : LedScan :=
  if ledStatus.getD i 0 = 1 then
    if c.count = 0 then { c with led1 := i + 1, count := c.count + 1 }
    else if c.count = 1 then { c with led2 := i + 1, count := c.count + 1 }
    else if c.count = 2 then { c with led3 := i + 1, count := c.count + 1 }
    else c
  else c

/-- The scan for `led1`, `led2`, `led3`, started with all three and `count` zero. -/
def ledScan (ledStatus : List Int) : LedScan :=
  (List.range 12).foldl (ledScanStep ledStatus) { led1 := 0, led2 := 0, led3 := 0, count := 0 }

/-- The collision test of slot `i` against `position`. -/
def hitsSlot (ledStatus : List Int) (position : Nat) (i : Nat) : Bool :=
  decide (ledStatus.getD i 0 = 1) &&
    (decide ((position : Int) ≤ (i : Int) * delta + thresh) &&
      decide ((position : Int) ≥ (i : Int) * delta - thresh))

/-- The posts of the collision loop `for (int i = 0; i < 12; i++)`: one
`ES_MISSILE_HIT` (with an unassigned parameter) per slot that is hit. -/
def encoderPosts (ledStatus : List Int) (position : Nat) (undef : Nat) : List Effect :=
  ((List.range 12).filter (hitsSlot ledStatus position)).map
    (fun _ => Effect.Post Service.GameService { EventType := ES_MISSILE_HIT, EventParam := undef })

/-- `RunLEDMissileService(ThisEvent)` on the module variables `s`. -/
def RunLEDMissileService (s : MissileVars) (ThisEvent : ES_Event_t) (undef : Nat) :
    RunResult MissileVars :=
  match s.CurrentState with
  | InitPState =>
    if ThisEvent.EventType = ES_INIT then
      { vars := { s with CurrentState := MissileFiring, BlinkFlag := 0, MissileFlag := 0 }
        effects := []
        ReturnEvent := ES_NO_EVENT }
    else
      { vars := s, effects := [], ReturnEvent := ES_NO_EVENT }
  | MissileFiring =>
    match ThisEvent.EventType with
    | RESET =>
      { vars := { s with BlinkFlag := 0, MissileFlag := 0 }
        effects := []
        ReturnEvent := ES_NO_EVENT }
    | FIRE_MISSILE =>
      let temp := ThisEvent.EventParam
      let ledStatus := decodeParam temp s.ledStatus
      let c := ledScan ledStatus
      { vars := { s with temp := temp, ledStatus := ledStatus, led1 := c.led1, led2 := c.led2,
                         led3 := c.led3, BlinkFlag := 0, MissileFlag := 0 }
        effects := [Effect.InitTimer LED_MISSILE_TIMER INIT_TIME]
        ReturnEvent := ES_NO_EVENT }
    | ES_TIMEOUT =>
      if s.BlinkFlag = 0 then
        { vars := { s with BlinkFlag := 1 }
          effects := [Effect.LedOn s.led1 s.led2 s.led3 1,
            Effect.InitTimer LED_MISSILE_TIMER BLINK_TIME]
          ReturnEvent := ES_NO_EVENT }
      else if s.BlinkFlag = 1 then
        { vars := { s with BlinkFlag := 2 }
          effects := [Effect.LedOn s.led1 s.led2 s.led3 0,
            Effect.InitTimer LED_MISSILE_TIMER BLINK_TIME]
          ReturnEvent := ES_NO_EVENT }
      else if s.BlinkFlag = 2 then
        { vars := { s with BlinkFlag := 3 }
          effects := [Effect.LedOn s.led1 s.led2 s.led3 1,
            Effect.InitTimer LED_MISSILE_TIMER BLINK_TIME]
          ReturnEvent := ES_NO_EVENT }
      else if s.BlinkFlag = 3 then
        { vars := { s with BlinkFlag := 4, MissileFlag := 0 }
          effects := [Effect.LedOn s.led1 s.led2 s.led3 0,
            Effect.InitTimer LED_MISSILE_TIMER BLINK_TIME]
          ReturnEvent := ES_NO_EVENT }
      else if s.MissileFlag = 0 then
        { vars := { s with MissileFlag := 1, EncoderFlag := true }
          effects := [Effect.LedOn s.led1 s.led2 s.led3 1,
            Effect.InitTimer LED_MISSILE_TIMER MISSILE_TIME]
          ReturnEvent := ES_NO_EVENT }
      else if s.MissileFlag = 1 then
        { vars := { s with MissileFlag := 2, EncoderFlag := false }
          effects := [Effect.LedOn s.led1 s.led2 s.led3 0]
          ReturnEvent := ES_NO_EVENT }
      else
        { vars := s, effects := [], ReturnEvent := ES_NO_EVENT }
    | ENCODER_UPDATE =>
      if s.EncoderFlag = true then
        { vars := s
          effects := encoderPosts s.ledStatus ThisEvent.EventParam undef
          ReturnEvent := ES_NO_EVENT }
      else
        { vars := s, effects := [], ReturnEvent := ES_NO_EVENT }
    | _ => { vars := s, effects := [], ReturnEvent := ES_NO_EVENT }

/-! ### Bits of a parameter and the summary of a scan -/

/-- Bit `i` of `p`. -/
def bitOf (p i : Nat) : Nat := p / 2 ^ i % 2

/-- The indices, in increasing order, of the bits set among the twelve low bits of `p`. -/
def setBits (p : Nat) : List Nat := (List.range 12).filter (fun i => bitOf p i = 1)

/-- The LED number `i + 1` of the `k`-th (from 0) index `i` of the list `F`, or 0 if `F`
has no such entry. -/
def ledAt (F : List Nat) (k : Nat) : Nat :=
  match F[k]? with
  | some i => i + 1
  | none => 0

/-- The scan variables that summarise the increasing list `F` of live slots: the LED
numbers of its first three entries and their count, at most three. -/
def scanSummary (F : List Nat) : LedScan :=
  { led1 := ledAt F 0, led2 := ledAt F 1, led3 := ledAt F 2, count := ((min 3 F.length : Nat) : Int) }

/-! ## DCMotorService.c -/

/-- Motor direction `CW` (`true`). -/
def CW : Bool := true

/-- Motor direction `CCW` (`false`). -/
def CCW : Bool := false

/-- The module variables of `DCMotorService.c`. `Count` is an `int32_t`, the encoder
states are `uint8_t` samples of a pin (0 or 1). -/
structure MotorVars where
  LastDir : Bool
  SpeedCmd : Nat
  Count : Int
  LastEncAState : Nat
  LastEncBState : Nat
  InitComplete : Bool
  deriving DecidableEq, Repr

/-- Reduction of an integer to the range of `int32_t` (two's complement). -/
def wrapInt32 (x : Int) : Int := (x + 2147483648) % 4294967296 - 2147483648

/-- `GetAngleDeg()`: the value stored in the `uint16_t ang` and returned. The
remainder `%` of C truncates towards zero (`Int.tmod`). -/
def GetAngleDeg (s : MotorVars) : Nat :=
  if s.Count < 0 then
    ((360 - (wrapInt32 (-s.Count)).tmod 360) % 65536).toNat
  else
    ((s.Count.tmod 360) % 65536).toNat

/-- `DecodeQuadrature(CurrentEncAState, CurrentEncBState)`. -/
def DecodeQuadrature (s : MotorVars) (CurrentEncAState CurrentEncBState : Nat) : Bool :=
  if CurrentEncAState ≠ s.LastEncAState then
    if s.LastEncAState = 0 ∧ CurrentEncBState > 0 then CCW
    else if s.LastEncAState = 0 ∧ CurrentEncBState = 0 then CW
    else if s.LastEncAState = 1 ∧ CurrentEncBState > 0 then CW
    else CCW
  else s.LastDir

/-- The PWM channel `ENA_CHANNEL` of the motor. -/
def ENA_CHANNEL : Nat := 4

def ENCODER_TIME : Nat := 20

/-- The result of a helper function: the module variables and the effects, in order. -/
abbrev Step (σ : Type) := σ × List Effect

/-- `SetDir(dir)`: a change of direction inverts both H-bridge inputs. -/
def SetDir (s : MotorVars) (dir : Bool) : Step MotorVars :=
  if dir ≠ s.LastDir then
    ({ s with LastDir := dir }, [Effect.InvertPins [Pin.RB6, Pin.RB7]])
  else (s, [])

/-- `SetSpeed(cmd)` for the `uint8_t` argument `cmd`. -/
def SetSpeed (s : MotorVars) (cmd : Nat) : Step MotorVars :=
  let r : Step MotorVars × Nat :=
    if cmd ≤ 100 then (SetDir s CCW, cmd)
    else if cmd > 100 ∧ cmd ≤ 201 then (SetDir s CW, (cmd - 101) % 256)
    else ((s, []), 0)
  ({ r.1.1 with SpeedCmd := r.2 }, r.1.2 ++ [Effect.SetDuty r.2 ENA_CHANNEL])

/-- The character code of a key. -/
def key (c : Char) : Nat := c.toNat

/-- The two-way choice that `DecodeMotorKey` makes for a digit key: `SetSpeed(a)` when the
last direction is CW, `SetSpeed(b)` otherwise. The arguments are converted to `uint8_t`. -/
def speedByDir (s : MotorVars) (a b : Nat) : Step MotorVars :=
  if s.LastDir = CW then SetSpeed s (a % 256) else SetSpeed s (b % 256)

/-- `DecodeMotorKey(key)`. -/
def DecodeMotorKey (s : MotorVars) (k : Nat) : Step MotorVars :=
  if k = key 'd' then SetDir s (!s.LastDir)
  else if k = key 'w' then
    if s.LastDir = CW then
      (if s.SpeedCmd < 100 then SetSpeed s ((s.SpeedCmd + 1) % 256) else (s, []))
    else
      (if s.SpeedCmd < 100 then SetSpeed s ((101 + s.SpeedCmd + 1) % 256) else (s, []))
  else if k = key 's' then
    if s.LastDir = CW then
      (if s.SpeedCmd > 0 then SetSpeed s ((s.SpeedCmd - 1) % 256) else (s, []))
    else
      (if s.SpeedCmd > 0 then SetSpeed s ((101 + s.SpeedCmd - 1) % 256) else (s, []))
  else if k = key '9' then speedByDir s 90 (101 + 90)
  else if k = key '8' then speedByDir s 80 (101 + 80)
  else if k = key '7' then speedByDir s 70 (101 + 70)
  else if k = key '6' then speedByDir s 60 (101 + 60)
  else if k = key '5' then speedByDir s 50 (101 + 50)
  else if k = key '4' then speedByDir s 40 (101 + 40)
  else if k = key '3' then SetSpeed s (101 + 40)
  else if k = key '2' then SetSpeed s 40
  else if k = key '1' then speedByDir s 10 (101 + 10)
  else if k = key '0' then speedByDir s 0 (101 + 0)
  else (s, [])

/-- `RunDCMotorService(ThisEvent)` on the module variables `s`. -/
def RunDCMotorService (s : MotorVars) (ThisEvent : ES_Event_t) : RunResult MotorVars :=
  match ThisEvent.EventType with
  | RESET =>
    let r := SetSpeed s 101
    if r.1.InitComplete = false then
      { vars := { r.1 with InitComplete := true }
        effects := r.2 ++ [Effect.WritePin Pin.RB6 1,
          Effect.Post Service.DCMotorService ThisEvent,
          Effect.InitTimer ENCODER_TIMER ENCODER_TIME]
        ReturnEvent := ES_NO_EVENT }
    else
      { vars := { r.1 with Count := (GetAngleDeg r.1 : Int) }
        effects := r.2 ++ [Effect.WritePin Pin.RB7 0,
          Effect.InitTimer ENCODER_TIMER ENCODER_TIME]
        ReturnEvent := ES_NO_EVENT }
  | ES_INIT =>
    if s.InitComplete = false then
      { vars := { s with InitComplete := true }
        effects := [Effect.WritePin Pin.RB6 1,
          Effect.Post Service.DCMotorService ThisEvent,
          Effect.InitTimer ENCODER_TIMER ENCODER_TIME]
        ReturnEvent := ES_NO_EVENT }
    else
      let r := SetDir s CW
      { vars := { r.1 with InitComplete := false }
        effects := [Effect.WritePin Pin.RB7 0] ++ r.2 ++
          [Effect.InitTimer ENCODER_TIMER ENCODER_TIME]
        ReturnEvent := ES_NO_EVENT }
  | ES_TIMEOUT =>
    let enc : List Effect :=
      if ThisEvent.EventParam = ENCODER_TIMER then
        [Effect.Post Service.LEDMissileService
            { EventType := ENCODER_UPDATE, EventParam := GetAngleDeg s },
          Effect.InitTimer ENCODER_TIMER ENCODER_TIME]
      else []
    let rst : List Effect :=
      if ThisEvent.EventParam = MOTOR_RESET_TIMER then
        [Effect.Post Service.DCMotorService { ThisEvent with EventType := MOTOR_RESET }]
      else []
    { vars := s, effects := enc ++ rst, ReturnEvent := ES_NO_EVENT }
  | MOTOR_CMD =>
    let r := SetSpeed s (ThisEvent.EventParam % 256)
    { vars := r.1, effects := r.2, ReturnEvent := ES_NO_EVENT }
  | ES_NEW_KEY =>
    let r := DecodeMotorKey s (ThisEvent.EventParam % 256)
    { vars := r.1, effects := r.2, ReturnEvent := ES_NO_EVENT }
  | _ => { vars := s, effects := [], ReturnEvent := ES_NO_EVENT }

/-! ## ServoService.c -/

/-- The states of `ServoServiceState_t`. -/
inductive ServoServiceState_t where
  | InitServo
  | ServoWaiting
  | ServoPlaying
  deriving DecidableEq, Repr

open ServoServiceState_t

def TICS_PER_MS : Nat := 2500

/-- The constant `FULL_CW`, `(uint16_t)(0.7 * TICS_PER_MS)`, evaluated in binary64. -/
def FULL_CW : Nat := fpToU16 (fpMul 53 (fpRound 53 7 10) (fpOfNat 53 TICS_PER_MS))

/-- The constant `FULL_CCW`, `(uint16_t)(2.25 * TICS_PER_MS)`, evaluated in binary64. -/
def FULL_CCW : Nat := fpToU16 (fpMul 53 (fpRound 53 225 100) (fpOfNat 53 TICS_PER_MS))

/-- The constant `TICKS_PER_STEP`, `(FULL_CCW - FULL_CW) / 100` in `int` arithmetic. -/
def TICKS_PER_STEP : Nat := (FULL_CCW - FULL_CW) / 100

def DIRECTION_CW : Bool := true

def DIRECTION_CCW : Bool := false

/-- The PWM channel of the servo. -/
def SERVO_CHANNEL : Nat := 2

/-- The module variables of `ServoService.c`; the positions, limits and `timeStep` are
`uint16_t`. -/
structure ServoVars where
  CurrentState : ServoServiceState_t
  CurrentPosition : Nat
  cwLimit : Nat
  ccwLimit : Nat
  timeStep : Nat
  isMoving : Bool
  moveDirection : Bool
  deriving DecidableEq, Repr

/-- The module variables after `InitServoService`: the static initialisers,
`CurrentState = InitServo` and `CurrentPosition = ccwLimit`. -/
def InitServoVars : ServoVars :=
  { CurrentState := InitServo, CurrentPosition := FULL_CCW, cwLimit := FULL_CW,
    ccwLimit := FULL_CCW, timeStep := 25 * 21, isMoving := false,
    moveDirection := DIRECTION_CCW }

/-- `DecodeKey(KeyToDecode)` of the servo service. -/
def DecodeKey (s : ServoVars) (KeyToDecode : Nat) : Step ServoVars :=
  if KeyToDecode = key 'r' then
    ({ s with CurrentPosition := s.ccwLimit },
      [Effect.SetPulseWidth s.ccwLimit SERVO_CHANNEL, Effect.StopTimer SERVO_STEP_TIMER])
  else if KeyToDecode = key 'b' then
    ({ s with isMoving := true, moveDirection := DIRECTION_CW },
      [Effect.InitTimer SERVO_STEP_TIMER s.timeStep])
  else (s, [])

/-- `TakeMoveStep()`: one step in the move direction, observing the limits. The
position is a `uint16_t`, so the additions and subtractions wrap modulo `2 ^ 16`. -/
def TakeMoveStep (s : ServoVars) (undef : Nat) : Step ServoVars :=
  if DIRECTION_CCW = s.moveDirection then
    let pos := (s.CurrentPosition + TICKS_PER_STEP) % 65536
    if s.ccwLimit ≥ pos then
      ({ s with CurrentPosition := pos }, [Effect.SetPulseWidth pos SERVO_CHANNEL])
    else
      ({ s with CurrentPosition := (pos + 65536 - TICKS_PER_STEP) % 65536, isMoving := false }, [])
  else if DIRECTION_CW = s.moveDirection then
    let pos := (s.CurrentPosition + 65536 - TICKS_PER_STEP) % 65536
    if s.cwLimit ≤ pos then
      ({ s with CurrentPosition := pos }, [Effect.SetPulseWidth pos SERVO_CHANNEL])
    else
      ({ s with CurrentPosition := (pos + TICKS_PER_STEP) % 65536, isMoving := false },
        [Effect.Post Service.GameService { EventType := ES_PROGRESS_DONE, EventParam := undef }])
  else (s, [])

/-- `RunServoService(ThisEvent)` of `ServoService.c` on the module variables `s`. -/
def RunServoService (s : ServoVars) (ThisEvent : ES_Event_t) (undef : Nat) :
    RunResult ServoVars :=
  match s.CurrentState with
  | InitServo =>
    if ThisEvent.EventType = ES_INIT then
      let r := DecodeKey s (key 'r')
      { vars := { r.1 with CurrentState := ServoWaiting }
        effects := r.2
        ReturnEvent := ES_NO_EVENT }
    else
      { vars := s, effects := [], ReturnEvent := ES_NO_EVENT }
  | ServoWaiting =>
    match ThisEvent.EventType with
    | ES_INIT =>
      let r := DecodeKey s (key 'r')
      { vars := r.1, effects := r.2, ReturnEvent := ES_NO_EVENT }
    | ES_TIMEOUT =>
      if SERVO_STEP_TIMER = ThisEvent.EventParam ∧ true = s.isMoving then
        let r := TakeMoveStep s undef
        { vars := r.1
          effects := r.2 ++
            (if true = r.1.isMoving then [Effect.InitTimer SERVO_STEP_TIMER r.1.timeStep] else [])
          ReturnEvent := ES_NO_EVENT }
      else
        { vars := s, effects := [], ReturnEvent := ES_NO_EVENT }
    | ES_WIN =>
      { vars := s, effects := [Effect.StopTimer SERVO_STEP_TIMER], ReturnEvent := ES_NO_EVENT }
    | ES_LOSE =>
      { vars := s, effects := [Effect.StopTimer SERVO_STEP_TIMER], ReturnEvent := ES_NO_EVENT }
    | RESET =>
      let r := DecodeKey s (key 'r')
      { vars := r.1
        effects := r.2 ++ [Effect.StopTimer SERVO_STEP_TIMER]
        ReturnEvent := ES_NO_EVENT }
    | _ => { vars := s, effects := [], ReturnEvent := ES_NO_EVENT }
  | ServoPlaying => { vars := s, effects := [], ReturnEvent := ES_NO_EVENT }

/-- The `ES_TIMEOUT` case of the copy of `RunServoService` kept in `FuelService.c`: after
the step branch it starts the slow move on the countdown timeout. -/
def RunServoService_FuelService_timeout (s : ServoVars) (ThisEvent : ES_Event_t)
    (undef : Nat) : RunResult ServoVars :=
  let r1 : Step ServoVars :=
    if SERVO_STEP_TIMER = ThisEvent.EventParam ∧ true = s.isMoving then
      let r := TakeMoveStep s undef
      (r.1, r.2 ++
        (if true = r.1.isMoving then [Effect.InitTimer SERVO_STEP_TIMER r.1.timeStep] else []))
    else (s, [])
  if COUNTDOWN_TIMER = ThisEvent.EventParam then
    let r2 := DecodeKey r1.1 (key 'b')
    { vars := r2.1, effects := r1.2 ++ r2.2, ReturnEvent := ES_NO_EVENT }
  else
    { vars := r1.1, effects := r1.2, ReturnEvent := ES_NO_EVENT }

/-! ## AudioService.c -/

/-- The states of `AudioServiceState_t`. -/
inductive AudioServiceState_t where
  | InitAudio
  | AudioWaiting
  deriving DecidableEq, Repr

open AudioServiceState_t

def IntroAudio : Nat := 4000
def ExplosionAudio : Nat := 1500
def WinAudio : Nat := 18200
def LoseAudio : Nat := 1500

/-- The module variables of `AudioService.c`. -/
structure AudioVars where
  CurrentState : AudioServiceState_t
  deriving DecidableEq, Repr

/-- The module variables after `InitAudioService`. -/
def InitAudioVars : AudioVars := { CurrentState := InitAudio }

/-- `RunAudioService(ThisEvent)` on the module variables `s`. -/
def RunAudioService (s : AudioVars) (ThisEvent : ES_Event_t) : RunResult AudioVars :=
  match s.CurrentState with
  | InitAudio =>
    if ThisEvent.EventType = ES_INIT then
      { vars := { s with CurrentState := AudioWaiting }, effects := [], ReturnEvent := ES_NO_EVENT }
    else
      { vars := s, effects := [], ReturnEvent := ES_NO_EVENT }
  | AudioWaiting =>
    match ThisEvent.EventType with
    | ES_HAND_DETECTED =>
      { vars := s
        effects := [Effect.WritePin Pin.RB3 0, Effect.InitTimer AUDIO_TIMER IntroAudio]
        ReturnEvent := ES_NO_EVENT }
    | ES_MISSILE_HIT =>
      { vars := s
        effects := [Effect.WritePin Pin.RB4 0, Effect.InitTimer AUDIO_TIMER ExplosionAudio]
        ReturnEvent := ES_NO_EVENT }
    | ES_LOSE =>
      { vars := s
        effects := [Effect.WritePin Pin.RB11 0, Effect.InitTimer AUDIO_TIMER LoseAudio]
        ReturnEvent := ES_NO_EVENT }
    | ES_WIN =>
      { vars := s
        effects := [Effect.WritePin Pin.RB10 0, Effect.InitTimer AUDIO_TIMER WinAudio]
        ReturnEvent := ES_NO_EVENT }
    | ES_TIMEOUT =>
      { vars := s
        effects := [Effect.WritePin Pin.RB3 1, Effect.WritePin Pin.RB4 1,
          Effect.WritePin Pin.RB10 1, Effect.WritePin Pin.RB11 1]
        ReturnEvent := ES_NO_EVENT }
    | _ => { vars := s, effects := [], ReturnEvent := ES_NO_EVENT }

/-! ## OptoSensorService.c -/

/-- The states of `OptoState_t`. -/
inductive OptoState_t where
  | Active
  | Idle
  deriving DecidableEq, Repr

open OptoState_t

/-- The threshold `THRESH` of the opto sensor reading. -/
def OPTO_THRESH : Nat := 970

/-- The delay `WAIT` between two readings of the opto sensor. -/
def WAIT : Nat := 300 * 1

/-- The module variables of `OptoSensorService.c`. -/
structure OptoVars where
  CurrentState : OptoState_t
  deriving DecidableEq, Repr

/-- The module variables after `InitOptoSensorService`. -/
def InitOptoVars : OptoVars := { CurrentState := Active }

/-- `RunOptoSensorService(ThisEvent)` on the module variables `s`; `adc` is the value
`currentVal[0]` that `ADC_MultiRead` delivers when the event is `ROS_READ`. -/
def RunOptoSensorService (s : OptoVars) (ThisEvent : ES_Event_t) (adc : Nat) (undef : Nat) :
    RunResult OptoVars :=
  match s.CurrentState with
  | Active =>
    match ThisEvent.EventType with
    | RESET =>
      { vars := s
        effects := [Effect.Post Service.OptoSensorService { ThisEvent with EventType := ES_INIT }]
        ReturnEvent := ES_NO_EVENT }
    | ES_INIT =>
      { vars := s, effects := [Effect.InitTimer OPTO_TIMER WAIT], ReturnEvent := ES_NO_EVENT }
    | ES_TIMEOUT =>
      { vars := s
        effects := [Effect.Post Service.OptoSensorService
          { EventType := ROS_READ, EventParam := undef }]
        ReturnEvent := ES_NO_EVENT }
    | ROS_READ =>
      if adc < OPTO_THRESH then
        { vars := { s with CurrentState := Idle }
          effects := [Effect.Post Service.GameService
            { EventType := ES_HAND_DETECTED, EventParam := undef }]
          ReturnEvent := ES_NO_EVENT }
      else
        { vars := s, effects := [Effect.InitTimer OPTO_TIMER WAIT], ReturnEvent := ES_NO_EVENT }
    | _ => { vars := s, effects := [], ReturnEvent := ES_NO_EVENT }
  | Idle =>
    match ThisEvent.EventType with
    | ROS_RESET =>
      { vars := { s with CurrentState := Active }
        effects := [Effect.InitTimer OPTO_TIMER WAIT]
        ReturnEvent := ES_NO_EVENT }
    | RESET =>
      { vars := { s with CurrentState := Active }
        effects := [Effect.Post Service.OptoSensorService { ThisEvent with EventType := ES_INIT }]
        ReturnEvent := ES_NO_EVENT }
    | _ => { vars := s, effects := [], ReturnEvent := ES_NO_EVENT }

/-- `CheckEncoderEvents()`: `ENCA` and `ENCB` are the values read from the encoder pins.
Returns the module variables and the return value. `Count` is an `int32_t`. -/
def CheckEncoderEvents (s : MotorVars) (ENCA ENCB : Nat) : MotorVars × Bool :=
  let CurrentEncAState := ENCA
  let CurrentEncBState := ENCB
  let s1 : MotorVars :=
    if CurrentEncAState ≠ s.LastEncAState ∧ CurrentEncAState = 0 then
      let dir := DecodeQuadrature s CurrentEncAState CurrentEncBState
      if dir = CCW then { s with Count := wrapInt32 (s.Count + 2) }
      else { s with Count := wrapInt32 (s.Count - 2) }
    else s
  ({ s1 with LastEncAState := CurrentEncAState, LastEncBState := CurrentEncBState }, false)

/-! ## PIC32_PORT_HAL.c -/

/-- The port `_Port_A` of `PortSetup_Port_t`. -/
def _Port_A : Nat := 0

/-- The port `_Port_B` of `PortSetup_Port_t`. -/
def _Port_B : Nat := 1

/-- The pin mask `_Pin_n` of `PortSetup_Pin_t`, a single one in bit `n`. -/
def _Pin (n : Nat) : Nat := 1 <<< n

/-- The 32-bit special function registers that the digital pin setup writes. -/
structure PortRegs where
  ANSELA : Nat
  TRISA : Nat
  ANSELB : Nat
  TRISB : Nat
  deriving DecidableEq, Repr

/-- The update `reg &= ~WhichPin` of a 32-bit register. -/
def clearBits (reg WhichPin : Nat) : Nat := reg &&& (4294967295 ^^^ (WhichPin % 4294967296))

/-- `PortSetup_ConfigureDigitalOutputs(WhichPort, WhichPin)`: the return value and the
registers. In C the test `bitmask&WhichPin!=0` parses as `bitmask & (WhichPin != 0)`. -/
def PortSetup_ConfigureDigitalOutputs (r : PortRegs) (WhichPort WhichPin : Nat) :
    Bool × PortRegs :=
  if WhichPort = _Port_A then
    let bitmask : Nat := 0xFFFFFFE0
    if bitmask &&& (if WhichPin ≠ 0 then 1 else 0) ≠ 0 then (false, r)
    else
      (true, { r with ANSELA := clearBits r.ANSELA WhichPin, TRISA := clearBits r.TRISA WhichPin })
  else if WhichPort = _Port_B then
    let bitmask : Nat := 0xFFFF0000
    if bitmask &&& (if WhichPin ≠ 0 then 1 else 0) ≠ 0 then (false, r)
    else
      (true, { r with ANSELB := clearBits r.ANSELB WhichPin, TRISB := clearBits r.TRISB WhichPin })
  else (false, r)

/-- The legal combinations of port and pins, as the header comment of the function
describes them: port A has the pins 0 to 4, port B the pins 0 to 15. -/
def legalPortPins (WhichPort WhichPin : Nat) : Bool :=
  (WhichPort = _Port_A ∧ WhichPin &&& 0xFFFFFFE0 = 0) ∨
    (WhichPort = _Port_B ∧ WhichPin &&& 0xFFFF0000 = 0)

/-! ## Sequences of events -/

/-- The module variables after a run function has handled the events of a list in turn. -/
def runEvents (run : σ → ES_Event_t → RunResult σ) : σ → List ES_Event_t → σ
  | s, [] => s
  | s, e :: es => runEvents run (run s e).vars es

/-- The effects of each event of a list handled in turn by a run function. -/
def traceEvents (run : σ → ES_Event_t → RunResult σ) : σ → List ES_Event_t → List (List Effect)
  | _, [] => []
  | s, e :: es => (run s e).effects :: traceEvents run (run s e).vars es

/-- The step timeout `ES_TIMEOUT(SERVO_STEP_TIMER)`. -/
def stepTimeout : ES_Event_t := { EventType := ES_TIMEOUT, EventParam := SERVO_STEP_TIMER }

/-- The servo variables after `n` step timeouts. -/
def servoTimeouts (undef : Nat) (n : Nat) (s : ServoVars) : ServoVars :=
  runEvents (fun s e => RunServoService s e undef) s (List.replicate n stepTimeout)

/-- The servo variables after `n` calls of `TakeMoveStep`. -/
def takeSteps (undef : Nat) : Nat → ServoVars → ServoVars
  | 0, s => s
  | n + 1, s => takeSteps undef n (TakeMoveStep s undef).1

/-! ## The service scheduler and the timer bank

The framework sources (queues, scheduler, timers) are not among the project sources;
only their configuration `ES_Configure.h` is. The definitions of this section that are
marked so are modelled from the specification. -/

/-- The priority of a service: its number in `ES_Configure.h` (service 0 has the lowest
priority). -/
def servicePriority : Service → Nat
  | Service.OptoSensorService => 0
  | Service.GameService => 1
  | Service.AudioService => 2
  | Service.ServoService => 3
  | Service.IRService => 4
  | Service.DCMotorService => 5
  | Service.ThrottleService => 6
  | Service.LEDMissileService => 7
  | Service.LEDFuelService => 8

/-- The queue sizes `SERV_n_QUEUE_SIZE` of the nine services, by priority. -/
def queueSizes : List Nat := [5, 3, 3, 3, 3, 3, 3, 3, 3]

/-- The timer binding table `TIMERn_RESP_FUNC`: the service whose post function is bound
to timer `n`, or `none` for `TIMER_UNUSED`. -/
def timerBinding : Nat → Option Service
  | 2 => some Service.GameService
  | 3 => some Service.DCMotorService
  | 4 => some Service.DCMotorService
  | 5 => some Service.LEDMissileService
  | 6 => some Service.ThrottleService
  | 7 => some Service.IRService
  | 8 => some Service.OptoSensorService
  | 9 => some Service.AudioService
  | 10 => some Service.GameService
  | 11 => some Service.GameService
  | 12 => some Service.GameService
  | 13 => some Service.GameService
  | 14 => some Service.GameService
  | 15 => some Service.ServoService
  | _ => none

/-- Modelled from the spec: the event queue of a task, a bounded FIFO of event records
with a capacity fixed at registration (the framework's queue code is not among the
sources). -/
structure EventQueue where
  capacity : Nat
  items : List ES_Event_t
  deriving DecidableEq, Repr

/-- Modelled from the spec: `PostEvent` on one queue (the framework's queue code is not
among the sources): "enqueues at the tail of the target's queue; fails and drops the
event if the queue is full". -/
def EventQueue.post (q : EventQueue) (e : ES_Event_t) : Bool × EventQueue :=
  if q.items.length < q.capacity then (true, { q with items := q.items ++ [e] })
  else (false, q)

/-- Modelled from the spec: the removal of the event at the head of a queue, as the
scheduler does it for the consumer (the framework's queue code is not among the
sources). -/
def EventQueue.dequeue (q : EventQueue) : Option (ES_Event_t × EventQueue) :=
  match q.items with
  | [] => none
  | e :: rest => some (e, { q with items := rest })

/-- An operation on one queue: a post by a producer or a dequeue by the scheduler. -/
inductive QueueOp where
  | post (e : ES_Event_t)
  | take
  deriving DecidableEq, Repr

/-- The history of a queue: the events whose post succeeded, the events handed to the run
function, both in order, and the queue itself. -/
structure QueueLog where
  posted : List ES_Event_t
  delivered : List ES_Event_t
  queue : EventQueue
  deriving DecidableEq, Repr

/-- One operation on a queue, recorded in its history. -/
def QueueLog.step (l : QueueLog) : QueueOp → QueueLog
  | QueueOp.post e =>
    let r := l.queue.post e
    if r.1 then { l with posted := l.posted ++ [e], queue := r.2 } else { l with queue := r.2 }
  | QueueOp.take =>
    match l.queue.dequeue with
    | none => l
    | some (e, q) => { l with delivered := l.delivered ++ [e], queue := q }

/-- The history of an initially empty queue of the given capacity after a sequence of
operations. -/
def queueHistory (capacity : Nat) (ops : List QueueOp) : QueueLog :=
  ops.foldl QueueLog.step { posted := [], delivered := [], queue := { capacity := capacity, items := [] } }

/-- Modelled from the spec: the scheduler state (the framework's scheduler code is not
among the sources): the private states of all tasks and one queue per task, listed by
priority from 0, the lowest. -/
structure Sched (σ : Type) where
  st : σ
  queues : List EventQueue

/-- Modelled from the spec: `PostEvent(targetPriority, event)` on the list of queues (the
framework's scheduler code is not among the sources). A post to a priority without a
task fails. -/
def PostEvent (queues : List EventQueue) (targetPriority : Nat) (e : ES_Event_t) :
    Bool × List EventQueue :=
  match queues[targetPriority]? with
  | none => (false, queues)
  | some q => ((q.post e).1, queues.set targetPriority (q.post e).2)

/-- The posts of a run function, performed in order. -/
def postAll (queues : List EventQueue) : List (Nat × ES_Event_t) → List EventQueue
  | [] => queues
  | (t, e) :: ps => postAll (PostEvent queues t e).2 ps

/-- The highest priority among the first `n` whose queue is not empty. -/
def highestReady (queues : List EventQueue) : Nat → Option Nat
  | 0 => none
  | n + 1 =>
    match queues[n]? with
    | some q => if q.items ≠ [] then some n else highestReady queues n
    | none => highestReady queues n

/-- Modelled from the spec: `RunCycle()` (the framework's scheduler code is not among the
sources): "scans the priority list from highest to lowest; on the first task with a
non-empty queue, dequeues exactly one event and invokes that task's run function". The
function `run` gives, for a priority, the new task states and the events that its run
function posts, each with the priority of its target. -/
def RunCycle (run : Nat → σ → ES_Event_t → σ × List (Nat × ES_Event_t)) (s : Sched σ) :
    Sched σ :=
  match highestReady s.queues s.queues.length with
  | none => s
  | some i =>
    match s.queues[i]? with
    | none => s
    | some q =>
      match q.dequeue with
      | none => s
      | some (e, q1) =>
        let r := run i s.st e
        { st := r.1, queues := postAll (s.queues.set i q1) r.2 }

/-- The posts among the effects of a run function, each with the priority of its
target. -/
def effectPosts : List Effect → List (Nat × ES_Event_t)
  | [] => []
  | Effect.Post svc ev :: es => (servicePriority svc, ev) :: effectPosts es
  | _ :: es => effectPosts es

/-- Modelled from the spec: a timer slot (the framework's timer code is not among the
sources): its remaining ticks and whether it is armed. -/
structure TimerSlot where
  remaining : Nat
  armed : Bool
  deriving DecidableEq, Repr

/-- Modelled from the spec: the timer bank (the framework's timer code is not among the
sources), the slots by their id; there are 16. -/
abbrev TimerBank := Nat → TimerSlot

/-- Modelled from the spec: the timer bank at system initialisation (the framework's
timer code is not among the sources): "timer slots start disarmed". -/
def TimerBank.init : TimerBank := fun _ => { remaining := 0, armed := false }

/-- Modelled from the spec: `Arm(id, durationTicks)` (the framework's timer code is not
among the sources): "re-arming an already-armed slot discards its prior countdown"; a
timer that the binding table assigns to no task is "permanently unused". -/
def Arm (tb : TimerBank) (id durationTicks : Nat) : TimerBank :=
  if id < 16 ∧ (timerBinding id).isSome then
    fun i => if i = id then { remaining := durationTicks, armed := true } else tb i
  else tb

/-- Modelled from the spec: `Stop(id)` (the framework's timer code is not among the
sources): the slot is disarmed and its pending `Timeout` discarded. -/
def Stop (tb : TimerBank) (id : Nat) : TimerBank :=
  fun i => if i = id then { tb i with armed := false } else tb i

/-- Whether the armed slot reaches zero in the next tick. -/
def expires (sl : TimerSlot) : Bool := sl.armed && decide (sl.remaining - 1 = 0)

/-- Modelled from the spec: `Tick()` (the framework's timer code is not among the
sources): "decrements every armed slot; any slot reaching zero posts its bound Timeout
event (parameter = slot id) and disarms". Returns the bank and the posts, by slot id. -/
def Tick (tb : TimerBank) : TimerBank × List Effect :=
  (fun i =>
      if (tb i).armed then
        (if (tb i).remaining - 1 = 0 then { remaining := 0, armed := false }
         else { remaining := (tb i).remaining - 1, armed := true })
      else tb i,
    (List.range 16).filterMap (fun i =>
      if expires (tb i) then
        (timerBinding i).map (fun svc => Effect.Post svc { EventType := ES_TIMEOUT, EventParam := i })
      else none))

/-- The timer bank after `n` ticks. -/
def ticks : Nat → TimerBank → TimerBank
  | 0, tb => tb
  | n + 1, tb => ticks n (Tick tb).1

/-- Whether an effect is the post of the `Timeout` of slot `id`. -/
def isTimeoutOf (id : Nat) : Effect → Bool
  | Effect.Post _ ev => decide (ev.EventType = ES_TIMEOUT ∧ ev.EventParam = id)
  | _ => false

/-! ## ThrottleService.c -/

/-- The period `POST_THROTTLE_TIME` of the throttle samples. -/
def POST_THROTTLE_TIME : Nat := 125

/-- `RunThrottleService(ThisEvent)`; the service has no module variables besides its
priority. `adc` is the value `currentVal[1]` that `ADC_MultiRead` delivers, a `uint32_t`
stored into the 16-bit parameter. -/
def RunThrottleService (ThisEvent : ES_Event_t) (adc : Nat) : RunResult Unit :=
  match ThisEvent.EventType with
  | ES_INIT =>
    { vars := (), effects := [Effect.InitTimer THROTTLE_TIMER POST_THROTTLE_TIME]
      ReturnEvent := ES_NO_EVENT }
  | ES_TIMEOUT =>
    { vars := ()
      effects := [Effect.Post Service.GameService
          { EventType := THROTTLE_VALUE, EventParam := adc % 65536 },
        Effect.InitTimer THROTTLE_TIMER POST_THROTTLE_TIME]
      ReturnEvent := ES_NO_EVENT }
  | _ => { vars := (), effects := [], ReturnEvent := ES_NO_EVENT }

/-! ## IRService.c -/

/-- The change `deltaToPost` of the IR reading that is reported. -/
def deltaToPost : Int := 20

/-- The module variables of `IRService.c`: the array `LastPostedValue[3]`. -/
structure IRVars where
  LastPostedValue : List Nat
  deriving DecidableEq, Repr

/-- `RunIRService(ThisEvent)` on the module variables `s`; `adc i` is the value that
`ADC_MultiRead` stores at index `i`. The difference of the two `uint32_t` readings is
stored into an `int`; the delay between two readings is `WAIT`, 300 as for the opto
sensor. -/
def RunIRService (s : IRVars) (ThisEvent : ES_Event_t) (adc : Nat → Nat) (undef : Nat) :
    RunResult IRVars :=
  match ThisEvent.EventType with
  | ES_INIT =>
    { vars := { s with LastPostedValue := [adc 0, adc 1, adc 2] }
      effects := [Effect.InitTimer IR_TIMER WAIT]
      ReturnEvent := ES_NO_EVENT }
  | ES_TIMEOUT =>
    { vars := s
      effects := [Effect.Post Service.IRService { EventType := IR_READ, EventParam := undef }]
      ReturnEvent := ES_NO_EVENT }
  | IR_READ =>
    let delta : Int := wrapInt32 ((adc 2 : Int) - (s.LastPostedValue.getD 2 0 : Int))
    let post : List Effect :=
      if delta > deltaToPost ∨ delta < -1 * deltaToPost then
        [Effect.Post Service.GameService { EventType := IR_VALUE, EventParam := adc 2 % 65536 }]
      else []
    { vars := { s with LastPostedValue := s.LastPostedValue.set 2 (adc 2) }
      effects := post ++ [Effect.InitTimer IR_TIMER WAIT]
      ReturnEvent := ES_NO_EVENT }
  | _ => { vars := s, effects := [], ReturnEvent := ES_NO_EVENT }

/-! ## LEDFuelService.c -/

/-- The module variables of `LEDFuelService.c`; `clrLEDs` is a `float` (IEEE binary32),
held as a fraction; `LED1`, `LED2`, `LED3` are the port bits of the three fuel LEDs. -/
structure LEDFuelVars where
  clrLEDs : Nat × Nat
  currClrLED : Int
  new_rows : Int
  prev_rows : Int
  LED1 : Nat
  LED2 : Nat
  LED3 : Nat
  deriving DecidableEq, Repr

/-- The module variables after `InitLEDFuelService`: the static initialisers and the three
LEDs on. -/
def InitLEDFuelVars : LEDFuelVars :=
  { clrLEDs := (0, 1), currClrLED := 1, new_rows := 0, prev_rows := 0,
    LED1 := 1, LED2 := 1, LED3 := 1 }

/-- `throttleToLED(throttle)`: the `double` constants 0.35, 0.53 and 1.06 stored into a
`float`. -/
def throttleToLED (throttle : Nat) : Nat × Nat :=
  if throttle < 850 then fpRound 24 (fpRound 53 35 100).1 (fpRound 53 35 100).2
  else if throttle < 925 then fpRound 24 (fpRound 53 53 100).1 (fpRound 53 53 100).2
  else if throttle < 1024 then fpRound 24 (fpRound 53 106 100).1 (fpRound 53 106 100).2
  else (0, 1)

/-- `RunLEDFuelService(ThisEvent)` on the module variables `s`. -/
def RunLEDFuelService (s : LEDFuelVars) (ThisEvent : ES_Event_t) (undef : Nat) :
    RunResult LEDFuelVars :=
  match ThisEvent.EventType with
  | ES_INIT =>
    { vars := { s with clrLEDs := (0, 1), currClrLED := 0, LED1 := 1, LED2 := 1, LED3 := 1 }
      effects := []
      ReturnEvent := ES_NO_EVENT }
  | RESET =>
    { vars := s
      effects := [Effect.Post Service.LEDFuelService { ThisEvent with EventType := ES_INIT }]
      ReturnEvent := ES_NO_EVENT }
  | FUEL_UPDATE =>
    let throttle := ThisEvent.EventParam
    let currClrLEDs := throttleToLED throttle
    let clrLEDs := fpAdd 24 s.clrLEDs currClrLEDs
    let empty : Bool := decide (255 * clrLEDs.2 ≤ clrLEDs.1)
    let s1 : LEDFuelVars :=
      if empty then { s with clrLEDs := clrLEDs, LED1 := 0, LED2 := 0, LED3 := 0 }
      else { s with clrLEDs := clrLEDs }
    let q := fpDiv 24 clrLEDs (fpOfNat 24 85)
    let new_rows : Int := ((q.1 / q.2 : Nat) : Int)
    let s2 : LEDFuelVars := { s1 with new_rows := new_rows }
    let s3 : LEDFuelVars :=
      if new_rows ≠ s2.prev_rows then
        if new_rows = 1 then { s2 with LED1 := 0 }
        else if new_rows = 2 then { s2 with LED2 := 0 }
        else if new_rows = 3 then { s2 with LED3 := 0 }
        else s2
      else s2
    { vars := s3
      effects := if empty then
          [Effect.Post Service.GameService { EventType := FUEL_DONE, EventParam := undef }]
        else []
      ReturnEvent := ES_NO_EVENT }
  | _ => { vars := s, effects := [], ReturnEvent := ES_NO_EVENT }

/-! ## Timers armed by a run function -/

/-- The timer id of an effect that is a call of `ES_Timer_InitTimer`. -/
def armedTimer : Effect → Option Nat
  | Effect.InitTimer id _ => some id
  | _ => none

/-- The timer ids that a list of effects arms with `ES_Timer_InitTimer`, in order. -/
def armedTimers (effects : List Effect) : List Nat := effects.filterMap armedTimer

/-! ## Stores of `decodeParam`, set bits, sequences of inputs -/

/-- The stores `ledStatus[i] = param % 2` of the first loop of `decodeParam`, in program
order, each as the pair of the index written and the value. -/
def decodeWrites1 : Nat → Nat → Nat → List (Nat × Int)
  | 0, _, _ => []
  | fuel + 1, param, i =>
    if param > 0 then (i, ((param % 2 : Nat) : Int)) :: decodeWrites1 fuel (param / 2) (i + 1)
    else []

/-- The stores `ledStatus[i] = 0` of the second loop of `decodeParam`, with `n` iterations
left. -/
def decodeWrites2 : Nat → Nat → List (Nat × Int)
  | 0, _ => []
  | n + 1, i => (i, 0) :: decodeWrites2 n (i + 1)

/-- The stores of `decodeParam(param, ledStatus)`, in program order. The first loop leaves
`i` at the number of its stores; the second runs while `i < 12`. -/
def decodeWrites (param : Nat) : List (Nat × Int) :=
  decodeWrites1 16 param 0 ++
    decodeWrites2 (12 - (decodeWrites1 16 param 0).length) (decodeWrites1 16 param 0).length

/-- The array after a list of stores. -/
def applyWrites (ledStatus : List Int) (ws : List (Nat × Int)) : List Int :=
  ws.foldl (fun l w => l.set w.1 w.2) ledStatus

/-- The number of bits set among the sixteen bits of a `uint16_t`. -/
def popCount16 (p : Nat) : Nat := ((List.range 16).filter (fun i => bitOf p i = 1)).length

/-- The module variables of the coordinator at start-up: the static initialisers and
`CurrentState = InitGame` from `InitGameService`. -/
def InitGameVars : GameVars :=
  { CurrentState := InitGame, lastThrottleValue := 0, numMissiles := 1, Missile := true }

/-- The module variables after a run function has handled a list of inputs in turn; an
input is the event together with whatever else the run function reads (an ADC sample, the
results of `rand()`, an indeterminate parameter). -/
def runSeq {σ ι : Type} (run : σ → ι → RunResult σ) : σ → List ι → σ
  | s, [] => s
  | s, i :: is => runSeq run (run s i).vars is

/-- The effects of each input of a list handled in turn by a run function. -/
def traceSeq {σ ι : Type} (run : σ → ι → RunResult σ) : σ → List ι → List (List Effect)
  | _, [] => []
  | s, i :: is => (run s i).effects :: traceSeq run (run s i).vars is

/-- An input of the coordinator: the event, the results of `rand()` and the indeterminate
parameter. -/
structure GameInput where
  event : ES_Event_t
  rand : Nat → Nat
  undef : Nat

/-- The coordinator on an input. -/
def gameStep (s : GameVars) (i : GameInput) : RunResult GameVars :=
  RunGameService s i.event i.rand i.undef

/-- An input of the start sensor service: the event, the ADC sample and the indeterminate
parameter. -/
structure OptoInput where
  event : ES_Event_t
  adc : Nat
  undef : Nat
  deriving DecidableEq, Repr

/-- The start sensor service on an input. -/
def optoStep (s : OptoVars) (i : OptoInput) : RunResult OptoVars :=
  RunOptoSensorService s i.event i.adc i.undef

/-- Whether an effect is the post of `ES_HAND_DETECTED` to the coordinator. -/
def isHandDetected : Effect → Bool
  | Effect.Post Service.GameService ev => decide (ev.EventType = ES_HAND_DETECTED)
  | _ => false

/-- Whether an effect arms a timer. -/
def isInitTimer : Effect → Bool
  | Effect.InitTimer _ _ => true
  | _ => false

/-! ## Sample inputs -/

/-- A coordinator in `GamePlaying` with the last throttle sample `last` and tier `tier`. -/
def playingVars (last : Nat) (tier : Int) : GameVars :=
  { CurrentState := GamePlaying, lastThrottleValue := last, numMissiles := tier, Missile := true }

/-- A coordinator in `GameWelcome`. -/
def welcomeVars : GameVars :=
  { CurrentState := GameWelcome, lastThrottleValue := 77, numMissiles := 1, Missile := true }

/-- A generator whose every call of `rand()` returns `r`. -/
def constRand (r : Nat) : Nat → Nat := fun _ => r

/-- A missile display in `MissileFiring` with all LEDs off. -/
def firingVars : MissileVars := { InitLEDMissileVars with CurrentState := MissileFiring }

/-- A missile display in `MissileFiring` whose missile in slot 3 is live (third blink on). -/
def liveVars : MissileVars :=
  { CurrentState := MissileFiring, BlinkFlag := 4, MissileFlag := 1, temp := 8,
    ledStatus := [0, 0, 0, 1, 0, 0, 0, 0, 0, 0, 0, 0], led1 := 4, led2 := 0, led3 := 0,
    EncoderFlag := true }

/-- A motor with encoder position `count`, last direction `dir` and last sample `a` of
channel A. -/
def motorAt (count : Int) (dir : Bool) (a : Nat) : MotorVars :=
  { LastDir := dir, SpeedCmd := 0, Count := count, LastEncAState := a, LastEncBState := 0,
    InitComplete := true }

/-- The tags that the coordinator handles in each state. -/
def gameHandles : GameServiceState_t → ES_EventType_t → Bool
  | InitGame, t => t = ES_INIT
  | GameWelcome, t => t = ES_HAND_DETECTED ∨ t = ES_TIMEOUT
  | GamePlaying, t => t = RESET ∨ t = IR_VALUE ∨ t = THROTTLE_VALUE ∨ t = ES_TIMEOUT ∨
      t = ES_PROGRESS_DONE ∨ t = FUEL_DONE ∨ t = ES_MISSILE_HIT
  | GameLose, t => t = ES_LOSE
  | GameWin, t => t = ES_WIN
  | GameRestart, t => t = MOTOR_RESET ∨ t = SERVO_RESET ∨ t = RESET_ALL
  | GameWaiting, _ => false

/-- A coordinator in the state `st`. -/
def gameIn (st : GameServiceState_t) : GameVars :=
  { CurrentState := st, lastThrottleValue := 512, numMissiles := 2, Missile := true }

/-- A servo service in `ServoWaiting` after its initialisation, not moving. -/
def waitingServo : ServoVars := { InitServoVars with CurrentState := ServoWaiting }

/-- A servo service in `ServoWaiting` that has moved 40 steps away from the CCW limit
and is still moving CW. -/
def movedServo : ServoVars :=
  { waitingServo with CurrentPosition := 4105, isMoving := true, moveDirection := DIRECTION_CW }

/-- The pin mask `_Pin_5`. -/
def _Pin_5 : Nat := _Pin 5

/-- Port registers in which the pins 0 to 5 of port A and all pins of port B are digital
inputs. -/
def inputRegs : PortRegs := { ANSELA := 0, TRISA := 0x3F, ANSELB := 0, TRISB := 0xFFFF }

/-- The run function of the missile display with the unassigned parameter read as 0. -/
def runMissile (s : MissileVars) (e : ES_Event_t) : RunResult MissileVars :=
  RunLEDMissileService s e 0

/-- A timeout of the missile display's timer. -/
def missileTimeout : ES_Event_t := { EventType := ES_TIMEOUT, EventParam := LED_MISSILE_TIMER }

/-- A servo in `ServoWaiting` at the CCW limit that has begun its slow move CW. -/
def startServo : ServoVars :=
  { waitingServo with isMoving := true, moveDirection := DIRECTION_CW }

/-- The run functions as the scheduler sees them, with only the missile display (priority
7) present: the new variables and the posts among the effects. -/
def runLive (i : Nat) (s : MissileVars) (e : ES_Event_t) : MissileVars × List (Nat × ES_Event_t) :=
  if i = servicePriority Service.LEDMissileService then
    ((RunLEDMissileService s e 0).vars, effectPosts (RunLEDMissileService s e 0).effects)
  else (s, [])

/-- A scheduler state with the queue capacities of `ES_Configure.h`: the missile display
(priority 7) holds `ENCODER_UPDATE(95)` while its missile in slot 3 is live, and the
coordinator (priority 1) holds `THROTTLE_VALUE(700)`. -/
def liveSched : Sched MissileVars :=
  { st := liveVars
    queues := [{ capacity := 5, items := [] },
      { capacity := 3, items := [{ EventType := THROTTLE_VALUE, EventParam := 700 }] },
      { capacity := 3, items := [] }, { capacity := 3, items := [] },
      { capacity := 3, items := [] }, { capacity := 3, items := [] },
      { capacity := 3, items := [] },
      { capacity := 3, items := [{ EventType := ENCODER_UPDATE, EventParam := 95 }] },
      { capacity := 3, items := [] }] }

/-- A timer bank in which the missile timer (slot 2) and the servo step timer (slot 15)
are running. -/
def busyBank : TimerBank := Arm (Arm TimerBank.init MISSILE_TIMER 3) SERVO_STEP_TIMER 7

/-- Inputs of the start sensor service after a detection: timeouts, readings below the
threshold, an `ES_INIT` and an `ES_HAND_DETECTED`. -/
def idleInputs : List OptoInput :=
  [{ event := { EventType := ES_TIMEOUT, EventParam := OPTO_TIMER }, adc := 100, undef := 0 },
    { event := { EventType := ROS_READ, EventParam := 0 }, adc := 100, undef := 0 },
    { event := { EventType := ES_INIT, EventParam := 0 }, adc := 1000, undef := 0 },
    { event := { EventType := ES_HAND_DETECTED, EventParam := 0 }, adc := 100, undef := 0 }]

/-- Inputs of the coordinator from start-up into a game: `ES_INIT`, the start sensor, the
countdown timeout and two throttle samples, the second one beyond the ADC range. -/
def tierInputs : List GameInput :=
  [{ event := { EventType := ES_INIT, EventParam := 0 }, rand := constRand 0, undef := 0 },
    { event := { EventType := ES_HAND_DETECTED, EventParam := 0 }, rand := constRand 0, undef := 0 },
    { event := { EventType := ES_TIMEOUT, EventParam := COUNTDOWN_TIMER }, rand := constRand 0,
      undef := 0 },
    { event := { EventType := THROTTLE_VALUE, EventParam := 700 }, rand := constRand 0, undef := 0 },
    { event := { EventType := THROTTLE_VALUE, EventParam := 1024 }, rand := constRand 0,
      undef := 0 }]

/-- Events for the servo service: start-up, a step timeout, the end of a game, a reset. -/
def servoEvents : List ES_Event_t :=
  [{ EventType := ES_INIT, EventParam := 0 }, stepTimeout,
    { EventType := ES_WIN, EventParam := 0 }, { EventType := RESET, EventParam := 0 }, stepTimeout]

/-! ## Theorems: the floating point model -/

/-- Binary splitting finds the position of the leading bit of a number below
`2 ^ 2 ^ k`. -/
theorem ilog2Aux_spec (k : Nat) : ∀ n : Nat, 0 < n → n < 2 ^ 2 ^ k →
    2 ^ ilog2Aux k n ≤ n ∧ n < 2 ^ (ilog2Aux k n + 1) := by
  induction k with
  | zero =>
    intro n h0 h1
    have h2 : n = 1 := by simp at h1; omega
    subst h2
    simp [ilog2Aux]
  | succ k ih =>
    intro n h0 h1
    have hB : 0 < 2 ^ 2 ^ k := Nat.pow_pos (by decide)
    have hsq : 2 ^ 2 ^ (k + 1) = 2 ^ 2 ^ k * 2 ^ 2 ^ k := by
      rw [← pow_add, pow_succ]; congr 1; omega
    simp only [ilog2Aux]
    split_ifs with hc
    · have hm0 : 0 < n / 2 ^ 2 ^ k := Nat.div_pos hc hB
      have hm1 : n / 2 ^ 2 ^ k < 2 ^ 2 ^ k := by
        rw [Nat.div_lt_iff_lt_mul hB]; rw [hsq] at h1; exact h1
      obtain ⟨h3, h4⟩ := ih (n / 2 ^ 2 ^ k) hm0 hm1
      constructor
      · rw [pow_add]
        calc 2 ^ 2 ^ k * 2 ^ ilog2Aux k (n / 2 ^ 2 ^ k)
            ≤ 2 ^ 2 ^ k * (n / 2 ^ 2 ^ k) := Nat.mul_le_mul_left _ h3
          _ ≤ n := Nat.mul_div_le n _
      · have h5 : n < 2 ^ 2 ^ k * (n / 2 ^ 2 ^ k + 1) := by
          have := Nat.lt_mul_div_succ n hB
          simpa [Nat.mul_comm] using this
        have h6 : 2 ^ (2 ^ k + ilog2Aux k (n / 2 ^ 2 ^ k) + 1)
            = 2 ^ 2 ^ k * 2 ^ (ilog2Aux k (n / 2 ^ 2 ^ k) + 1) := by
          rw [← pow_add]; congr 1
        rw [h6]
        exact Nat.lt_of_lt_of_le h5 (Nat.mul_le_mul_left _ h4)
    · exact ih n h0 (Nat.lt_of_not_le hc)

/-- The width search returns a width that is large enough, given enough fuel. -/
theorem ilog2Width_spec (fuel : Nat) : ∀ k n : Nat, n < 2 ^ 2 ^ (k + fuel) →
    n < 2 ^ 2 ^ ilog2Width fuel k n := by
  induction fuel with
  | zero => intro k n h; simpa [ilog2Width] using h
  | succ f ih =>
    intro k n h
    simp only [ilog2Width]
    split_ifs with hc
    · exact hc
    · apply ih
      have h2 : k + 1 + f = k + (f + 1) := by omega
      rw [h2]; exact h

/-- For `n > 0`, `ilog2 n` is the integer `k` with `2 ^ k ≤ n < 2 ^ (k + 1)`. -/
theorem ilog2_spec (n : Nat) (h : 0 < n) : 2 ^ ilog2 n ≤ n ∧ n < 2 ^ (ilog2 n + 1) := by
  apply ilog2Aux_spec _ n h
  apply ilog2Width_spec
  have h1 : n < 2 ^ n := Nat.lt_two_pow n
  have h2 : 2 ^ n ≤ 2 ^ 2 ^ n := Nat.pow_le_pow_right (by decide) (Nat.le_of_lt h1)
  simpa using Nat.lt_of_lt_of_le h1 h2

/-- Rounding a quotient to the nearest integer, ties to even: the integer chosen is
within one half of the quotient, and it is even when the quotient is half way. -/
theorem nearest_even_spec (N D : Nat) (hD : 0 < D) :
    2 * ((if 2 * (N % D) < D then N / D else if D < 2 * (N % D) then N / D + 1
          else N / D + N / D % 2) * D) ≤ 2 * N + D ∧
    2 * N ≤ 2 * ((if 2 * (N % D) < D then N / D else if D < 2 * (N % D) then N / D + 1
          else N / D + N / D % 2) * D) + D ∧
    (2 * (N % D) = D →
      (if 2 * (N % D) < D then N / D else if D < 2 * (N % D) then N / D + 1
          else N / D + N / D % 2) % 2 = 0) := by
  have h1 : N / D * D + N % D = N := Nat.div_add_mod' N D
  have h2 : N % D < D := Nat.mod_lt N hD
  generalize N / D = q0 at *
  generalize N % D = r at *
  split_ifs with ha hb
  · refine ⟨by omega, by omega, by omega⟩
  · rw [Nat.add_mul]; refine ⟨by omega, by omega, by omega⟩
  · rcases Nat.mod_two_eq_zero_or_one q0 with h | h
    · rw [h, Nat.add_zero]; refine ⟨by omega, by omega, by omega⟩
    · rw [h, Nat.add_mul]; refine ⟨by omega, by omega, by omega⟩

/-- The scaling chosen by `fpRound` brings the fraction into `[2 ^ (p - 1), 2 ^ p)`. -/
theorem fpRound_bracket (p n d ln ld b : Nat) (hp : 0 < p)
    (hn1 : 2 ^ ln ≤ n) (hn2 : n < 2 ^ (ln + 1)) (hd1 : 2 ^ ld ≤ d) (hd2 : d < 2 ^ (ld + 1))
    (hb : b = 0 ∨ b = 1) (hb0 : b = 0 ↔ d * 2 ^ ln ≤ n * 2 ^ ld) :
    2 ^ (p - 1) * (d * 2 ^ (ln - (p - 1 + ld + b))) ≤ n * 2 ^ (p - 1 + ld + b - ln) ∧
    n * 2 ^ (p - 1 + ld + b - ln) < 2 ^ p * (d * 2 ^ (ln - (p - 1 + ld + b))) := by
  have hA : 0 < 2 ^ ln := Nat.pow_pos (by decide)
  have hB : 0 < 2 ^ ld := Nat.pow_pos (by decide)
  rw [pow_succ] at hn2 hd2
  -- the two core inequalities, free of the precision
  have c1 : d * 2 ^ ln ≤ n * 2 ^ ld * 2 ^ b := by
    rcases hb with h | h
    · subst h; simpa using hb0.mp rfl
    · subst h
      have : d * 2 ^ ln ≤ (2 ^ ld * 2) * n := Nat.mul_le_mul (Nat.le_of_lt hd2) hn1
      calc d * 2 ^ ln ≤ (2 ^ ld * 2) * n := this
        _ = n * 2 ^ ld * 2 ^ 1 := by ring
  have c2 : n * 2 ^ ld * 2 ^ b < 2 * (d * 2 ^ ln) := by
    rcases hb with h | h
    · subst h
      have h3 : n * 2 ^ ld ≤ n * d := Nat.mul_le_mul_left n hd1
      have h4 : n * d < 2 ^ ln * 2 * d := Nat.mul_lt_mul_of_pos_right hn2 (by omega)
      calc n * 2 ^ ld * 2 ^ 0 = n * 2 ^ ld := by ring
        _ ≤ n * d := h3
        _ < 2 ^ ln * 2 * d := h4
        _ = 2 * (d * 2 ^ ln) := by ring
    · subst h
      have h3 : n * 2 ^ ld < d * 2 ^ ln := by
        by_contra hcon
        have := hb0.mpr (Nat.le_of_not_lt hcon)
        omega
      calc n * 2 ^ ld * 2 ^ 1 = 2 * (n * 2 ^ ld) := by ring
        _ < 2 * (d * 2 ^ ln) := by omega
  generalize hup : p - 1 + ld + b = up
  have hM : 0 < 2 ^ (min up ln) := Nat.pow_pos (by decide)
  have hu : up - ln + min up ln = up := by omega
  have hv : ln - up + min up ln = ln := by omega
  have e1 : n * 2 ^ (up - ln) * 2 ^ (min up ln) = 2 ^ (p - 1) * (n * 2 ^ ld * 2 ^ b) := by
    rw [Nat.mul_assoc, ← pow_add, hu, ← hup]; ring
  have e2 : d * 2 ^ (ln - up) * 2 ^ (min up ln) = d * 2 ^ ln := by
    rw [Nat.mul_assoc, ← pow_add, hv]
  have e3 : 2 ^ p = 2 ^ (p - 1) * 2 := by
    rw [← pow_succ]; congr 1; omega
  constructor
  · apply Nat.le_of_mul_le_mul_right _ hM
    rw [e1, Nat.mul_assoc, e2]
    exact Nat.mul_le_mul_left _ c1
  · apply Nat.lt_of_mul_lt_mul_right (a := 2 ^ (min up ln))
    have e4 : 2 ^ p * (d * 2 ^ (ln - up)) * 2 ^ (min up ln) = 2 ^ (p - 1) * (2 * (d * 2 ^ ln)) := by
      rw [Nat.mul_assoc, e2, e3]; ring
    rw [e1, e4]
    exact Nat.mul_lt_mul_of_pos_left c2 (Nat.pow_pos (by decide))

/-- The rounding function is rounding to nearest, ties to even, at `p` significant
bits: for a positive fraction `n / d` the result is `q * 2 ^ v / 2 ^ u`, where the
scaled fraction `X = (n * 2 ^ u) / (d * 2 ^ v)` lies in `[2 ^ (p - 1), 2 ^ p)`, the
integer `q` satisfies `|q - X| ≤ 1 / 2`, and `q` is even when `X` is half way between
two integers. -/
theorem fpRound_spec (p n d : Nat) (hp : 0 < p) (hn : 0 < n) (hd : 0 < d) :
    ∃ q u v : Nat, fpRound p n d = (q * 2 ^ v, 2 ^ u) ∧ (u = 0 ∨ v = 0) ∧
      2 ^ (p - 1) * (d * 2 ^ v) ≤ n * 2 ^ u ∧ n * 2 ^ u < 2 ^ p * (d * 2 ^ v) ∧
      2 * (q * (d * 2 ^ v)) ≤ 2 * (n * 2 ^ u) + d * 2 ^ v ∧
      2 * (n * 2 ^ u) ≤ 2 * (q * (d * 2 ^ v)) + d * 2 ^ v ∧
      (2 * ((n * 2 ^ u) % (d * 2 ^ v)) = d * 2 ^ v → q % 2 = 0) := by
  obtain ⟨hn1, hn2⟩ := ilog2_spec n hn
  obtain ⟨hd1, hd2⟩ := ilog2_spec d hd
  have hA : 0 < 2 ^ ilog2 n := Nat.pow_pos (by decide)
  have hB : 0 < 2 ^ ilog2 d := Nat.pow_pos (by decide)
  -- the borrow bit
  generalize hbdef : (if ilog2 d ≤ ilog2 n then (if d * 2 ^ (ilog2 n - ilog2 d) ≤ n then 0 else 1)
      else (if d ≤ n * 2 ^ (ilog2 d - ilog2 n) then 0 else 1) : Nat) = b
  have hb : b = 0 ∨ b = 1 := by
    rw [← hbdef]; split_ifs <;> simp
  have hb0 : b = 0 ↔ d * 2 ^ ilog2 n ≤ n * 2 ^ ilog2 d := by
    rw [← hbdef]
    by_cases hc : ilog2 d ≤ ilog2 n
    · have e : 2 ^ ilog2 n = 2 ^ (ilog2 n - ilog2 d) * 2 ^ ilog2 d := by
        rw [← pow_add]; congr 1; omega
      rw [if_pos hc, e, ← Nat.mul_assoc, mul_le_mul_right hB]
      split_ifs with h <;> simp [h]
    · have e : 2 ^ ilog2 d = 2 ^ (ilog2 d - ilog2 n) * 2 ^ ilog2 n := by
        rw [← pow_add]; congr 1; omega
      rw [if_neg hc, e, ← Nat.mul_assoc, mul_le_mul_right hA]
      split_ifs with h <;> simp [h]
  obtain ⟨hbr1, hbr2⟩ := fpRound_bracket p n d (ilog2 n) (ilog2 d) b hp hn1 hn2 hd1 hd2 hb hb0
  have hD : 0 < d * 2 ^ (ilog2 n - (p - 1 + ilog2 d + b)) :=
    Nat.mul_pos hd (Nat.pow_pos (by decide))
  obtain ⟨hr1, hr2, hr3⟩ := nearest_even_spec (n * 2 ^ (p - 1 + ilog2 d + b - ilog2 n))
    (d * 2 ^ (ilog2 n - (p - 1 + ilog2 d + b))) hD
  refine ⟨_, p - 1 + ilog2 d + b - ilog2 n, ilog2 n - (p - 1 + ilog2 d + b), ?_, by omega,
    hbr1, hbr2, hr1, hr2, hr3⟩
  simp only [fpRound, if_neg (Nat.pos_iff_ne_zero.mp hn), hbdef]

/-- Rounding to binary64 reproduces known values: `1 / 10` is
`3602879701896397 / 2 ^ 55`, `1 / 3` is `6004799503160661 / 2 ^ 54`, the tie
`2 ^ 53 + 1` goes to the even neighbour `2 ^ 53` and the tie `2 ^ 53 + 3` to
`2 ^ 53 + 4`, and a small integer is exact. -/
theorem fpRound_samples :
    (fpRound 53 1 10).1 * 2 ^ 55 = 3602879701896397 * (fpRound 53 1 10).2 ∧
    (fpRound 53 1 3).1 * 2 ^ 54 = 6004799503160661 * (fpRound 53 1 3).2 ∧
    (fpRound 53 (2 ^ 53 + 1) 1).1 = 2 ^ 53 * (fpRound 53 (2 ^ 53 + 1) 1).2 ∧
    (fpRound 53 (2 ^ 53 + 3) 1).1 = (2 ^ 53 + 4) * (fpRound 53 (2 ^ 53 + 3) 1).2 ∧
    (fpOfNat 53 723).1 = 723 * (fpOfNat 53 723).2 := by
  decide!

/-! ## Theorems: the game coordinator -/

/-- C1: in `GamePlaying`, after handling `THROTTLE_VALUE(v)` the missile tier
`numMissiles` is 3 if `v < 850`, 2 if `850 ≤ v < 925` and 1 if `925 ≤ v < 1024`. -/
theorem C1_missile_tier (s : GameVars) (v : Nat) (rand : Nat → Nat) (undef : Nat)
    (hs : s.CurrentState = GamePlaying) (hv : v < 1024) :
    (RunGameService s { EventType := THROTTLE_VALUE, EventParam := v } rand undef).vars.numMissiles
      = if v < 850 then 3 else if v < 925 then 2 else 1 := by
  simp only [RunGameService, hs]
  split_ifs <;> rfl

/-- C1 at the boundary samples: 849 gives tier 3, 850 and 924 give tier 2, 925 and 1023
give tier 1. -/
theorem C1_missile_tier_witness :
    (RunGameService (playingVars 0 1) { EventType := THROTTLE_VALUE, EventParam := 849 }
        (constRand 0) 0).vars.numMissiles = 3 ∧
    (RunGameService (playingVars 0 1) { EventType := THROTTLE_VALUE, EventParam := 850 }
        (constRand 0) 0).vars.numMissiles = 2 ∧
    (RunGameService (playingVars 0 1) { EventType := THROTTLE_VALUE, EventParam := 924 }
        (constRand 0) 0).vars.numMissiles = 2 ∧
    (RunGameService (playingVars 0 1) { EventType := THROTTLE_VALUE, EventParam := 925 }
        (constRand 0) 0).vars.numMissiles = 1 ∧
    (RunGameService (playingVars 0 1) { EventType := THROTTLE_VALUE, EventParam := 1023 }
        (constRand 0) 0).vars.numMissiles = 1 :=
  ⟨C1_missile_tier _ 849 _ _ rfl (by decide), C1_missile_tier _ 850 _ _ rfl (by decide),
    C1_missile_tier _ 924 _ _ rfl (by decide), C1_missile_tier _ 925 _ _ rfl (by decide),
    C1_missile_tier _ 1023 _ _ rfl (by decide)⟩

/-- The linear map of `SendCmd` evaluated exactly: `25 + 20 * k / 723` rounded down. -/
theorem floor_linear_map (k : Nat) :
    ⌊(25 : ℚ) + 20 * (k : ℚ) / 723⌋ = (((25 * 723 + 20 * k) / 723 : Nat) : Int) := by
  have h : (25 : ℚ) + 20 * (k : ℚ) / 723 = (((25 * 723 + 20 * k : Nat) : Int) : ℚ) / ((723 : Nat) : ℚ) := by
    push_cast
    field_simp
    norm_num
  rw [h, Rat.floor_intCast_div_natCast]
  norm_cast

set_option maxRecDepth 100000 in
/-- Every sample in the input range: the command computed in binary64 is the exact
linear map rounded down. -/
theorem SendCmd_in_range_table :
    (List.range 724).all (fun k => (SendCmd (k + 300)).EventParam == (25 * 723 + 20 * k) / 723)
      = true := by
  decide!

/-- A sample in the input range: the command computed in binary64 is the exact linear
map rounded down. -/
theorem SendCmd_in_range (v : Nat) (h1 : 300 ≤ v) (h2 : v ≤ 1023) :
    (SendCmd v).EventParam = (25 * 723 + 20 * (v - 300)) / 723 := by
  have h := SendCmd_in_range_table
  rw [List.all_eq_true] at h
  have h3 := h (v - 300) (List.mem_range.mpr (by omega))
  rw [beq_iff_eq] at h3
  have h4 : v - 300 + 300 = v := by omega
  rw [h4] at h3
  exact h3

/-- A sample outside the input range stops the motor. -/
theorem SendCmd_out_of_range (v : Nat) (h : v < 300 ∨ v > 1023) :
    (SendCmd v).EventParam = 0 := by
  have h0 : fpToU16 (fpOfNat 53 0) = 0 := by decide
  simp only [SendCmd, SendCmdP, MIN_READ, MAX_READ, if_pos h, h0]

/-- C2: `SendCmd(v)` posts a `MOTOR_CMD`; its parameter is `⌊25 + 20 (v - 300) / 723⌋`
when `300 ≤ v ≤ 1023`, a value in `[25, 45]`, and `0` otherwise; 300 gives 25 and 1023
gives 45. This is what `RunGameService` posts to the motor service on `IR_VALUE(v)`. -/
theorem C2_SendCmd_linear_map (v : Nat) :
    (SendCmd v).EventType = MOTOR_CMD ∧
    ((SendCmd v).EventParam : Int) =
      (if 300 ≤ v ∧ v ≤ 1023 then ⌊(25 : ℚ) + 20 * ((v : ℚ) - 300) / 723⌋ else 0) ∧
    (if 300 ≤ v ∧ v ≤ 1023 then 25 ≤ (SendCmd v).EventParam ∧ (SendCmd v).EventParam ≤ 45
      else (SendCmd v).EventParam = 0) ∧
    (SendCmd 300).EventParam = 25 ∧ (SendCmd 1023).EventParam = 45 ∧
    (∀ (last : Nat) (tier : Int) (m : Bool) (rand : Nat → Nat) (undef : Nat),
      (RunGameService
          { CurrentState := GamePlaying, lastThrottleValue := last, numMissiles := tier,
            Missile := m }
          { EventType := IR_VALUE, EventParam := v } rand undef).effects =
        [Effect.Post Service.DCMotorService (SendCmd v),
          Effect.InitTimer INACTIVITY_TIMER 30000]) := by
  refine ⟨rfl, ?_, ?_, SendCmd_in_range 300 (by decide) (by decide),
    SendCmd_in_range 1023 (by decide) (by decide), ?_⟩
  · split_ifs with h
    · have hk : ((v : ℚ) - 300) = ((v - 300 : Nat) : ℚ) := by
        rw [Nat.cast_sub h.1]; norm_num
      rw [SendCmd_in_range v h.1 h.2, hk, floor_linear_map]
    · rw [SendCmd_out_of_range v (by omega)]; rfl
  · split_ifs with h
    · rw [SendCmd_in_range v h.1 h.2]
      constructor
      · apply (Nat.le_div_iff_mul_le (by decide)).mpr; omega
      · apply Nat.lt_succ_iff.mp
        apply (Nat.div_lt_iff_lt_mul (by decide)).mpr; omega
    · exact SendCmd_out_of_range v (by omega)
  · intro last tier m rand undef
    rfl

/-- C3: from `GameWelcome`, `ES_HAND_DETECTED` arms `COUNTDOWN_TIMER` for 4000 ticks,
forwards the event to the audio service, zeroes `lastThrottleValue` and stays in
`GameWelcome`; the following `ES_TIMEOUT(COUNTDOWN_TIMER)` forwards the event to the
servo service, arms `MISSILE_TIMER` for 100 ticks and enters `GamePlaying`. -/
theorem C3_welcome_to_playing (s : GameVars) (p : Nat) (rand rand2 : Nat → Nat)
    (undef undef2 : Nat) (hs : s.CurrentState = GameWelcome) :
    let hand : ES_Event_t := { EventType := ES_HAND_DETECTED, EventParam := p }
    let tmo : ES_Event_t := { EventType := ES_TIMEOUT, EventParam := COUNTDOWN_TIMER }
    let r1 := RunGameService s hand rand undef
    let r2 := RunGameService r1.vars tmo rand2 undef2
    r1.effects = [Effect.InitTimer COUNTDOWN_TIMER 4000, Effect.Post Service.AudioService hand] ∧
    r1.vars.lastThrottleValue = 0 ∧
    r1.vars.CurrentState = GameWelcome ∧
    r2.effects = [Effect.Post Service.ServoService tmo, Effect.InitTimer MISSILE_TIMER 100] ∧
    r2.vars.CurrentState = GamePlaying := by
  simp [RunGameService, hs, CountdownTime, InitMissileTime]

/-- C3 on a coordinator in `GameWelcome` whose last throttle sample was 77. -/
theorem C3_welcome_to_playing_witness :
    (RunGameService welcomeVars { EventType := ES_HAND_DETECTED, EventParam := 0 }
        (constRand 0) 0).effects =
      [Effect.InitTimer COUNTDOWN_TIMER 4000,
        Effect.Post Service.AudioService { EventType := ES_HAND_DETECTED, EventParam := 0 }] ∧
    (RunGameService welcomeVars { EventType := ES_HAND_DETECTED, EventParam := 0 }
        (constRand 0) 0).vars.lastThrottleValue = 0 ∧
    (RunGameService welcomeVars { EventType := ES_HAND_DETECTED, EventParam := 0 }
        (constRand 0) 0).vars.CurrentState = GameWelcome ∧
    (RunGameService
        (RunGameService welcomeVars { EventType := ES_HAND_DETECTED, EventParam := 0 }
          (constRand 0) 0).vars
        { EventType := ES_TIMEOUT, EventParam := COUNTDOWN_TIMER } (constRand 0) 0).effects =
      [Effect.Post Service.ServoService { EventType := ES_TIMEOUT, EventParam := COUNTDOWN_TIMER },
        Effect.InitTimer MISSILE_TIMER 100] ∧
    (RunGameService
        (RunGameService welcomeVars { EventType := ES_HAND_DETECTED, EventParam := 0 }
          (constRand 0) 0).vars
        { EventType := ES_TIMEOUT, EventParam := COUNTDOWN_TIMER } (constRand 0) 0).vars.CurrentState
      = GamePlaying :=
  C3_welcome_to_playing welcomeVars 0 (constRand 0) (constRand 0) 0 0 rfl

/-- In `GamePlaying`, `THROTTLE_VALUE(v)` re-arms `INACTIVITY_TIMER` exactly when the
signed difference `v - lastThrottleValue` differs from `deltaThrottle = 10`. -/
theorem throttle_rearm_iff (s : GameVars) (v : Nat) (rand : Nat → Nat) (undef : Nat)
    (hs : s.CurrentState = GamePlaying) :
    Effect.InitTimer INACTIVITY_TIMER 30000 ∈
        (RunGameService s { EventType := THROTTLE_VALUE, EventParam := v } rand undef).effects
      ↔ (v : Int) - (s.lastThrottleValue : Int) ≠ 10 := by
  simp only [RunGameService, hs, deltaThrottle, InactivityTime]
  split_ifs with h
  · simp; omega
  · simp; omega

/-- C4 (the code departs from the claim): with `lastThrottleValue = 500`, the sample
`THROTTLE_VALUE(500)` has `|v - lastThrottleValue| = 0`, not above the threshold 10,
yet the coordinator re-arms `INACTIVITY_TIMER` for 30000 ticks; and the sample 510
also is within the threshold and does not re-arm it. -/
theorem C4_rearm_within_threshold :
    ¬ (|(500 : Int) - 500| > 10) ∧
    (RunGameService (playingVars 500 1) { EventType := THROTTLE_VALUE, EventParam := 500 }
        (constRand 0) 0).effects =
      [Effect.InitTimer INACTIVITY_TIMER 30000,
        Effect.Post Service.LEDFuelService { EventType := FUEL_UPDATE, EventParam := 500 }] ∧
    (RunGameService (playingVars 500 1) { EventType := THROTTLE_VALUE, EventParam := 510 }
        (constRand 0) 0).effects =
      [Effect.Post Service.LEDFuelService { EventType := FUEL_UPDATE, EventParam := 510 }] := by
  refine ⟨by decide, ?_, ?_⟩ <;> rfl

/-- C5 (the code departs from the claim): in tier 2, when both calls of `rand()` draw
index 3, the `FIRE_MISSILE` parameter posted on `ES_TIMEOUT(MISSILE_TIMER)` is
`8 + 8 = 16`: bit 3, the drawn index, is clear and bit 4, never drawn, is set. -/
theorem C5_duplicate_draw_carries :
    (RunGameService (playingVars 900 2) { EventType := ES_TIMEOUT, EventParam := MISSILE_TIMER }
        (constRand 3) 0).effects =
      [Effect.Post Service.LEDMissileService { EventType := FIRE_MISSILE, EventParam := 16 },
        Effect.InitTimer MISSILE_TIMER 4000] ∧
    Nat.testBit 16 3 = false ∧ Nat.testBit 16 4 = true ∧
    constRand 3 0 % 12 = 3 ∧ constRand 3 1 % 12 = 3 := by
  refine ⟨?_, ?_, ?_, ?_, ?_⟩ <;> rfl

/-- C6 (the code departs from the claim): in tier 2, when both calls of `rand()` draw
index 11, the `FIRE_MISSILE` parameter posted on `ES_TIMEOUT(MISSILE_TIMER)` is
`2048 + 2048 = 4096`, which is not below 4096; in tier 3 three draws of 11 give 6144. -/
theorem C6_duplicate_draw_exceeds_mask :
    (RunGameService (playingVars 900 2) { EventType := ES_TIMEOUT, EventParam := MISSILE_TIMER }
        (constRand 11) 0).effects =
      [Effect.Post Service.LEDMissileService { EventType := FIRE_MISSILE, EventParam := 4096 },
        Effect.InitTimer MISSILE_TIMER 4000] ∧
    (RunGameService (playingVars 800 3) { EventType := ES_TIMEOUT, EventParam := MISSILE_TIMER }
        (constRand 11) 0).effects =
      [Effect.Post Service.LEDMissileService { EventType := FIRE_MISSILE, EventParam := 6144 },
        Effect.InitTimer MISSILE_TIMER 4000] ∧
    ¬ (4096 < 4096) := by
  refine ⟨?_, ?_, by decide⟩ <;> rfl

/-! ## Theorems: the missile display -/

/-- Reading an array after one store. -/
theorem getD_set_ite (l : List Int) (i j : Nat) (a : Int) :
    (l.set i a).getD j 0 = if i = j ∧ j < l.length then a else l.getD j 0 := by
  simp only [List.getD_eq_getElem?_getD, List.getElem?_set]
  by_cases hij : i = j
  · subst hij
    by_cases hl : i < l.length
    · simp [hl]
    · simp [hl, List.getElem?_eq_none (Nat.le_of_not_lt hl)]
  · simp [hij]

theorem decodeLoop1_length (fuel : Nat) : ∀ (param i : Nat) (l : List Int),
    (decodeLoop1 fuel param i l).2.length = l.length := by
  induction fuel with
  | zero => intro param i l; rfl
  | succ n ih =>
    intro param i l
    simp only [decodeLoop1]
    split_ifs
    · rw [ih, List.length_set]
    · rfl

theorem decodeLoop2_length (n : Nat) : ∀ (i : Nat) (l : List Int),
    (decodeLoop2 n i l).length = l.length := by
  induction n with
  | zero => intro i l; rfl
  | succ n ih => intro i l; simp only [decodeLoop2]; rw [ih, List.length_set]

/-- The second loop clears the entries `i ≤ j < i + n` and leaves the others. -/
theorem decodeLoop2_getD (n : Nat) : ∀ (i : Nat) (l : List Int) (j : Nat),
    (decodeLoop2 n i l).getD j 0 = if i ≤ j ∧ j < i + n then 0 else l.getD j 0 := by
  induction n with
  | zero => intro i l j; simp only [decodeLoop2]; rw [if_neg (by omega)]
  | succ n ih =>
    intro i l j
    simp only [decodeLoop2]
    rw [ih, getD_set_ite]
    by_cases h1 : i + 1 ≤ j ∧ j < i + 1 + n
    · rw [if_pos h1, if_pos (by omega)]
    · rw [if_neg h1]
      by_cases h2 : i = j
      · subst h2
        by_cases h3 : i < l.length
        · rw [if_pos ⟨rfl, h3⟩, if_pos (by omega)]
        · rw [if_neg (by omega), if_pos (by omega)]
          simp only [List.getD_eq_getElem?_getD]
          rw [List.getElem?_eq_none (by omega)]
          rfl
      · rw [if_neg (by omega), if_neg (by omega)]

/-- The final index of the first loop is not below its start. -/
theorem decodeLoop1_le (fuel : Nat) : ∀ (param i : Nat) (l : List Int),
    i ≤ (decodeLoop1 fuel param i l).1 := by
  induction fuel with
  | zero => intro param i l; exact Nat.le_refl i
  | succ n ih =>
    intro param i l
    simp only [decodeLoop1]
    split_ifs
    · exact Nat.le_trans (Nat.le_succ i) (ih _ _ _)
    · exact Nat.le_refl i

/-- With enough fuel the first loop runs until `param` is exhausted: the bits it has
not stored are all zero. -/
theorem decodeLoop1_done (fuel : Nat) : ∀ (param i : Nat) (l : List Int),
    param < 2 ^ fuel → param < 2 ^ ((decodeLoop1 fuel param i l).1 - i) := by
  induction fuel with
  | zero => intro param i l h; simpa [decodeLoop1] using h
  | succ n ih =>
    intro param i l h
    simp only [decodeLoop1]
    split_ifs with hp
    · have h2 : param / 2 < 2 ^ n := by
        rw [Nat.div_lt_iff_lt_mul (by decide)]; rw [pow_succ] at h; exact h
      have h3 := ih (param / 2) (i + 1) (l.set i ((param % 2 : Nat) : Int)) h2
      have h4 := decodeLoop1_le n (param / 2) (i + 1) (l.set i ((param % 2 : Nat) : Int))
      have h5 : (decodeLoop1 n (param / 2) (i + 1) (l.set i ((param % 2 : Nat) : Int))).1 - i
          = ((decodeLoop1 n (param / 2) (i + 1) (l.set i ((param % 2 : Nat) : Int))).1 - (i + 1)) + 1 := by
        omega
      rw [h5, pow_succ]
      omega
    · simp only [Nat.sub_self, pow_zero]; omega

/-- The first loop stores no more bits than `param` has. -/
theorem decodeLoop1_bound (fuel : Nat) : ∀ (param i : Nat) (l : List Int),
    i < (decodeLoop1 fuel param i l).1 →
      2 ^ ((decodeLoop1 fuel param i l).1 - i - 1) ≤ param := by
  induction fuel with
  | zero => intro param i l h; simp [decodeLoop1] at h
  | succ n ih =>
    intro param i l
    simp only [decodeLoop1]
    split_ifs with hp
    · intro _
      have h4 := decodeLoop1_le n (param / 2) (i + 1) (l.set i ((param % 2 : Nat) : Int))
      by_cases h6 : i + 1 < (decodeLoop1 n (param / 2) (i + 1) (l.set i ((param % 2 : Nat) : Int))).1
      · have h3 := ih (param / 2) (i + 1) (l.set i ((param % 2 : Nat) : Int)) h6
        have h5 : (decodeLoop1 n (param / 2) (i + 1) (l.set i ((param % 2 : Nat) : Int))).1 - i - 1
            = ((decodeLoop1 n (param / 2) (i + 1) (l.set i ((param % 2 : Nat) : Int))).1 - (i + 1) - 1) + 1 := by
          omega
        rw [h5, pow_succ]
        omega
      · have h5 : (decodeLoop1 n (param / 2) (i + 1) (l.set i ((param % 2 : Nat) : Int))).1 - i - 1
            = 0 := by omega
        rw [h5]; simpa using hp
    · intro h; simp at h

/-- The first loop stores bit `j - i` of `param` at every index `i ≤ j` below its final
index (and inside the array), and leaves the other entries. -/
theorem decodeLoop1_getD (fuel : Nat) : ∀ (param i : Nat) (l : List Int) (j : Nat),
    (decodeLoop1 fuel param i l).2.getD j 0 =
      if i ≤ j ∧ j < (decodeLoop1 fuel param i l).1 ∧ j < l.length
      then ((param / 2 ^ (j - i) % 2 : Nat) : Int) else l.getD j 0 := by
  induction fuel with
  | zero =>
    intro param i l j
    simp only [decodeLoop1]
    rw [if_neg (by omega)]
  | succ n ih =>
    intro param i l j
    simp only [decodeLoop1]
    split_ifs with hp hc hc
    · -- the loop stores bit 0 at i and continues, j is stored
      have h4 := decodeLoop1_le n (param / 2) (i + 1) (l.set i ((param % 2 : Nat) : Int))
      rw [ih, List.length_set, getD_set_ite]
      by_cases hij : i = j
      · subst hij
        rw [if_neg (by omega), if_pos ⟨rfl, hc.2.2⟩]
        simp
      · rw [if_pos ⟨by omega, hc.2.1, hc.2.2⟩]
        have h7 : j - i = (j - (i + 1)) + 1 := by omega
        rw [h7, pow_succ, Nat.div_div_eq_div_mul, Nat.mul_comm]
    · have h4 := decodeLoop1_le n (param / 2) (i + 1) (l.set i ((param % 2 : Nat) : Int))
      rw [ih, List.length_set, getD_set_ite]
      rw [if_neg (by omega), if_neg (by omega)]
    · omega
    · rfl

/-- `decodeParam` on a 12-bit parameter and a 12-entry array: entry `j` becomes bit `j`
of the parameter, whatever the array held before. -/
theorem decodeParam_getD (p : Nat) (l : List Int) (hp : p < 4096) (hl : l.length = 12)
    (j : Nat) (hj : j < 12) :
    (decodeParam p l).getD j 0 = ((bitOf p j : Nat) : Int) := by
  have hle := decodeLoop1_le 16 p 0 l
  have hdone := decodeLoop1_done 16 p 0 l (by omega)
  have hbound := decodeLoop1_bound 16 p 0 l
  have hget := decodeLoop1_getD 16 p 0 l j
  simp only [decodeParam, bitOf]
  rw [decodeLoop2_getD]
  generalize decodeLoop1 16 p 0 l = r at *
  simp only [Nat.sub_zero] at hdone hbound hget
  have hr12 : r.1 ≤ 12 := by
    by_contra hcon
    have h1 := hbound (by omega)
    have h2 : 2 ^ 12 ≤ 2 ^ (r.1 - 1) := Nat.pow_le_pow_right (by decide) (by omega)
    omega
  by_cases hjr : j < r.1
  · rw [if_neg (by omega), hget, if_pos ⟨Nat.zero_le j, hjr, by omega⟩]
  · rw [if_pos (by omega)]
    have h2 : 2 ^ r.1 ≤ 2 ^ j := Nat.pow_le_pow_right (by decide) (by omega)
    rw [Nat.div_eq_of_lt (by omega)]
    rfl

theorem decodeParam_length (p : Nat) (l : List Int) :
    (decodeParam p l).length = l.length := by
  simp only [decodeParam]
  rw [decodeLoop2_length, decodeLoop1_length]

/-- One step of the scan, on the summary of the live slots found so far. -/
theorem ledScanStep_summary (l : List Int) (F : List Nat) (i : Nat) :
    ledScanStep l (scanSummary F) i =
      scanSummary (if l.getD i 0 = 1 then F ++ [i] else F) := by
  by_cases h : l.getD i 0 = 1
  · simp only [ledScanStep, if_pos h]
    rcases F with _ | ⟨a, _ | ⟨b, _ | ⟨c, F⟩⟩⟩ <;>
      simp [scanSummary, ledAt]
  · simp only [ledScanStep, if_neg h]

/-- The scan over the indices `xs`, started from the summary of `F`. -/
theorem ledScan_foldl (l : List Int) (xs : List Nat) : ∀ F : List Nat,
    xs.foldl (ledScanStep l) (scanSummary F) =
      scanSummary (F ++ xs.filter (fun i => l.getD i 0 = 1)) := by
  induction xs with
  | nil => intro F; simp
  | cons x xs ih =>
    intro F
    rw [List.foldl_cons, ledScanStep_summary, ih]
    by_cases h : l.getD x 0 = 1
    · rw [if_pos h, List.filter_cons_of_pos (by simpa using h), List.append_assoc]
      rfl
    · rw [if_neg h, List.filter_cons_of_neg (by simpa using h)]

/-- The scan finds the first three live slots of the array, in increasing order. -/
theorem ledScan_eq (l : List Int) :
    ledScan l = scanSummary ((List.range 12).filter (fun i => l.getD i 0 = 1)) := by
  have h := ledScan_foldl l (List.range 12) []
  simpa [ledScan, scanSummary, ledAt] using h

/-- The live slots of the decoded array are the set bits of the parameter. -/
theorem decodeParam_live (p : Nat) (l : List Int) (hp : p < 4096) (hl : l.length = 12) :
    (List.range 12).filter (fun i => (decodeParam p l).getD i 0 = 1) = setBits p := by
  apply List.filter_congr
  intro i hi
  rw [decodeParam_getD p l hp hl i (List.mem_range.mp hi)]
  simp

/-- After `FIRE_MISSILE(p)` with `p < 4096`, `led1`, `led2` and `led3` are the LED
numbers of the first three set bits of `p`. -/
theorem fire_missile_leds (s : MissileVars) (p undef : Nat)
    (hs : s.CurrentState = MissileFiring) (hl : s.ledStatus.length = 12) (hp : p < 4096) :
    (RunLEDMissileService s { EventType := FIRE_MISSILE, EventParam := p } undef).vars.led1
      = ledAt (setBits p) 0 ∧
    (RunLEDMissileService s { EventType := FIRE_MISSILE, EventParam := p } undef).vars.led2
      = ledAt (setBits p) 1 ∧
    (RunLEDMissileService s { EventType := FIRE_MISSILE, EventParam := p } undef).vars.led3
      = ledAt (setBits p) 2 := by
  simp only [RunLEDMissileService, hs]
  rw [ledScan_eq, decodeParam_live p s.ledStatus hp hl]
  exact ⟨rfl, rfl, rfl⟩

/-- The LED number of one of the first three entries of a list depends on the first
three entries only. -/
theorem ledAt_take (F : List Nat) (k : Nat) (hk : k < 3) : ledAt F k = ledAt (F.take 3) k := by
  simp only [ledAt]
  rw [List.getElem?_take_of_lt hk]

/-- C7: in `MissileFiring`, after `FIRE_MISSILE(p)` with `p < 4096`, entry `i` of
`ledStatus` is bit `i` of `p` for every `i < 12`, and `led1`, `led2`, `led3` are `i + 1`
for the first, second and third set bit `i` of `p` in increasing order (0 where `p` has
no such bit); set bits beyond the third do not change them: a parameter `q < 4096` with
the same first three set bits yields the same `led1`, `led2`, `led3`. -/
theorem C7_fire_missile_decode (s : MissileVars) (p undef : Nat)
    (hs : s.CurrentState = MissileFiring) (hl : s.ledStatus.length = 12) (hp : p < 4096) :
    (∀ i, i < 12 →
      (RunLEDMissileService s { EventType := FIRE_MISSILE, EventParam := p } undef).vars.ledStatus.getD
        i 0 = ((bitOf p i : Nat) : Int)) ∧
    (RunLEDMissileService s { EventType := FIRE_MISSILE, EventParam := p } undef).vars.led1
      = ledAt (setBits p) 0 ∧
    (RunLEDMissileService s { EventType := FIRE_MISSILE, EventParam := p } undef).vars.led2
      = ledAt (setBits p) 1 ∧
    (RunLEDMissileService s { EventType := FIRE_MISSILE, EventParam := p } undef).vars.led3
      = ledAt (setBits p) 2 ∧
    (∀ q, q < 4096 → (setBits q).take 3 = (setBits p).take 3 →
      (RunLEDMissileService s { EventType := FIRE_MISSILE, EventParam := q } undef).vars.led1 =
        (RunLEDMissileService s { EventType := FIRE_MISSILE, EventParam := p } undef).vars.led1 ∧
      (RunLEDMissileService s { EventType := FIRE_MISSILE, EventParam := q } undef).vars.led2 =
        (RunLEDMissileService s { EventType := FIRE_MISSILE, EventParam := p } undef).vars.led2 ∧
      (RunLEDMissileService s { EventType := FIRE_MISSILE, EventParam := q } undef).vars.led3 =
        (RunLEDMissileService s { EventType := FIRE_MISSILE, EventParam := p } undef).vars.led3) := by
  obtain ⟨h1, h2, h3⟩ := fire_missile_leds s p undef hs hl hp
  refine ⟨?_, h1, h2, h3, ?_⟩
  · intro i hi
    simp only [RunLEDMissileService, hs]
    exact decodeParam_getD p s.ledStatus hp hl i hi
  · intro q hq hqp
    obtain ⟨g1, g2, g3⟩ := fire_missile_leds s q undef hs hl hq
    rw [h1, h2, h3, g1, g2, g3, ledAt_take (setBits q) 0 (by decide),
      ledAt_take (setBits q) 1 (by decide), ledAt_take (setBits q) 2 (by decide),
      ledAt_take (setBits p) 0 (by decide), ledAt_take (setBits p) 1 (by decide),
      ledAt_take (setBits p) 2 (by decide), hqp]
    exact ⟨rfl, rfl, rfl⟩

/-- C7 for `FIRE_MISSILE(0b100000101101)`: bits 0, 2, 3, 5 and 11 are set, so
`led1 = 1`, `led2 = 3`, `led3 = 4`. -/
theorem C7_fire_missile_decode_witness :
    (RunLEDMissileService firingVars { EventType := FIRE_MISSILE, EventParam := 2093 } 0).vars.ledStatus
      = [1, 0, 1, 1, 0, 1, 0, 0, 0, 0, 0, 1] ∧
    (RunLEDMissileService firingVars { EventType := FIRE_MISSILE, EventParam := 2093 } 0).vars.led1 = 1 ∧
    (RunLEDMissileService firingVars { EventType := FIRE_MISSILE, EventParam := 2093 } 0).vars.led2 = 3 ∧
    (RunLEDMissileService firingVars { EventType := FIRE_MISSILE, EventParam := 2093 } 0).vars.led3 = 4 :=
  ⟨by decide,
    (C7_fire_missile_decode firingVars 2093 0 rfl rfl (by decide)).2.1.trans (by decide),
    (C7_fire_missile_decode firingVars 2093 0 rfl rfl (by decide)).2.2.1.trans (by decide),
    (C7_fire_missile_decode firingVars 2093 0 rfl rfl (by decide)).2.2.2.1.trans (by decide)⟩

/-- C10: in `MissileFiring`, on `ENCODER_UPDATE(position)`: if the missile is live
(`EncoderFlag` true) the service posts `ES_MISSILE_HIT` to the coordinator exactly when
some slot `i < 12` with `ledStatus[i] = 1` has `30 i - 10 ≤ position ≤ 30 i + 10`, and
posts nothing else; if the missile is not live it posts nothing. The module variables
are unchanged. -/
theorem C10_encoder_update_hit (s : MissileVars) (position undef : Nat)
    (hs : s.CurrentState = MissileFiring) :
    (s.EncoderFlag = true →
      ((∃ e, e ∈ (RunLEDMissileService s { EventType := ENCODER_UPDATE, EventParam := position }
            undef).effects) ↔
        ∃ i, i < 12 ∧ s.ledStatus.getD i 0 = 1 ∧
          30 * (i : Int) - 10 ≤ (position : Int) ∧ (position : Int) ≤ 30 * (i : Int) + 10) ∧
      ∀ e, e ∈ (RunLEDMissileService s { EventType := ENCODER_UPDATE, EventParam := position }
            undef).effects →
        e = Effect.Post Service.GameService { EventType := ES_MISSILE_HIT, EventParam := undef }) ∧
    (s.EncoderFlag = false →
      (RunLEDMissileService s { EventType := ENCODER_UPDATE, EventParam := position }
        undef).effects = []) ∧
    (RunLEDMissileService s { EventType := ENCODER_UPDATE, EventParam := position } undef).vars
      = s := by
  refine ⟨?_, ?_, ?_⟩
  · intro hf
    simp only [RunLEDMissileService, hs, hf, if_true, encoderPosts]
    constructor
    · constructor
      · rintro ⟨e, he⟩
        obtain ⟨i, hi, -⟩ := List.mem_map.mp he
        obtain ⟨hi1, hi2⟩ := List.mem_filter.mp hi
        refine ⟨i, List.mem_range.mp hi1, ?_⟩
        simp only [hitsSlot, delta, thresh, Bool.and_eq_true, decide_eq_true_eq] at hi2
        refine ⟨hi2.1, ?_, ?_⟩ <;> omega
      · rintro ⟨i, hi, hlive, hlo, hhi⟩
        refine ⟨_, List.mem_map.mpr ⟨i, List.mem_filter.mpr ⟨List.mem_range.mpr hi, ?_⟩, rfl⟩⟩
        simp only [hitsSlot, delta, thresh, Bool.and_eq_true, decide_eq_true_eq]
        refine ⟨hlive, ?_, ?_⟩ <;> omega
    · intro e he
      obtain ⟨i, -, hie⟩ := List.mem_map.mp he
      exact hie.symm
  · intro hf
    simp only [RunLEDMissileService, hs, hf]
    rfl
  · simp only [RunLEDMissileService, hs]
    split_ifs <;> rfl

/-- C10 with slot 3 live: position 95 lies in the window `[80, 100]` of slot 3 and one
`ES_MISSILE_HIT` is posted; position 101 lies in no live window and nothing is posted;
with the missile not live nothing is posted at position 95 either. -/
theorem C10_encoder_update_hit_witness :
    (RunLEDMissileService liveVars { EventType := ENCODER_UPDATE, EventParam := 95 } 0).effects
      = [Effect.Post Service.GameService { EventType := ES_MISSILE_HIT, EventParam := 0 }] ∧
    (RunLEDMissileService liveVars { EventType := ENCODER_UPDATE, EventParam := 101 } 0).effects
      = [] ∧
    (RunLEDMissileService { liveVars with EncoderFlag := false }
        { EventType := ENCODER_UPDATE, EventParam := 95 } 0).effects = [] :=
  ⟨by decide, by decide,
    (C10_encoder_update_hit { liveVars with EncoderFlag := false } 95 0 rfl).2.1 rfl⟩

/-! ## Theorems: the motor -/

/-- C8: when channel A has changed, `DecodeQuadrature` returns CCW for
`(prevA, B) = (0, 1)`, CW for `(0, 0)`, CW for `(1, 1)` and CCW for `(1, 0)`. -/
theorem C8_quadrature_table (s : MotorVars) (CurrentEncAState CurrentEncBState : Nat)
    (hA : CurrentEncAState ≠ s.LastEncAState) :
    (s.LastEncAState = 0 ∧ CurrentEncBState = 1 →
      DecodeQuadrature s CurrentEncAState CurrentEncBState = CCW) ∧
    (s.LastEncAState = 0 ∧ CurrentEncBState = 0 →
      DecodeQuadrature s CurrentEncAState CurrentEncBState = CW) ∧
    (s.LastEncAState = 1 ∧ CurrentEncBState = 1 →
      DecodeQuadrature s CurrentEncAState CurrentEncBState = CW) ∧
    (s.LastEncAState = 1 ∧ CurrentEncBState = 0 →
      DecodeQuadrature s CurrentEncAState CurrentEncBState = CCW) := by
  refine ⟨?_, ?_, ?_, ?_⟩ <;> rintro ⟨h1, h2⟩ <;> rw [h1] at hA <;>
    simp [DecodeQuadrature, hA, h1, h2, CW, CCW]

/-- C8 on the four combinations, with the last direction CW and the last direction
CCW: the result does not depend on it. -/
theorem C8_quadrature_table_witness :
    DecodeQuadrature (motorAt 0 CW 0) 1 1 = CCW ∧ DecodeQuadrature (motorAt 0 CW 0) 1 0 = CW ∧
    DecodeQuadrature (motorAt 0 CCW 1) 0 1 = CW ∧ DecodeQuadrature (motorAt 0 CCW 1) 0 0 = CCW :=
  ⟨(C8_quadrature_table (motorAt 0 CW 0) 1 1 (by decide)).1 ⟨rfl, rfl⟩,
    (C8_quadrature_table (motorAt 0 CW 0) 1 0 (by decide)).2.1 ⟨rfl, rfl⟩,
    (C8_quadrature_table (motorAt 0 CCW 1) 0 1 (by decide)).2.2.1 ⟨rfl, rfl⟩,
    (C8_quadrature_table (motorAt 0 CCW 1) 0 0 (by decide)).2.2.2 ⟨rfl, rfl⟩⟩

/-- C9 (counterexample): at `Count = -360`, a negative multiple of 360, `GetAngleDeg`
returns 360, which is neither the residue 0 of `-360` modulo 360 nor below 360. -/
theorem C9_negative_multiple_returns_360 :
    -(2 : Int) ^ 31 < (motorAt (-360) CW 0).Count ∧ (motorAt (-360) CW 0).Count < (2 : Int) ^ 31 ∧
    GetAngleDeg (motorAt (-360) CW 0) = 360 ∧ (motorAt (-360) CW 0).Count % 360 = 0 ∧
    ¬ (GetAngleDeg (motorAt (-360) CW 0) < 360) := by
  decide

/-- C9 (amended): for `-2^31 < Count < 2^31`, `GetAngleDeg` returns the residue of
`Count` modulo 360, except that it returns 360 when `Count` is a negative multiple of
360; the result lies in `[0, 360]` and is congruent to `Count` modulo 360. -/
theorem C9_angle_residue (s : MotorVars) (hlo : -(2 : Int) ^ 31 < s.Count)
    (hhi : s.Count < (2 : Int) ^ 31) :
    (GetAngleDeg s : Int) = (if s.Count < 0 ∧ s.Count % 360 = 0 then 360 else s.Count % 360) ∧
    GetAngleDeg s ≤ 360 ∧
    (GetAngleDeg s : Int) % 360 = s.Count % 360 := by
  have key : (GetAngleDeg s : Int) =
      (if s.Count < 0 ∧ s.Count % 360 = 0 then 360 else s.Count % 360) := by
    simp only [GetAngleDeg]
    norm_num at hlo hhi
    by_cases hneg : s.Count < 0
    · have hw : wrapInt32 (-s.Count) = -s.Count := by
        simp only [wrapInt32]; omega
      rw [if_pos hneg, hw, Int.tmod_eq_emod (by omega) (by decide)]
      rw [Int.toNat_of_nonneg (by omega)]
      split_ifs <;> omega
    · rw [if_neg hneg, Int.tmod_eq_emod (by omega) (by decide)]
      rw [Int.toNat_of_nonneg (by omega)]
      rw [if_neg (by omega)]
      omega
  refine ⟨key, ?_, ?_⟩
  · have : (GetAngleDeg s : Int) ≤ 360 := by
      rw [key]; split_ifs <;> omega
    exact_mod_cast this
  · rw [key]; split_ifs <;> omega

/-- C9 (amended) at `Count = -725`: the residue of `-725` modulo 360 is 355. -/
theorem C9_angle_residue_witness :
    (GetAngleDeg (motorAt (-725) CW 0) : Int) = 355 ∧ GetAngleDeg (motorAt (-725) CW 0) ≤ 360 ∧
    (GetAngleDeg (motorAt (-725) CW 0) : Int) % 360 = (-725) % 360 :=
  C9_angle_residue (motorAt (-725) CW 0) (by decide) (by decide)

/-! ## Theorems: end of a game and restart -/

/-- The servo constants: `FULL_CW` is 1750, `FULL_CCW` is 5625 and a step is 38 ticks. -/
theorem servo_constants : FULL_CW = 1750 ∧ FULL_CCW = 5625 ∧ TICKS_PER_STEP = 38 := by
  decide!

/-- The command for the middle of the range is 34. -/
theorem SendCmd_MID : SendCmd MID = { EventType := MOTOR_CMD, EventParam := 34 } := by
  have h := SendCmd_in_range 661 (by decide) (by decide)
  have h2 : (SendCmd MID).EventType = MOTOR_CMD := rfl
  have h3 : (SendCmd MID).EventParam = 34 := h
  cases hc : SendCmd MID with
  | mk t p => rw [hc] at h2 h3; simp only at h2 h3; rw [h2, h3]

/-- C12: in `GamePlaying`, `FUEL_DONE` self-posts `ES_MISSILE_HIT` and stays in
`GamePlaying`; handling that `ES_MISSILE_HIT` posts the motor command, forwards the event
to the audio service, self-posts `ES_LOSE` and enters `GameLose`. -/
theorem C12_fuel_done_then_lose (s : GameVars) (p : Nat) (rand rand2 : Nat → Nat)
    (undef undef2 : Nat) (hs : s.CurrentState = GamePlaying) :
    (RunGameService s { EventType := FUEL_DONE, EventParam := p } rand undef).effects =
      [Effect.Post Service.GameService { EventType := ES_MISSILE_HIT, EventParam := undef }] ∧
    (RunGameService s { EventType := FUEL_DONE, EventParam := p } rand undef).vars.CurrentState
      = GamePlaying ∧
    (RunGameService (RunGameService s { EventType := FUEL_DONE, EventParam := p } rand undef).vars
        { EventType := ES_MISSILE_HIT, EventParam := undef } rand2 undef2).effects =
      [Effect.Post Service.DCMotorService (SendCmd MID),
        Effect.Post Service.AudioService { EventType := ES_MISSILE_HIT, EventParam := undef },
        Effect.Post Service.GameService { EventType := ES_LOSE, EventParam := undef }] ∧
    (RunGameService (RunGameService s { EventType := FUEL_DONE, EventParam := p } rand undef).vars
        { EventType := ES_MISSILE_HIT, EventParam := undef } rand2 undef2).vars.CurrentState
      = GameLose := by
  simp [RunGameService, hs]

/-- C12 on a coordinator in `GamePlaying`, with the unassigned parameter read as 7. -/
theorem C12_fuel_done_then_lose_witness :
    (RunGameService (gameIn GamePlaying) { EventType := FUEL_DONE, EventParam := 0 }
        (constRand 0) 7).effects =
      [Effect.Post Service.GameService { EventType := ES_MISSILE_HIT, EventParam := 7 }] ∧
    (RunGameService (gameIn GamePlaying) { EventType := FUEL_DONE, EventParam := 0 }
        (constRand 0) 7).vars.CurrentState = GamePlaying ∧
    (RunGameService
        (RunGameService (gameIn GamePlaying) { EventType := FUEL_DONE, EventParam := 0 }
          (constRand 0) 7).vars
        { EventType := ES_MISSILE_HIT, EventParam := 7 } (constRand 0) 0).effects =
      [Effect.Post Service.DCMotorService (SendCmd MID),
        Effect.Post Service.AudioService { EventType := ES_MISSILE_HIT, EventParam := 7 },
        Effect.Post Service.GameService { EventType := ES_LOSE, EventParam := 7 }] ∧
    (RunGameService
        (RunGameService (gameIn GamePlaying) { EventType := FUEL_DONE, EventParam := 0 }
          (constRand 0) 7).vars
        { EventType := ES_MISSILE_HIT, EventParam := 7 } (constRand 0) 0).vars.CurrentState
      = GameLose :=
  C12_fuel_done_then_lose (gameIn GamePlaying) 0 (constRand 0) (constRand 0) 7 0 rfl

/-- C13: in `GamePlaying`, `ES_PROGRESS_DONE` stops `INACTIVITY_TIMER`, `FUEL_TIMER` and
`FUEL_BAR_TIMER`, self-posts `ES_WIN` and enters `GameWin`. -/
theorem C13_progress_done_wins (s : GameVars) (p : Nat) (rand : Nat → Nat) (undef : Nat)
    (hs : s.CurrentState = GamePlaying) :
    (RunGameService s { EventType := ES_PROGRESS_DONE, EventParam := p } rand undef).effects =
      [Effect.StopTimer INACTIVITY_TIMER, Effect.StopTimer FUEL_TIMER,
        Effect.StopTimer FUEL_BAR_TIMER,
        Effect.Post Service.GameService { EventType := ES_WIN, EventParam := p }] ∧
    (RunGameService s { EventType := ES_PROGRESS_DONE, EventParam := p } rand undef).vars.CurrentState
      = GameWin := by
  simp [RunGameService, hs]

/-- C13 on a coordinator in `GamePlaying`. -/
theorem C13_progress_done_wins_witness :
    (RunGameService (gameIn GamePlaying) { EventType := ES_PROGRESS_DONE, EventParam := 3 }
        (constRand 0) 0).effects =
      [Effect.StopTimer 12, Effect.StopTimer 11, Effect.StopTimer 10,
        Effect.Post Service.GameService { EventType := ES_WIN, EventParam := 3 }] ∧
    (RunGameService (gameIn GamePlaying) { EventType := ES_PROGRESS_DONE, EventParam := 3 }
        (constRand 0) 0).vars.CurrentState = GameWin :=
  C13_progress_done_wins (gameIn GamePlaying) 3 (constRand 0) 0 rfl

/-- C14: in `GameLose` on `ES_LOSE`, and in `GameWin` on `ES_WIN`, the coordinator
forwards the event to the audio service and to the servo service, self-posts
`RESET_ALL` and enters `GameRestart`. -/
theorem C14_lose_win_restart (s : GameVars) (p : Nat) (rand : Nat → Nat) (undef : Nat) :
    (s.CurrentState = GameLose →
      (RunGameService s { EventType := ES_LOSE, EventParam := p } rand undef).effects =
        [Effect.Post Service.AudioService { EventType := ES_LOSE, EventParam := p },
          Effect.Post Service.ServoService { EventType := ES_LOSE, EventParam := p },
          Effect.Post Service.GameService { EventType := RESET_ALL, EventParam := p }] ∧
      (RunGameService s { EventType := ES_LOSE, EventParam := p } rand undef).vars.CurrentState
        = GameRestart) ∧
    (s.CurrentState = GameWin →
      (RunGameService s { EventType := ES_WIN, EventParam := p } rand undef).effects =
        [Effect.Post Service.AudioService { EventType := ES_WIN, EventParam := p },
          Effect.Post Service.ServoService { EventType := ES_WIN, EventParam := p },
          Effect.Post Service.GameService { EventType := RESET_ALL, EventParam := p }] ∧
      (RunGameService s { EventType := ES_WIN, EventParam := p } rand undef).vars.CurrentState
        = GameRestart) := by
  constructor <;> intro hs <;> simp [RunGameService, hs]

/-- C14 on a coordinator in `GameLose` and on one in `GameWin`. -/
theorem C14_lose_win_restart_witness :
    ((RunGameService (gameIn GameLose) { EventType := ES_LOSE, EventParam := 1 }
        (constRand 0) 0).effects =
        [Effect.Post Service.AudioService { EventType := ES_LOSE, EventParam := 1 },
          Effect.Post Service.ServoService { EventType := ES_LOSE, EventParam := 1 },
          Effect.Post Service.GameService { EventType := RESET_ALL, EventParam := 1 }] ∧
      (RunGameService (gameIn GameLose) { EventType := ES_LOSE, EventParam := 1 }
        (constRand 0) 0).vars.CurrentState = GameRestart) ∧
    ((RunGameService (gameIn GameWin) { EventType := ES_WIN, EventParam := 2 }
        (constRand 0) 0).effects =
        [Effect.Post Service.AudioService { EventType := ES_WIN, EventParam := 2 },
          Effect.Post Service.ServoService { EventType := ES_WIN, EventParam := 2 },
          Effect.Post Service.GameService { EventType := RESET_ALL, EventParam := 2 }] ∧
      (RunGameService (gameIn GameWin) { EventType := ES_WIN, EventParam := 2 }
        (constRand 0) 0).vars.CurrentState = GameRestart) :=
  ⟨(C14_lose_win_restart (gameIn GameLose) 1 (constRand 0) 0).1 rfl,
    (C14_lose_win_restart (gameIn GameWin) 2 (constRand 0) 0).2 rfl⟩

/-- C15: in `GameRestart`, `RESET_ALL` posts `RESET` to the coordinator itself and then
to each of the eight peripheral services (opto sensor, audio, IR, missile display, fuel
display, servo, motor, throttle), and enters `GameWelcome`. -/
theorem C15_reset_all_broadcast (s : GameVars) (p : Nat) (rand : Nat → Nat) (undef : Nat)
    (hs : s.CurrentState = GameRestart) :
    (RunGameService s { EventType := RESET_ALL, EventParam := p } rand undef).effects =
      [Service.GameService, Service.OptoSensorService, Service.AudioService, Service.IRService,
        Service.LEDMissileService, Service.LEDFuelService, Service.ServoService,
        Service.DCMotorService, Service.ThrottleService].map
        (fun svc => Effect.Post svc { EventType := RESET, EventParam := p }) ∧
    (∀ svc : Service, svc ≠ Service.GameService →
      Effect.Post svc { EventType := RESET, EventParam := p } ∈
        (RunGameService s { EventType := RESET_ALL, EventParam := p } rand undef).effects) ∧
    (RunGameService s { EventType := RESET_ALL, EventParam := p } rand undef).vars.CurrentState
      = GameWelcome := by
  refine ⟨by simp [RunGameService, hs], ?_, by simp [RunGameService, hs]⟩
  intro svc hsvc
  cases svc <;> simp [RunGameService, hs] at hsvc ⊢

/-- C15 on a coordinator in `GameRestart`: the opto sensor and the throttle service,
first and last of the peripherals, both receive `RESET`. -/
theorem C15_reset_all_broadcast_witness :
    Effect.Post Service.OptoSensorService { EventType := RESET, EventParam := 5 } ∈
      (RunGameService (gameIn GameRestart) { EventType := RESET_ALL, EventParam := 5 }
        (constRand 0) 0).effects ∧
    Effect.Post Service.ThrottleService { EventType := RESET, EventParam := 5 } ∈
      (RunGameService (gameIn GameRestart) { EventType := RESET_ALL, EventParam := 5 }
        (constRand 0) 0).effects ∧
    (RunGameService (gameIn GameRestart) { EventType := RESET_ALL, EventParam := 5 }
        (constRand 0) 0).vars.CurrentState = GameWelcome :=
  ⟨(C15_reset_all_broadcast (gameIn GameRestart) 5 (constRand 0) 0 rfl).2.1 _ (by decide),
    (C15_reset_all_broadcast (gameIn GameRestart) 5 (constRand 0) 0 rfl).2.1 _ (by decide),
    (C15_reset_all_broadcast (gameIn GameRestart) 5 (constRand 0) 0 rfl).2.2⟩

/-- C18: an event whose tag the coordinator does not handle in its current state leaves
all module variables unchanged, has no effect (no post, no timer armed or stopped) and
returns `ES_NO_EVENT`. -/
theorem C18_ignored_events (s : GameVars) (ev : ES_Event_t) (rand : Nat → Nat) (undef : Nat)
    (h : gameHandles s.CurrentState ev.EventType = false) :
    (RunGameService s ev rand undef).vars = s ∧
    (RunGameService s ev rand undef).effects = [] ∧
    (RunGameService s ev rand undef).ReturnEvent = ES_NO_EVENT := by
  obtain ⟨st, l, n, m⟩ := s
  obtain ⟨t, p⟩ := ev
  cases st <;> cases t <;> simp [gameHandles] at h <;> simp [RunGameService]

/-- C18 for `THROTTLE_VALUE` in `GameWelcome` and for `RESET` in `GameRestart`. -/
theorem C18_ignored_events_witness :
    (RunGameService (gameIn GameWelcome) { EventType := THROTTLE_VALUE, EventParam := 900 }
        (constRand 0) 0).vars = gameIn GameWelcome ∧
    (RunGameService (gameIn GameWelcome) { EventType := THROTTLE_VALUE, EventParam := 900 }
        (constRand 0) 0).effects = [] ∧
    (RunGameService (gameIn GameRestart) { EventType := RESET, EventParam := 0 }
        (constRand 0) 0).effects = [] :=
  ⟨(C18_ignored_events (gameIn GameWelcome) { EventType := THROTTLE_VALUE, EventParam := 900 }
      (constRand 0) 0 rfl).1,
    (C18_ignored_events (gameIn GameWelcome) { EventType := THROTTLE_VALUE, EventParam := 900 }
      (constRand 0) 0 rfl).2.1,
    (C18_ignored_events (gameIn GameRestart) { EventType := RESET, EventParam := 0 }
      (constRand 0) 0 rfl).2.1⟩

/-- The duty and direction that `SetSpeed(cmd)` sets. -/
theorem SetSpeed_spec (s : MotorVars) (cmd : Nat) :
    (SetSpeed s cmd).1.SpeedCmd = (if cmd ≤ 100 then cmd else if cmd ≤ 201 then cmd - 101 else 0) ∧
    (SetSpeed s cmd).1.LastDir = (if cmd ≤ 100 then CCW else if cmd ≤ 201 then CW else s.LastDir) ∧
    (SetSpeed s cmd).2.getLast? = some (Effect.SetDuty (SetSpeed s cmd).1.SpeedCmd ENA_CHANNEL) ∧
    (SetSpeed s cmd).1.SpeedCmd ≤ 100 := by
  by_cases h1 : cmd ≤ 100
  · simp only [SetSpeed, SetDir, if_pos h1]
    refine ⟨trivial, ?_, by simp, h1⟩
    split_ifs with h <;> simp_all
  · by_cases h2 : cmd ≤ 201
    · have h3 : cmd > 100 ∧ cmd ≤ 201 := ⟨by omega, h2⟩
      have h4 : (cmd - 101) % 256 = cmd - 101 := Nat.mod_eq_of_lt (by omega)
      simp only [SetSpeed, SetDir, if_neg h1, if_pos h2, if_pos h3, h4]
      refine ⟨trivial, ?_, by simp, by omega⟩
      split_ifs with h <;> simp_all
    · have h3 : ¬ (cmd > 100 ∧ cmd ≤ 201) := by omega
      simp only [SetSpeed, if_neg h1, if_neg h2, if_neg h3]
      refine ⟨trivial, trivial, by simp, by omega⟩

/-- C11 (the code departs from the claim): on `ES_MISSILE_HIT` in `GamePlaying` the
coordinator posts `SendCmd(MID)`, a `MOTOR_CMD` with parameter 34; the motor service
hands it to `SetSpeed`, which sets the PWM duty to 34, not 0, whatever the motor
variables are. -/
theorem C11_missile_hit_motor_duty :
    (RunGameService (gameIn GamePlaying) { EventType := ES_MISSILE_HIT, EventParam := 0 }
        (constRand 0) 0).effects =
      [Effect.Post Service.DCMotorService { EventType := MOTOR_CMD, EventParam := 34 },
        Effect.Post Service.AudioService { EventType := ES_MISSILE_HIT, EventParam := 0 },
        Effect.Post Service.GameService { EventType := ES_LOSE, EventParam := 0 }] ∧
    (∀ m : MotorVars,
      (RunDCMotorService m { EventType := MOTOR_CMD, EventParam := 34 }).vars.SpeedCmd = 34 ∧
      (RunDCMotorService m { EventType := MOTOR_CMD, EventParam := 34 }).vars.LastDir = CCW ∧
      Effect.SetDuty 34 ENA_CHANNEL ∈
        (RunDCMotorService m { EventType := MOTOR_CMD, EventParam := 34 }).effects ∧
      Effect.SetDuty 0 ENA_CHANNEL ∉
        (RunDCMotorService m { EventType := MOTOR_CMD, EventParam := 34 }).effects) := by
  constructor
  · have h : (RunGameService (gameIn GamePlaying)
        { EventType := ES_MISSILE_HIT, EventParam := 0 } (constRand 0) 0).effects =
        [Effect.Post Service.DCMotorService (SendCmd MID),
          Effect.Post Service.AudioService { EventType := ES_MISSILE_HIT, EventParam := 0 },
          Effect.Post Service.GameService { EventType := ES_LOSE, EventParam := 0 }] := rfl
    rw [h, SendCmd_MID]
  · intro m
    obtain ⟨h1, h2, -, -⟩ := SetSpeed_spec m 34
    have e : (RunDCMotorService m { EventType := MOTOR_CMD, EventParam := 34 }).vars
        = (SetSpeed m 34).1 := rfl
    have e2 : (RunDCMotorService m { EventType := MOTOR_CMD, EventParam := 34 }).effects
        = (SetDir m CCW).2 ++ [Effect.SetDuty 34 ENA_CHANNEL] := rfl
    rw [e, e2]
    simp only [show (34 : Nat) ≤ 100 from by decide, if_true] at h1 h2
    refine ⟨h1, h2, by simp, ?_⟩
    simp only [SetDir]
    split_ifs <;> simp

/-- C16 (the code departs from the claim): in `GameRestart`, `SERVO_RESET` is forwarded
to the servo service with its tag `SERVO_RESET` unchanged, not `RESET`; the servo service
in `ServoWaiting` ignores that tag, while `RESET` makes it return to the CCW limit. The
coordinator self-posts `RESET_ALL` and stays in `GameRestart`. -/
theorem C16_servo_reset_forwarded_unchanged :
    (RunGameService (gameIn GameRestart) { EventType := SERVO_RESET, EventParam := 0 }
        (constRand 0) 0).effects =
      [Effect.Post Service.ServoService { EventType := SERVO_RESET, EventParam := 0 },
        Effect.Post Service.GameService { EventType := RESET_ALL, EventParam := 0 }] ∧
    (RunGameService (gameIn GameRestart) { EventType := SERVO_RESET, EventParam := 0 }
        (constRand 0) 0).vars.CurrentState = GameRestart ∧
    (RunServoService movedServo { EventType := SERVO_RESET, EventParam := 0 } 0).vars
      = movedServo ∧
    (RunServoService movedServo { EventType := SERVO_RESET, EventParam := 0 } 0).effects = [] ∧
    (RunServoService movedServo { EventType := RESET, EventParam := 0 } 0).vars.CurrentPosition
      = movedServo.ccwLimit ∧
    (RunGameService (gameIn GameRestart) { EventType := MOTOR_RESET, EventParam := 0 }
        (constRand 0) 0).effects =
      [Effect.Post Service.DCMotorService { EventType := RESET, EventParam := 0 },
        Effect.Post Service.GameService { EventType := SERVO_RESET, EventParam := 0 }] := by
  refine ⟨rfl, rfl, rfl, rfl, rfl, rfl⟩

/-- C17 (counterexample): a `RESET` handled by the audio service in `AudioWaiting`, by the
servo service in `ServoWaiting` and by the missile display in `MissileFiring` leaves each
in that state, not in the state its `Init` function assigns. -/
theorem C17_reset_keeps_working_state :
    (RunAudioService { CurrentState := AudioWaiting } { EventType := RESET, EventParam := 0 }).vars.CurrentState
      = AudioWaiting ∧
    InitAudioVars.CurrentState = InitAudio ∧
    (RunServoService waitingServo { EventType := RESET, EventParam := 0 } 0).vars.CurrentState
      = ServoWaiting ∧
    InitServoVars.CurrentState = InitServo ∧
    (RunLEDMissileService firingVars { EventType := RESET, EventParam := 0 } 0).vars.CurrentState
      = MissileFiring ∧
    InitLEDMissileVars.CurrentState = InitPState := by
  refine ⟨rfl, rfl, rfl, rfl, rfl, rfl⟩

/-- C17 (amended): handling `RESET` leaves the opto sensor service in `Active`, the state
its `Init` function assigns, from every prior state; the audio service, the servo service
and the missile display keep the state they are in; for all four, handling `RESET` a
second time leaves the same state as handling it once. -/
theorem C17_reset_states (p : Nat) :
    (∀ (s : OptoVars) (adc undef : Nat),
      (RunOptoSensorService s { EventType := RESET, EventParam := p } adc undef).vars.CurrentState
        = InitOptoVars.CurrentState) ∧
    (∀ s : AudioVars,
      (RunAudioService s { EventType := RESET, EventParam := p }).vars.CurrentState
        = s.CurrentState) ∧
    (∀ (s : ServoVars) (undef : Nat),
      (RunServoService s { EventType := RESET, EventParam := p } undef).vars.CurrentState
        = s.CurrentState) ∧
    (∀ (s : MissileVars) (undef : Nat),
      (RunLEDMissileService s { EventType := RESET, EventParam := p } undef).vars.CurrentState
        = s.CurrentState) ∧
    (∀ (s : OptoVars) (adc undef : Nat),
      (RunOptoSensorService
          (RunOptoSensorService s { EventType := RESET, EventParam := p } adc undef).vars
          { EventType := RESET, EventParam := p } adc undef).vars.CurrentState =
        (RunOptoSensorService s { EventType := RESET, EventParam := p } adc undef).vars.CurrentState) ∧
    (∀ s : AudioVars,
      (RunAudioService (RunAudioService s { EventType := RESET, EventParam := p }).vars
          { EventType := RESET, EventParam := p }).vars.CurrentState =
        (RunAudioService s { EventType := RESET, EventParam := p }).vars.CurrentState) ∧
    (∀ (s : ServoVars) (undef : Nat),
      (RunServoService (RunServoService s { EventType := RESET, EventParam := p } undef).vars
          { EventType := RESET, EventParam := p } undef).vars.CurrentState =
        (RunServoService s { EventType := RESET, EventParam := p } undef).vars.CurrentState) ∧
    (∀ (s : MissileVars) (undef : Nat),
      (RunLEDMissileService (RunLEDMissileService s { EventType := RESET, EventParam := p } undef).vars
          { EventType := RESET, EventParam := p } undef).vars.CurrentState =
        (RunLEDMissileService s { EventType := RESET, EventParam := p } undef).vars.CurrentState) := by
  have hA : ∀ s : AudioVars,
      (RunAudioService s { EventType := RESET, EventParam := p }).vars.CurrentState
        = s.CurrentState := by
    rintro ⟨st⟩
    cases st <;> rfl
  have hS : ∀ (s : ServoVars) (undef : Nat),
      (RunServoService s { EventType := RESET, EventParam := p } undef).vars.CurrentState
        = s.CurrentState := by
    intro s undef
    rcases hst : s.CurrentState with _ | _ | _ <;>
      simp [RunServoService, DecodeKey, hst]
  have hM : ∀ (s : MissileVars) (undef : Nat),
      (RunLEDMissileService s { EventType := RESET, EventParam := p } undef).vars.CurrentState
        = s.CurrentState := by
    intro s undef
    rcases hst : s.CurrentState with _ | _ <;>
      simp [RunLEDMissileService, hst]
  refine ⟨?_, hA, hS, hM, ?_, fun s => hA _, fun s undef => hS _ _, fun s undef => hM _ _⟩
  · rintro ⟨st⟩ adc undef
    cases st <;> rfl
  · rintro ⟨st⟩ adc undef
    cases st <;> rfl

/-- C19 (the code departs from the claim): the servo service of `ServoService.c` in
`ServoWaiting` does nothing on `ES_TIMEOUT(COUNTDOWN_TIMER)`: `isMoving` stays false and
no timer is armed. The copy of the run function in `FuelService.c` handles the same event
by starting the slow CW move (`isMoving` true, direction CW, `SERVO_STEP_TIMER` armed
with `timeStep`). -/
theorem C19_countdown_timeout_ignored :
    (RunServoService waitingServo { EventType := ES_TIMEOUT, EventParam := COUNTDOWN_TIMER } 0).vars
      = waitingServo ∧
    (RunServoService waitingServo { EventType := ES_TIMEOUT, EventParam := COUNTDOWN_TIMER } 0).effects
      = [] ∧
    waitingServo.isMoving = false ∧
    (RunServoService_FuelService_timeout waitingServo
        { EventType := ES_TIMEOUT, EventParam := COUNTDOWN_TIMER } 0).vars.isMoving = true ∧
    (RunServoService_FuelService_timeout waitingServo
        { EventType := ES_TIMEOUT, EventParam := COUNTDOWN_TIMER } 0).vars.moveDirection
      = DIRECTION_CW ∧
    (RunServoService_FuelService_timeout waitingServo
        { EventType := ES_TIMEOUT, EventParam := COUNTDOWN_TIMER } 0).effects
      = [Effect.InitTimer SERVO_STEP_TIMER waitingServo.timeStep] := by
  refine ⟨rfl, rfl, rfl, rfl, rfl, rfl⟩

/-- In `ServoWaiting`, a servo that is not moving ignores every `ES_TIMEOUT`. -/
theorem servo_timeout_not_moving (s : ServoVars) (p undef : Nat)
    (hs : s.CurrentState = ServoWaiting) (hm : s.isMoving = false) :
    (RunServoService s { EventType := ES_TIMEOUT, EventParam := p } undef).vars = s ∧
    (RunServoService s { EventType := ES_TIMEOUT, EventParam := p } undef).effects = [] := by
  simp [RunServoService, hs, hm]

/-- C20 (counterexample): `SetSpeed(150)` sets the duty to 49, not `150 - 100 = 50`, and
`SetSpeed(101)` sets it to 0, not 1. -/
theorem C20_SetSpeed_150 :
    (SetSpeed (motorAt 0 CCW 0) 150).1.SpeedCmd = 49 ∧
    (SetSpeed (motorAt 0 CCW 0) 150).1.LastDir = CW ∧
    (SetSpeed (motorAt 0 CCW 0) 101).1.SpeedCmd = 0 := by
  refine ⟨rfl, rfl, rfl⟩

/-- C20 (amended): `SetSpeed(cmd)` sets the direction to CCW and the duty to `cmd` for
`cmd ≤ 100`, the direction to CW and the duty to `cmd - 101` for `100 < cmd ≤ 201`, and
the duty to 0, leaving the direction, for every other `cmd`; the duty is stored in
`SpeedCmd` and written to the PWM channel of the motor last. -/
theorem C20_SetSpeed (s : MotorVars) (cmd : Nat) :
    (SetSpeed s cmd).1.SpeedCmd = (if cmd ≤ 100 then cmd else if cmd ≤ 201 then cmd - 101 else 0) ∧
    (SetSpeed s cmd).1.LastDir = (if cmd ≤ 100 then CCW else if cmd ≤ 201 then CW else s.LastDir) ∧
    (SetSpeed s cmd).2.getLast? = some (Effect.SetDuty (SetSpeed s cmd).1.SpeedCmd ENA_CHANNEL) ∧
    (SetSpeed s cmd).1.SpeedCmd ≤ 100 :=
  SetSpeed_spec s cmd

/-! ## Theorems: the blink sequence of the missile display -/

/-- The six timeouts of a blink sequence, from any state in `MissileFiring` with both
flags zero: the LEDs are driven on, off, on, off, on, off, the timer is re-armed with 200,
200, 200, 200 and 1000 ticks, and `EncoderFlag` keeps its value through the first four
timeouts, is true after the fifth and false after the sixth. -/
theorem blink_from_zero (s : MissileVars) (undef t : Nat)
    (hs : s.CurrentState = MissileFiring) (hb : s.BlinkFlag = 0) (hm : s.MissileFlag = 0) :
    traceEvents (fun s e => RunLEDMissileService s e undef) s
        (List.replicate 6 { EventType := ES_TIMEOUT, EventParam := t }) =
      [[Effect.LedOn s.led1 s.led2 s.led3 1, Effect.InitTimer LED_MISSILE_TIMER 200],
        [Effect.LedOn s.led1 s.led2 s.led3 0, Effect.InitTimer LED_MISSILE_TIMER 200],
        [Effect.LedOn s.led1 s.led2 s.led3 1, Effect.InitTimer LED_MISSILE_TIMER 200],
        [Effect.LedOn s.led1 s.led2 s.led3 0, Effect.InitTimer LED_MISSILE_TIMER 200],
        [Effect.LedOn s.led1 s.led2 s.led3 1, Effect.InitTimer LED_MISSILE_TIMER 1000],
        [Effect.LedOn s.led1 s.led2 s.led3 0]] ∧
    (∀ k, k ≤ 4 →
      (runEvents (fun s e => RunLEDMissileService s e undef) s
        (List.replicate k { EventType := ES_TIMEOUT, EventParam := t })).EncoderFlag
        = s.EncoderFlag) ∧
    runEvents (fun s e => RunLEDMissileService s e undef) s
        (List.replicate 5 { EventType := ES_TIMEOUT, EventParam := t }) =
      { s with BlinkFlag := 4, MissileFlag := 1, EncoderFlag := true } ∧
    runEvents (fun s e => RunLEDMissileService s e undef) s
        (List.replicate 6 { EventType := ES_TIMEOUT, EventParam := t }) =
      { s with BlinkFlag := 4, MissileFlag := 2, EncoderFlag := false } := by
  refine ⟨?_, ?_, ?_, ?_⟩
  · simp [traceEvents, List.replicate, RunLEDMissileService, hs, hb, hm, BLINK_TIME, MISSILE_TIME]
  · intro k hk
    interval_cases k <;>
      simp [runEvents, List.replicate, RunLEDMissileService, hs, hb, hm]
  · simp [runEvents, List.replicate, RunLEDMissileService, hs, hb, hm]
  · simp [runEvents, List.replicate, RunLEDMissileService, hs, hb, hm]

/-- Once the sequence is over (`BlinkFlag = 4`, `MissileFlag = 2`) further timeouts change
nothing and have no effect. -/
theorem blink_idle (s : MissileVars) (undef t : Nat)
    (hs : s.CurrentState = MissileFiring) (hb : s.BlinkFlag = 4) (hm : s.MissileFlag = 2) :
    (RunLEDMissileService s { EventType := ES_TIMEOUT, EventParam := t } undef).vars = s ∧
    (RunLEDMissileService s { EventType := ES_TIMEOUT, EventParam := t } undef).effects = [] := by
  simp [RunLEDMissileService, hs, hb, hm]

/-- The blink sequence after `FIRE_MISSILE(p)` handled in `MissileFiring`: the trace of the
next six timeouts, the value of `EncoderFlag` along them (unchanged by `FIRE_MISSILE`
and by the first four timeouts, true after the fifth, false after the sixth), and the
seventh timeout, which changes nothing. -/
theorem blink_sequence (s : MissileVars) (p undef t : Nat) (hs : s.CurrentState = MissileFiring) :
    traceEvents (fun s e => RunLEDMissileService s e undef)
        (RunLEDMissileService s { EventType := FIRE_MISSILE, EventParam := p } undef).vars
        (List.replicate 7 { EventType := ES_TIMEOUT, EventParam := t }) =
      [[Effect.LedOn (ledScan (decodeParam p s.ledStatus)).led1
            (ledScan (decodeParam p s.ledStatus)).led2 (ledScan (decodeParam p s.ledStatus)).led3 1,
          Effect.InitTimer LED_MISSILE_TIMER 200],
        [Effect.LedOn (ledScan (decodeParam p s.ledStatus)).led1
            (ledScan (decodeParam p s.ledStatus)).led2 (ledScan (decodeParam p s.ledStatus)).led3 0,
          Effect.InitTimer LED_MISSILE_TIMER 200],
        [Effect.LedOn (ledScan (decodeParam p s.ledStatus)).led1
            (ledScan (decodeParam p s.ledStatus)).led2 (ledScan (decodeParam p s.ledStatus)).led3 1,
          Effect.InitTimer LED_MISSILE_TIMER 200],
        [Effect.LedOn (ledScan (decodeParam p s.ledStatus)).led1
            (ledScan (decodeParam p s.ledStatus)).led2 (ledScan (decodeParam p s.ledStatus)).led3 0,
          Effect.InitTimer LED_MISSILE_TIMER 200],
        [Effect.LedOn (ledScan (decodeParam p s.ledStatus)).led1
            (ledScan (decodeParam p s.ledStatus)).led2 (ledScan (decodeParam p s.ledStatus)).led3 1,
          Effect.InitTimer LED_MISSILE_TIMER 1000],
        [Effect.LedOn (ledScan (decodeParam p s.ledStatus)).led1
            (ledScan (decodeParam p s.ledStatus)).led2 (ledScan (decodeParam p s.ledStatus)).led3 0],
        []] ∧
    (∀ k, k ≤ 4 →
      (runEvents (fun s e => RunLEDMissileService s e undef)
        (RunLEDMissileService s { EventType := FIRE_MISSILE, EventParam := p } undef).vars
        (List.replicate k { EventType := ES_TIMEOUT, EventParam := t })).EncoderFlag
        = s.EncoderFlag) ∧
    (runEvents (fun s e => RunLEDMissileService s e undef)
        (RunLEDMissileService s { EventType := FIRE_MISSILE, EventParam := p } undef).vars
        (List.replicate 5 { EventType := ES_TIMEOUT, EventParam := t })).EncoderFlag = true ∧
    (runEvents (fun s e => RunLEDMissileService s e undef)
        (RunLEDMissileService s { EventType := FIRE_MISSILE, EventParam := p } undef).vars
        (List.replicate 6 { EventType := ES_TIMEOUT, EventParam := t })).EncoderFlag = false ∧
    runEvents (fun s e => RunLEDMissileService s e undef)
        (RunLEDMissileService s { EventType := FIRE_MISSILE, EventParam := p } undef).vars
        (List.replicate 7 { EventType := ES_TIMEOUT, EventParam := t }) =
      runEvents (fun s e => RunLEDMissileService s e undef)
        (RunLEDMissileService s { EventType := FIRE_MISSILE, EventParam := p } undef).vars
        (List.replicate 6 { EventType := ES_TIMEOUT, EventParam := t }) := by
  refine ⟨?_, ?_, ?_, ?_, ?_⟩
  · simp [traceEvents, List.replicate, RunLEDMissileService, hs, BLINK_TIME, MISSILE_TIME]
  · intro k hk
    interval_cases k <;>
      simp [runEvents, List.replicate, RunLEDMissileService, hs]
  · simp [runEvents, List.replicate, RunLEDMissileService, hs]
  · simp [runEvents, List.replicate, RunLEDMissileService, hs]
  · simp [runEvents, List.replicate, RunLEDMissileService, hs]

/-- C21 (the code departs from the claim): `FIRE_MISSILE` clears `BlinkFlag` and
`MissileFlag` but not `EncoderFlag`. After `ES_INIT`, `FIRE_MISSILE(8)` and five timeouts
the missile in slot 3 is live; a `FIRE_MISSILE(1)` handled then starts a new sequence with
`EncoderFlag` still true, so after the first timeout of the new sequence (first blink on,
`BlinkFlag = 1`) the missile counts as live, four timeouts early, and an
`ENCODER_UPDATE` at position 0 posts `ES_MISSILE_HIT`. -/
theorem C21_live_before_fifth_timeout :
    (runEvents runMissile InitLEDMissileVars
      ([{ EventType := ES_INIT, EventParam := 0 }, { EventType := FIRE_MISSILE, EventParam := 8 }]
        ++ List.replicate 5 missileTimeout)).EncoderFlag = true ∧
    (runEvents runMissile InitLEDMissileVars
      ([{ EventType := ES_INIT, EventParam := 0 }, { EventType := FIRE_MISSILE, EventParam := 8 }]
        ++ List.replicate 5 missileTimeout
        ++ [{ EventType := FIRE_MISSILE, EventParam := 1 }, missileTimeout])).EncoderFlag = true ∧
    (runEvents runMissile InitLEDMissileVars
      ([{ EventType := ES_INIT, EventParam := 0 }, { EventType := FIRE_MISSILE, EventParam := 8 }]
        ++ List.replicate 5 missileTimeout
        ++ [{ EventType := FIRE_MISSILE, EventParam := 1 }, missileTimeout])).BlinkFlag = 1 ∧
    (runMissile
      (runEvents runMissile InitLEDMissileVars
        ([{ EventType := ES_INIT, EventParam := 0 }, { EventType := FIRE_MISSILE, EventParam := 8 }]
          ++ List.replicate 5 missileTimeout
          ++ [{ EventType := FIRE_MISSILE, EventParam := 1 }, missileTimeout]))
      { EventType := ENCODER_UPDATE, EventParam := 0 }).effects =
      [Effect.Post Service.GameService { EventType := ES_MISSILE_HIT, EventParam := 0 }] := by
  refine ⟨?_, ?_, ?_, ?_⟩ <;> decide

/-! ## Theorems: the digital pin setup -/

/-- On port A and on port B the pin setup returns true for every pin mask: the test
`bitmask & (WhichPin != 0)` is zero because bit 0 of both bit masks is clear. -/
theorem PortSetup_accepts_every_mask (r : PortRegs) (WhichPort WhichPin : Nat)
    (hp : WhichPort = _Port_A ∨ WhichPort = _Port_B) :
    (PortSetup_ConfigureDigitalOutputs r WhichPort WhichPin).1 = true := by
  rcases hp with hp | hp <;> by_cases h : WhichPin = 0 <;>
    simp [PortSetup_ConfigureDigitalOutputs, hp, h, _Port_A, _Port_B]

/-- C22 (the code departs from the claim): the call
`PortSetup_ConfigureDigitalOutputs(_Port_A, _Pin_5)` names pin 5, which port A does not
have (its legal pins are 0 to 4), yet it returns true and clears bit 5 of `TRISA`. -/
theorem C22_illegal_pin_accepted :
    legalPortPins _Port_A _Pin_5 = false ∧
    PortSetup_ConfigureDigitalOutputs inputRegs _Port_A _Pin_5 =
      (true, { ANSELA := 0, TRISA := 0x1F, ANSELB := 0, TRISB := 0xFFFF }) ∧
    (PortSetup_ConfigureDigitalOutputs inputRegs _Port_A _Pin_5).2 ≠ inputRegs := by
  refine ⟨?_, ?_, ?_⟩ <;> decide

/-! ## Theorems: throttle samples and the transitions out of `GamePlaying` -/

/-- C26 (counterexample): with `lastThrottleValue = 500` the sample `THROTTLE_VALUE(510)`
differs from the last value, yet the coordinator does not re-arm `INACTIVITY_TIMER`: the
only effect is the post of `FUEL_UPDATE(510)`. -/
theorem C26_delta_ten_not_rearmed :
    (510 : Nat) ≠ (playingVars 500 1).lastThrottleValue ∧
    (RunGameService (playingVars 500 1) { EventType := THROTTLE_VALUE, EventParam := 510 }
        (constRand 0) 0).effects =
      [Effect.Post Service.LEDFuelService { EventType := FUEL_UPDATE, EventParam := 510 }] ∧
    Effect.InitTimer INACTIVITY_TIMER 30000 ∉
      (RunGameService (playingVars 500 1) { EventType := THROTTLE_VALUE, EventParam := 510 }
        (constRand 0) 0).effects := by
  refine ⟨by decide, rfl, by decide⟩

/-- C26 (amended): in `GamePlaying`, for every `THROTTLE_VALUE(v)` with
`|v - lastThrottleValue| > 10` the coordinator re-arms `INACTIVITY_TIMER` (30000 ticks), and
for `v = lastThrottleValue + 10` it does not. -/
theorem C26_rearm_beyond_threshold (s : GameVars) (v : Nat) (rand : Nat → Nat) (undef : Nat)
    (hs : s.CurrentState = GamePlaying) :
    (|(v : Int) - (s.lastThrottleValue : Int)| > 10 →
      Effect.InitTimer INACTIVITY_TIMER 30000 ∈
        (RunGameService s { EventType := THROTTLE_VALUE, EventParam := v } rand undef).effects) ∧
    (v = s.lastThrottleValue + 10 →
      Effect.InitTimer INACTIVITY_TIMER 30000 ∉
        (RunGameService s { EventType := THROTTLE_VALUE, EventParam := v } rand undef).effects) := by
  refine ⟨fun h => ?_, fun h => ?_⟩
  · rw [throttle_rearm_iff s v rand undef hs]
    intro h10
    rw [h10] at h
    exact absurd h (by decide)
  · rw [throttle_rearm_iff s v rand undef hs]
    subst h
    push_cast
    omega

theorem C26_rearm_beyond_threshold_witness :
    (|((520 : Nat) : Int) - ((playingVars 500 1).lastThrottleValue : Int)| > 10 →
      Effect.InitTimer INACTIVITY_TIMER 30000 ∈
        (RunGameService (playingVars 500 1) { EventType := THROTTLE_VALUE, EventParam := 520 }
          (constRand 0) 0).effects) ∧
    (520 = (playingVars 500 1).lastThrottleValue + 10 →
      Effect.InitTimer INACTIVITY_TIMER 30000 ∉
        (RunGameService (playingVars 500 1) { EventType := THROTTLE_VALUE, EventParam := 520 }
          (constRand 0) 0).effects) :=
  C26_rearm_beyond_threshold (playingVars 500 1) 520 (constRand 0) 0 rfl

/-- C27 (counterexample): `RESET` is none of the three listed events, yet handling it in
`GamePlaying` leaves the coordinator in `GameWelcome`. -/
theorem C27_reset_leaves_playing :
    (playingVars 500 1).CurrentState = GamePlaying ∧
    (RunGameService (playingVars 500 1) { EventType := RESET, EventParam := 0 }
        (constRand 0) 0).vars.CurrentState = GameWelcome := by
  refine ⟨rfl, rfl⟩

/-- C27 (amended): the coordinator leaves `GamePlaying` on exactly four transitions:
`ES_TIMEOUT` with parameter `INACTIVITY_TIMER` (to `GameRestart`), `ES_PROGRESS_DONE`
(to `GameWin`), `ES_MISSILE_HIT` (to `GameLose`) and `RESET` (to `GameWelcome`); for every
other event the state after `RunGameService` is still `GamePlaying`. -/
theorem C27_leaving_transitions (s : GameVars) (e : ES_Event_t) (rand : Nat → Nat) (undef : Nat)
    (hs : s.CurrentState = GamePlaying) :
    (e.EventType = ES_TIMEOUT ∧ e.EventParam = INACTIVITY_TIMER →
      (RunGameService s e rand undef).vars.CurrentState = GameRestart) ∧
    (e.EventType = ES_PROGRESS_DONE →
      (RunGameService s e rand undef).vars.CurrentState = GameWin) ∧
    (e.EventType = ES_MISSILE_HIT →
      (RunGameService s e rand undef).vars.CurrentState = GameLose) ∧
    (e.EventType = RESET →
      (RunGameService s e rand undef).vars.CurrentState = GameWelcome) ∧
    (¬ (e.EventType = ES_TIMEOUT ∧ e.EventParam = INACTIVITY_TIMER) →
      e.EventType ≠ ES_PROGRESS_DONE → e.EventType ≠ ES_MISSILE_HIT → e.EventType ≠ RESET →
      (RunGameService s e rand undef).vars.CurrentState = GamePlaying) := by
  obtain ⟨t, p⟩ := e
  refine ⟨?_, ?_, ?_, ?_, ?_⟩
  · rintro ⟨ht, hp⟩
    simp only at ht hp
    subst ht hp
    simp [RunGameService, hs]
  · intro ht
    simp only at ht
    subst ht
    simp [RunGameService, hs]
  · intro ht
    simp only at ht
    subst ht
    simp [RunGameService, hs]
  · intro ht
    simp only at ht
    subst ht
    simp [RunGameService, hs]
  · intro h1 h2 h3 h4
    cases t <;> simp_all [RunGameService]

theorem C27_leaving_transitions_witness :
    ((ES_Event_t.mk FUEL_DONE 0).EventType = ES_TIMEOUT ∧
        (ES_Event_t.mk FUEL_DONE 0).EventParam = INACTIVITY_TIMER →
      (RunGameService (playingVars 500 1) (ES_Event_t.mk FUEL_DONE 0) (constRand 0)
        0).vars.CurrentState = GameRestart) ∧
    ((ES_Event_t.mk FUEL_DONE 0).EventType = ES_PROGRESS_DONE →
      (RunGameService (playingVars 500 1) (ES_Event_t.mk FUEL_DONE 0) (constRand 0)
        0).vars.CurrentState = GameWin) ∧
    ((ES_Event_t.mk FUEL_DONE 0).EventType = ES_MISSILE_HIT →
      (RunGameService (playingVars 500 1) (ES_Event_t.mk FUEL_DONE 0) (constRand 0)
        0).vars.CurrentState = GameLose) ∧
    ((ES_Event_t.mk FUEL_DONE 0).EventType = RESET →
      (RunGameService (playingVars 500 1) (ES_Event_t.mk FUEL_DONE 0) (constRand 0)
        0).vars.CurrentState = GameWelcome) ∧
    (¬ ((ES_Event_t.mk FUEL_DONE 0).EventType = ES_TIMEOUT ∧
        (ES_Event_t.mk FUEL_DONE 0).EventParam = INACTIVITY_TIMER) →
      (ES_Event_t.mk FUEL_DONE 0).EventType ≠ ES_PROGRESS_DONE →
      (ES_Event_t.mk FUEL_DONE 0).EventType ≠ ES_MISSILE_HIT →
      (ES_Event_t.mk FUEL_DONE 0).EventType ≠ RESET →
      (RunGameService (playingVars 500 1) (ES_Event_t.mk FUEL_DONE 0) (constRand 0)
        0).vars.CurrentState = GamePlaying) :=
  C27_leaving_transitions (playingVars 500 1) (ES_Event_t.mk FUEL_DONE 0) (constRand 0) 0 rfl

/-! ## Theorems: the encoder event checker -/

/-- C28 (counterexample): on a rising edge of channel A (last sample 0, new sample 1) the
sampled A differs from `LastEncAState`, yet `Count` is unchanged. -/
theorem C28_rising_edge_not_counted :
    (1 : Nat) ≠ (motorAt 0 CW 0).LastEncAState ∧
    (CheckEncoderEvents (motorAt 0 CW 0) 1 0).1.Count = (motorAt 0 CW 0).Count ∧
    (CheckEncoderEvents (motorAt 0 CW 0) 1 1).1.Count = (motorAt 0 CW 0).Count := by
  refine ⟨by decide, rfl, rfl⟩

/-- C28 (amended): `CheckEncoderEvents` changes the position counter on each falling edge
of channel A by exactly 2 counts: if the sampled A is 0 and differs from `LastEncAState`
then `Count` becomes `Count + 2` when the decoded direction is CCW and `Count - 2` when it
is CW; otherwise (A unchanged, or a rising edge of A) `Count` is unchanged; in every case
`LastEncAState` and `LastEncBState` are updated to the sampled values and the function
returns false. `Count` is an `int32_t` at least 2 away from both ends of its range. -/
theorem C28_falling_edge_counts (s : MotorVars) (A B : Nat)
    (hlo : -2147483646 ≤ s.Count) (hhi : s.Count ≤ 2147483645) :
    (A ≠ s.LastEncAState → A = 0 → DecodeQuadrature s A B = CCW →
      (CheckEncoderEvents s A B).1.Count = s.Count + 2) ∧
    (A ≠ s.LastEncAState → A = 0 → DecodeQuadrature s A B = CW →
      (CheckEncoderEvents s A B).1.Count = s.Count - 2) ∧
    (A = s.LastEncAState ∨ A ≠ 0 → (CheckEncoderEvents s A B).1.Count = s.Count) ∧
    (CheckEncoderEvents s A B).1.LastEncAState = A ∧
    (CheckEncoderEvents s A B).1.LastEncBState = B ∧
    (CheckEncoderEvents s A B).2 = false := by
  refine ⟨?_, ?_, ?_, ?_, ?_, ?_⟩
  · intro h1 h2 h3
    simp only [CheckEncoderEvents, h3]
    rw [if_pos ⟨h1, h2⟩]
    simp only [if_true, wrapInt32]
    omega
  · intro h1 h2 h3
    simp only [CheckEncoderEvents, h3]
    rw [if_pos ⟨h1, h2⟩]
    simp only [CW, CCW, Bool.true_eq_false, if_false, wrapInt32]
    omega
  · intro h
    simp only [CheckEncoderEvents]
    rw [if_neg (by rcases h with h | h <;> simp [h])]
  · simp only [CheckEncoderEvents]
  · simp only [CheckEncoderEvents]
  · rfl

theorem C28_falling_edge_counts_witness :
    ((0 : Nat) ≠ (motorAt 10 CW 1).LastEncAState → (0 : Nat) = 0 →
      DecodeQuadrature (motorAt 10 CW 1) 0 0 = CCW →
      (CheckEncoderEvents (motorAt 10 CW 1) 0 0).1.Count = (motorAt 10 CW 1).Count + 2) ∧
    ((0 : Nat) ≠ (motorAt 10 CW 1).LastEncAState → (0 : Nat) = 0 →
      DecodeQuadrature (motorAt 10 CW 1) 0 0 = CW →
      (CheckEncoderEvents (motorAt 10 CW 1) 0 0).1.Count = (motorAt 10 CW 1).Count - 2) ∧
    ((0 : Nat) = (motorAt 10 CW 1).LastEncAState ∨ (0 : Nat) ≠ 0 →
      (CheckEncoderEvents (motorAt 10 CW 1) 0 0).1.Count = (motorAt 10 CW 1).Count) ∧
    (CheckEncoderEvents (motorAt 10 CW 1) 0 0).1.LastEncAState = 0 ∧
    (CheckEncoderEvents (motorAt 10 CW 1) 0 0).1.LastEncBState = 0 ∧
    (CheckEncoderEvents (motorAt 10 CW 1) 0 0).2 = false :=
  C28_falling_edge_counts (motorAt 10 CW 1) 0 0 (by decide) (by decide)

/-! ## Theorems: the slow move of the servo -/

/-- A step CW that stays at or above the CW limit 1750 lowers the position by 38 and
writes the new pulse width. -/
theorem TakeMoveStep_cw_step (s : ServoVars) (undef : Nat)
    (hd : s.moveDirection = DIRECTION_CW) (hc : s.cwLimit = 1750)
    (hlo : 1788 ≤ s.CurrentPosition) (hhi : s.CurrentPosition < 65536) :
    TakeMoveStep s undef =
      ({ s with CurrentPosition := s.CurrentPosition - 38 },
        [Effect.SetPulseWidth (s.CurrentPosition - 38) SERVO_CHANNEL]) := by
  have hpos : (s.CurrentPosition + 65536 - 38) % 65536 = s.CurrentPosition - 38 := by omega
  simp only [TakeMoveStep, hd, hc, servo_constants.2.2, hpos, DIRECTION_CW, DIRECTION_CCW,
    Bool.false_eq_true, if_false, if_true]
  rw [if_pos (by omega)]

/-- A step CW that would pass the CW limit 1750 restores the position, clears `isMoving`
and posts `ES_PROGRESS_DONE` to the coordinator. -/
theorem TakeMoveStep_cw_stop (s : ServoVars) (undef : Nat)
    (hd : s.moveDirection = DIRECTION_CW) (hc : s.cwLimit = 1750)
    (hlo : 38 ≤ s.CurrentPosition) (hhi : s.CurrentPosition < 1788) :
    TakeMoveStep s undef =
      ({ s with isMoving := false },
        [Effect.Post Service.GameService { EventType := ES_PROGRESS_DONE, EventParam := undef }]) := by
  have hpos : (s.CurrentPosition + 65536 - 38) % 65536 = s.CurrentPosition - 38 := by omega
  have hback : (s.CurrentPosition - 38 + 38) % 65536 = s.CurrentPosition := by omega
  simp only [TakeMoveStep, hd, hc, servo_constants.2.2, hpos, hback, DIRECTION_CW, DIRECTION_CCW,
    Bool.false_eq_true, if_false, if_true]
  rw [if_neg (by omega)]

/-- After `k` steps CW from 5625 (`k ≤ 101`) a further `j` calls of `TakeMoveStep`, with
`k + j ≤ 101`, lead to the position `5625 - 38 * (k + j)`. -/
theorem takeSteps_from (s : ServoVars) (undef : Nat)
    (hd : s.moveDirection = DIRECTION_CW) (hc : s.cwLimit = 1750) :
    ∀ j k, k + j ≤ 101 →
      takeSteps undef j { s with CurrentPosition := 5625 - 38 * k } =
        { s with CurrentPosition := 5625 - 38 * (k + j) } := by
  intro j
  induction j with
  | zero => intro k _; rfl
  | succ j ih =>
    intro k hk
    have hstep := TakeMoveStep_cw_step { s with CurrentPosition := 5625 - 38 * k } undef hd hc
      (by show 1788 ≤ 5625 - 38 * k; omega) (by show 5625 - 38 * k < 65536; omega)
    have hsub : 5625 - 38 * k - 38 = 5625 - 38 * (k + 1) := by omega
    simp only [takeSteps, hstep, hsub]
    have := ih (k + 1) (by omega)
    rw [this]
    have hk2 : k + 1 + j = k + (j + 1) := by omega
    rw [hk2]

/-- The position after `n ≤ 101` calls of `TakeMoveStep` from the CCW limit 5625, moving
CW with the CW limit 1750, is `5625 - 38 * n`. -/
theorem takeSteps_position (s : ServoVars) (undef n : Nat)
    (hd : s.moveDirection = DIRECTION_CW) (hc : s.cwLimit = 1750)
    (hp : s.CurrentPosition = 5625) (hn : n ≤ 101) :
    takeSteps undef n s = { s with CurrentPosition := 5625 - 38 * n } := by
  have h := takeSteps_from s undef hd hc n 0 (by omega)
  have hs : { s with CurrentPosition := 5625 - 38 * 0 } = s := by
    cases s
    simp only [ServoVars.mk.injEq] at *
    simp [hp]
  rw [hs] at h
  rw [h]
  simp

/-- C29 (the code departs from the claim): from `CurrentPosition = ccwLimit = 5625`,
moving CW with `cwLimit = 1750`, the position after 100 calls of `TakeMoveStep` is 1825,
75 ticks short of the CW limit: a step is `(5625 - 1750) / 100 = 38` ticks in integer
arithmetic, not 38.75. -/
theorem C29_hundred_steps_fall_short :
    startServo.CurrentPosition = 5625 ∧ startServo.ccwLimit = 5625 ∧
    startServo.cwLimit = 1750 ∧ startServo.moveDirection = DIRECTION_CW ∧
    (takeSteps 0 100 startServo).CurrentPosition = 1825 ∧
    (takeSteps 0 100 startServo).CurrentPosition ≠ startServo.cwLimit := by
  have hc : startServo.cwLimit = 1750 := servo_constants.1
  have hp : startServo.CurrentPosition = 5625 := servo_constants.2.1
  have h := takeSteps_position startServo 0 100 rfl hc hp (by decide)
  refine ⟨hp, servo_constants.2.1, hc, rfl, ?_, ?_⟩
  · rw [h]
  · rw [h, hc]
    decide

/-- A step timeout handled in `ServoWaiting` by a servo moving CW at a position from 1788
up: the position falls by 38, the pulse width is written and the step timer re-armed. -/
theorem servo_timeout_step (s : ServoVars) (undef : Nat)
    (hs : s.CurrentState = ServoWaiting) (hm : s.isMoving = true)
    (hd : s.moveDirection = DIRECTION_CW) (hc : s.cwLimit = 1750)
    (hlo : 1788 ≤ s.CurrentPosition) (hhi : s.CurrentPosition < 65536) :
    RunServoService s stepTimeout undef =
      { vars := { s with CurrentPosition := s.CurrentPosition - 38 }
        effects := [Effect.SetPulseWidth (s.CurrentPosition - 38) SERVO_CHANNEL,
          Effect.InitTimer SERVO_STEP_TIMER s.timeStep]
        ReturnEvent := ES_NO_EVENT } := by
  have hstep := TakeMoveStep_cw_step s undef hd hc hlo hhi
  simp [RunServoService, hs, hm, stepTimeout, hstep]

/-- A step timeout handled in `ServoWaiting` by a servo moving CW at a position below
1788: the position stays, `isMoving` is cleared, the timer is not re-armed and
`ES_PROGRESS_DONE` is posted to the coordinator. -/
theorem servo_timeout_stop (s : ServoVars) (undef : Nat)
    (hs : s.CurrentState = ServoWaiting) (hm : s.isMoving = true)
    (hd : s.moveDirection = DIRECTION_CW) (hc : s.cwLimit = 1750)
    (hlo : 38 ≤ s.CurrentPosition) (hhi : s.CurrentPosition < 1788) :
    RunServoService s stepTimeout undef =
      { vars := { s with isMoving := false }
        effects := [Effect.Post Service.GameService
          { EventType := ES_PROGRESS_DONE, EventParam := undef }]
        ReturnEvent := ES_NO_EVENT } := by
  have hstop := TakeMoveStep_cw_stop s undef hd hc hlo hhi
  simp [RunServoService, hs, hm, stepTimeout, hstop]

/-- After `k` step timeouts from 5625 a further `j` step timeouts, with `k + j ≤ 101`,
lead to the position `5625 - 38 * (k + j)`. -/
theorem servoTimeouts_from (s : ServoVars) (undef : Nat)
    (hs : s.CurrentState = ServoWaiting) (hm : s.isMoving = true)
    (hd : s.moveDirection = DIRECTION_CW) (hc : s.cwLimit = 1750) :
    ∀ j k, k + j ≤ 101 →
      servoTimeouts undef j { s with CurrentPosition := 5625 - 38 * k } =
        { s with CurrentPosition := 5625 - 38 * (k + j) } := by
  intro j
  induction j with
  | zero => intro k _; rfl
  | succ j ih =>
    intro k hk
    have hstep := servo_timeout_step { s with CurrentPosition := 5625 - 38 * k } undef hs hm hd hc
      (by show 1788 ≤ 5625 - 38 * k; omega) (by show 5625 - 38 * k < 65536; omega)
    have hsub : 5625 - 38 * k - 38 = 5625 - 38 * (k + 1) := by omega
    have := ih (k + 1) (by omega)
    simp only [servoTimeouts, List.replicate, runEvents] at this ⊢
    rw [hstep]
    simp only [hsub]
    rw [this]
    have hk2 : k + 1 + j = k + (j + 1) := by omega
    rw [hk2]

/-- The servo variables after `n ≤ 101` step timeouts from the CCW limit 5625. -/
theorem servoTimeouts_position (s : ServoVars) (undef n : Nat)
    (hs : s.CurrentState = ServoWaiting) (hm : s.isMoving = true)
    (hd : s.moveDirection = DIRECTION_CW) (hc : s.cwLimit = 1750)
    (hp : s.CurrentPosition = 5625) (hn : n ≤ 101) :
    servoTimeouts undef n s = { s with CurrentPosition := 5625 - 38 * n } := by
  have h := servoTimeouts_from s undef hs hm hd hc n 0 (by omega)
  have h0 : { s with CurrentPosition := 5625 - 38 * 0 } = s := by
    cases s
    simp only [ServoVars.mk.injEq] at *
    simp [hp]
  rw [h0] at h
  rw [h]
  simp

/-- Step timeouts handled by a servo in `ServoWaiting` that is not moving change nothing. -/
theorem servoTimeouts_not_moving (s : ServoVars) (undef : Nat)
    (hs : s.CurrentState = ServoWaiting) (hm : s.isMoving = false) :
    ∀ n, servoTimeouts undef n s = s := by
  intro n
  induction n with
  | zero => rfl
  | succ n ih =>
    have h := (servo_timeout_not_moving s SERVO_STEP_TIMER undef hs hm).1
    simp only [servoTimeouts, List.replicate, runEvents] at ih ⊢
    have h2 : (RunServoService s stepTimeout undef).vars = s := h
    rw [h2]
    exact ih

/-- One step timeout is one run of the service. -/
theorem servoTimeouts_one (undef : Nat) (s : ServoVars) :
    servoTimeouts undef 1 s = (RunServoService s stepTimeout undef).vars := rfl

/-- Step timeouts compose: `m + n` of them are `m` followed by `n`. -/
theorem servoTimeouts_add (undef : Nat) (m n : Nat) (s : ServoVars) :
    servoTimeouts undef (m + n) s = servoTimeouts undef n (servoTimeouts undef m s) := by
  induction m generalizing s with
  | zero => simp [servoTimeouts, runEvents]
  | succ m ih =>
    have h : m + 1 + n = (m + n) + 1 := by omega
    rw [h]
    simp only [servoTimeouts, List.replicate, runEvents] at ih ⊢
    exact ih _

/-- C30: from `CurrentPosition = ccwLimit = 5625` in `ServoWaiting`, moving CW with
`cwLimit = 1750`, each of the first 101 step timeouts lowers the position by 38, writes
the pulse width and re-arms the step timer, ending at 1787; the 102nd leaves the position
unchanged, clears `isMoving`, does not re-arm the timer and posts `ES_PROGRESS_DONE` to
the coordinator once; every later step timeout changes nothing and has no effect. -/
theorem C30_progress_completion (s : ServoVars) (undef : Nat)
    (hs : s.CurrentState = ServoWaiting) (hm : s.isMoving = true)
    (hd : s.moveDirection = DIRECTION_CW) (hc : s.cwLimit = 1750)
    (hl : s.ccwLimit = 5625) (hp : s.CurrentPosition = s.ccwLimit) :
    (∀ k, k < 101 →
      (servoTimeouts undef k s).CurrentPosition = 5625 - 38 * k ∧
      (servoTimeouts undef (k + 1) s).CurrentPosition
        = (servoTimeouts undef k s).CurrentPosition - 38 ∧
      (RunServoService (servoTimeouts undef k s) stepTimeout undef).effects =
        [Effect.SetPulseWidth (5625 - 38 * (k + 1)) SERVO_CHANNEL,
          Effect.InitTimer SERVO_STEP_TIMER s.timeStep]) ∧
    (servoTimeouts undef 101 s).CurrentPosition = 1787 ∧
    (servoTimeouts undef 101 s).isMoving = true ∧
    RunServoService (servoTimeouts undef 101 s) stepTimeout undef =
      { vars := { s with CurrentPosition := 1787, isMoving := false }
        effects := [Effect.Post Service.GameService
          { EventType := ES_PROGRESS_DONE, EventParam := undef }]
        ReturnEvent := ES_NO_EVENT } ∧
    (∀ n, 102 ≤ n →
      servoTimeouts undef n s = { s with CurrentPosition := 1787, isMoving := false } ∧
      (RunServoService (servoTimeouts undef n s) stepTimeout undef).effects = []) := by
  have hp5 : s.CurrentPosition = 5625 := by rw [hp, hl]
  have h101 := servoTimeouts_position s undef 101 hs hm hd hc hp5 (by decide)
  have hlast : RunServoService (servoTimeouts undef 101 s) stepTimeout undef =
      { vars := { s with CurrentPosition := 1787, isMoving := false }
        effects := [Effect.Post Service.GameService
          { EventType := ES_PROGRESS_DONE, EventParam := undef }]
        ReturnEvent := ES_NO_EVENT } := by
    rw [h101]
    exact servo_timeout_stop { s with CurrentPosition := 5625 - 38 * 101 } undef hs hm hd hc
      (by show 38 ≤ 5625 - 38 * 101; decide) (by show 5625 - 38 * 101 < 1788; decide)
  have h102 : servoTimeouts undef 102 s = { s with CurrentPosition := 1787, isMoving := false } := by
    rw [servoTimeouts_add undef 101 1 s, servoTimeouts_one, hlast]
  refine ⟨?_, ?_, ?_, hlast, ?_⟩
  · intro k hk
    have hk0 := servoTimeouts_position s undef k hs hm hd hc hp5 (by omega)
    have hk1 := servoTimeouts_position s undef (k + 1) hs hm hd hc hp5 (by omega)
    refine ⟨?_, ?_, ?_⟩
    · rw [hk0]
    · rw [hk0, hk1]
      show 5625 - 38 * (k + 1) = 5625 - 38 * k - 38
      omega
    · rw [hk0]
      have hstep := servo_timeout_step { s with CurrentPosition := 5625 - 38 * k } undef
        hs hm hd hc (by show 1788 ≤ 5625 - 38 * k; omega) (by show 5625 - 38 * k < 65536; omega)
      rw [hstep]
      show [Effect.SetPulseWidth (5625 - 38 * k - 38) SERVO_CHANNEL,
        Effect.InitTimer SERVO_STEP_TIMER s.timeStep] = _
      have hsub : 5625 - 38 * k - 38 = 5625 - 38 * (k + 1) := by omega
      rw [hsub]
  · rw [h101]
  · rw [h101]
    exact hm
  · intro n hn
    obtain ⟨m, rfl⟩ : ∃ m, n = 102 + m := ⟨n - 102, by omega⟩
    have hrest := servoTimeouts_not_moving { s with CurrentPosition := 1787, isMoving := false }
      undef hs rfl m
    have hn2 : servoTimeouts undef (102 + m) s =
        { s with CurrentPosition := 1787, isMoving := false } := by
      rw [servoTimeouts_add, h102, hrest]
    refine ⟨hn2, ?_⟩
    rw [hn2]
    exact (servo_timeout_not_moving { s with CurrentPosition := 1787, isMoving := false }
      SERVO_STEP_TIMER undef hs rfl).2

theorem C30_progress_completion_witness :
    (∀ k, k < 101 →
      (servoTimeouts 0 k startServo).CurrentPosition = 5625 - 38 * k ∧
      (servoTimeouts 0 (k + 1) startServo).CurrentPosition
        = (servoTimeouts 0 k startServo).CurrentPosition - 38 ∧
      (RunServoService (servoTimeouts 0 k startServo) stepTimeout 0).effects =
        [Effect.SetPulseWidth (5625 - 38 * (k + 1)) SERVO_CHANNEL,
          Effect.InitTimer SERVO_STEP_TIMER startServo.timeStep]) ∧
    (servoTimeouts 0 101 startServo).CurrentPosition = 1787 ∧
    (servoTimeouts 0 101 startServo).isMoving = true ∧
    RunServoService (servoTimeouts 0 101 startServo) stepTimeout 0 =
      { vars := { startServo with CurrentPosition := 1787, isMoving := false }
        effects := [Effect.Post Service.GameService
          { EventType := ES_PROGRESS_DONE, EventParam := 0 }]
        ReturnEvent := ES_NO_EVENT } ∧
    (∀ n, 102 ≤ n →
      servoTimeouts 0 n startServo =
        { startServo with CurrentPosition := 1787, isMoving := false } ∧
      (RunServoService (servoTimeouts 0 n startServo) stepTimeout 0).effects = []) :=
  C30_progress_completion startServo 0 rfl rfl rfl servo_constants.1 servo_constants.2.1 rfl

/-! ## Theorems: the event queues and the scheduler -/

/-- One operation keeps the events delivered so far, followed by the events still queued,
equal to the events posted with success. -/
theorem QueueLog_step_inv (l : QueueLog) (op : QueueOp)
    (h : l.delivered ++ l.queue.items = l.posted) :
    (l.step op).delivered ++ (l.step op).queue.items = (l.step op).posted := by
  cases op with
  | post e =>
    by_cases hc : l.queue.items.length < l.queue.capacity
    · simp [QueueLog.step, EventQueue.post, hc, ← h]
    · simp [QueueLog.step, EventQueue.post, hc, h]
  | take =>
    cases hq : l.queue.items with
    | nil => simpa [QueueLog.step, EventQueue.dequeue, hq] using h
    | cons e rest =>
      rw [hq] at h
      simp [QueueLog.step, EventQueue.dequeue, hq, ← h]

/-- The invariant of `QueueLog_step_inv` along a sequence of operations. -/
theorem QueueLog_foldl_inv (ops : List QueueOp) :
    ∀ l : QueueLog, l.delivered ++ l.queue.items = l.posted →
      (ops.foldl QueueLog.step l).delivered ++ (ops.foldl QueueLog.step l).queue.items
        = (ops.foldl QueueLog.step l).posted := by
  induction ops with
  | nil => intro l h; exact h
  | cons op ops ih => intro l h; exact ih (l.step op) (QueueLog_step_inv l op h)

/-- C23: for every queue capacity and every sequence of posts and dequeues on an initially
empty queue, the events handed to the run function so far, followed by the events still in
the queue, are exactly the events posted with success, in the order of their posts. -/
theorem C23_fifo (capacity : Nat) (ops : List QueueOp) :
    (queueHistory capacity ops).delivered ++ (queueHistory capacity ops).queue.items
      = (queueHistory capacity ops).posted :=
  QueueLog_foldl_inv ops _ rfl

/-- The scan finds the queue `a` when it is not empty and every queue of a higher priority
is empty. -/
theorem highestReady_eq (qs : List EventQueue) (a : Nat) (qa : EventQueue)
    (ha : qs[a]? = some qa) (hne : qa.items ≠ [])
    (hmax : ∀ j q, a < j → qs[j]? = some q → q.items = []) :
    ∀ n, a < n → highestReady qs n = some a := by
  intro n
  induction n with
  | zero => intro h; omega
  | succ n ih =>
    intro h
    by_cases hn : n = a
    · subst hn
      simp [highestReady, ha, hne]
    · have han : a < n := by omega
      cases hq : qs[n]? with
      | none => simp [highestReady, hq, ih han]
      | some q => simp [highestReady, hq, hmax n q han hq, ih han]

/-- A post leaves the events of every queue in place, at its head, and keeps its
capacity. -/
theorem PostEvent_extends (qs : List EventQueue) (t : Nat) (e : ES_Event_t) (b : Nat)
    (qb : EventQueue) (hb : qs[b]? = some qb) :
    ∃ added, (PostEvent qs t e).2[b]? = some { qb with items := qb.items ++ added } := by
  unfold PostEvent
  cases ht : qs[t]? with
  | none => exact ⟨[], by simp [hb]⟩
  | some q =>
    by_cases htb : t = b
    · subst htb
      have hq : q = qb := by rw [ht] at hb; exact Option.some.inj hb
      subst hq
      have hlen : t < qs.length := (List.getElem?_eq_some.mp ht).1
      by_cases hc : q.items.length < q.capacity
      · exact ⟨[e], by simp [EventQueue.post, hc, hlen]⟩
      · exact ⟨[], by simp [EventQueue.post, hc, hlen]⟩
    · exact ⟨[], by simp [List.getElem?_set_ne htb, hb]⟩

/-- A post to another priority leaves a queue as it is. -/
theorem PostEvent_other (qs : List EventQueue) (t : Nat) (e : ES_Event_t) (b : Nat)
    (htb : t ≠ b) : (PostEvent qs t e).2[b]? = qs[b]? := by
  unfold PostEvent
  cases ht : qs[t]? with
  | none => rfl
  | some q => simp [List.getElem?_set_ne htb]

/-- The posts of a run function leave the events of every queue in place, at its head. -/
theorem postAll_extends (ps : List (Nat × ES_Event_t)) (b : Nat) :
    ∀ (qs : List EventQueue) (qb : EventQueue), qs[b]? = some qb →
      ∃ added, (postAll qs ps)[b]? = some { qb with items := qb.items ++ added } := by
  induction ps with
  | nil => intro qs qb hb; exact ⟨[], by simp [postAll, hb]⟩
  | cons p ps ih =>
    intro qs qb hb
    obtain ⟨t, e⟩ := p
    obtain ⟨add1, h1⟩ := PostEvent_extends qs t e b qb hb
    obtain ⟨add2, h2⟩ := ih (PostEvent qs t e).2 _ h1
    exact ⟨add1 ++ add2, by simp [postAll, h2]⟩

/-- Posts that all go to other priorities leave a queue as it is. -/
theorem postAll_other (ps : List (Nat × ES_Event_t)) (b : Nat) :
    ∀ qs : List EventQueue, (∀ p ∈ ps, p.1 ≠ b) → (postAll qs ps)[b]? = qs[b]? := by
  induction ps with
  | nil => intro qs _; rfl
  | cons p ps ih =>
    intro qs h
    obtain ⟨t, e⟩ := p
    have ht : t ≠ b := h (t, e) (List.mem_cons_self _ _)
    have hrest : ∀ p ∈ ps, p.1 ≠ b := fun p hp => h p (List.mem_cons_of_mem _ hp)
    simp only [postAll]
    rw [ih _ hrest, PostEvent_other qs t e b ht]

/-- C24 (counterexample): the missile display (priority 7) and the coordinator (priority
1) both have an event queued. The cycle dequeues `ENCODER_UPDATE(95)` from the missile
display, whose run function posts `ES_MISSILE_HIT` to the coordinator: the queue of the
lower-priority task has changed, from one event to two. -/
theorem C24_lower_queue_grows :
    liveSched.queues.map EventQueue.capacity = queueSizes ∧
    liveSched.queues[7]? =
      some { capacity := 3, items := [{ EventType := ENCODER_UPDATE, EventParam := 95 }] } ∧
    liveSched.queues[1]? =
      some { capacity := 3, items := [{ EventType := THROTTLE_VALUE, EventParam := 700 }] } ∧
    (RunCycle runLive liveSched).queues[7]? = some { capacity := 3, items := [] } ∧
    (RunCycle runLive liveSched).queues[1]? =
      some { capacity := 3, items := [{ EventType := THROTTLE_VALUE, EventParam := 700 },
        { EventType := ES_MISSILE_HIT, EventParam := 0 }] } ∧
    (RunCycle runLive liveSched).queues[1]? ≠ liveSched.queues[1]? := by
  refine ⟨by decide, by decide, by decide, by decide, by decide, by decide⟩

/-- C24 (amended): when the queue of priority `a` holds the event `ea` at its head and
every queue of a higher priority is empty, and a task of lower priority `b` has a queue
too, `RunCycle` dequeues exactly one event, `ea` from the queue of `a`, and hands it to
the run function of `a`; no event is dequeued from the queue of `b`: its events are still
there, in order at its head, followed by whatever the run function posted to `b`, and when
the run function posts nothing to `b` the queue of `b` is unchanged. -/
theorem C24_priority_precedence (run : Nat → σ → ES_Event_t → σ × List (Nat × ES_Event_t))
    (s : Sched σ) (a b : Nat) (qa qb : EventQueue) (ea : ES_Event_t) (ra : List ES_Event_t)
    (ha : s.queues[a]? = some qa) (hea : qa.items = ea :: ra)
    (hmax : ∀ j q, a < j → s.queues[j]? = some q → q.items = [])
    (hba : b < a) (hb : s.queues[b]? = some qb) :
    RunCycle run s =
      { st := (run a s.st ea).1
        queues := postAll (s.queues.set a { qa with items := ra }) (run a s.st ea).2 } ∧
    (∃ added, (RunCycle run s).queues[b]? = some { qb with items := qb.items ++ added }) ∧
    ((∀ p ∈ (run a s.st ea).2, p.1 ≠ b) → (RunCycle run s).queues[b]? = some qb) := by
  have hlen : a < s.queues.length := (List.getElem?_eq_some.mp ha).1
  have hscan := highestReady_eq s.queues a qa ha (by rw [hea]; simp) hmax s.queues.length hlen
  have hrun : RunCycle run s =
      { st := (run a s.st ea).1
        queues := postAll (s.queues.set a { qa with items := ra }) (run a s.st ea).2 } := by
    simp [RunCycle, hscan, ha, EventQueue.dequeue, hea]
  have hset : (s.queues.set a { qa with items := ra })[b]? = some qb := by
    rw [List.getElem?_set_ne (by omega)]
    exact hb
  refine ⟨hrun, ?_, ?_⟩
  · rw [hrun]
    exact postAll_extends _ b _ qb hset
  · intro h
    rw [hrun]
    show (postAll _ _)[b]? = some qb
    rw [postAll_other _ b _ h]
    exact hset

theorem C24_priority_precedence_witness :
    RunCycle runLive liveSched =
      { st := (runLive 7 liveSched.st { EventType := ENCODER_UPDATE, EventParam := 95 }).1
        queues := postAll (liveSched.queues.set 7 { capacity := 3, items := [] })
          (runLive 7 liveSched.st { EventType := ENCODER_UPDATE, EventParam := 95 }).2 } ∧
    (∃ added, (RunCycle runLive liveSched).queues[1]? =
      some { capacity := 3,
             items := [{ EventType := THROTTLE_VALUE, EventParam := 700 }] ++ added }) ∧
    ((∀ p ∈ (runLive 7 liveSched.st { EventType := ENCODER_UPDATE, EventParam := 95 }).2,
        p.1 ≠ 1) →
      (RunCycle runLive liveSched).queues[1]? =
        some { capacity := 3, items := [{ EventType := THROTTLE_VALUE, EventParam := 700 }] }) :=
  C24_priority_precedence runLive liveSched 7 1
    { capacity := 3, items := [{ EventType := ENCODER_UPDATE, EventParam := 95 }] }
    { capacity := 3, items := [{ EventType := THROTTLE_VALUE, EventParam := 700 }] }
    { EventType := ENCODER_UPDATE, EventParam := 95 } [] (by decide) rfl
    (by
      intro j q hj hq
      have hj9 : j < 9 := (List.getElem?_eq_some.mp hq).1
      have h8 : j = 8 := by omega
      subst h8
      have : q = { capacity := 3, items := [] } := (Option.some.inj hq).symm
      rw [this])
    (by decide) (by decide)

/-! ## Theorems: the timer bank -/

/-- Among the first `n` slot ids only `X` itself passes the test for `X`. -/
theorem filterMap_range_single {α : Type} (X : Nat) (g : Option α) :
    ∀ n, (List.range n).filterMap (fun i => if i = X then g else none) =
      if X < n then g.toList else [] := by
  intro n
  induction n with
  | zero => simp
  | succ n ih =>
    rw [List.range_succ, List.filterMap_append, ih]
    by_cases h1 : X < n
    · have h2 : n ≠ X := by omega
      have h3 : X < n + 1 := by omega
      simp [h1, h2, h3]
    · by_cases h2 : n = X
      · subst h2
        cases g <;> simp
      · have h3 : ¬ X < n + 1 := by omega
        simp [h1, h2, h3]

/-- The `Timeout` posts of one tick for slot `X`: one post to the bound task when the slot
expires in this tick, none otherwise. -/
theorem Tick_timeouts (tb : TimerBank) (X : Nat) (hX : X < 16) :
    (Tick tb).2.filter (isTimeoutOf X) =
      if expires (tb X) then
        ((timerBinding X).map
          (fun svc => Effect.Post svc { EventType := ES_TIMEOUT, EventParam := X })).toList
      else [] := by
  have hfun : (fun i => Option.filter (isTimeoutOf X)
        (if expires (tb i) then
          (timerBinding i).map
            (fun svc => Effect.Post svc { EventType := ES_TIMEOUT, EventParam := i })
        else none)) =
      (fun i => if i = X then
        (if expires (tb X) then
          (timerBinding X).map
            (fun svc => Effect.Post svc { EventType := ES_TIMEOUT, EventParam := X })
        else none) else none) := by
    funext i
    by_cases hi : i = X
    · subst hi
      cases expires (tb i) <;> cases timerBinding i <;> simp [Option.filter, isTimeoutOf]
    · cases expires (tb i) <;> cases timerBinding i <;> simp [Option.filter, isTimeoutOf, hi]
  simp only [Tick]
  rw [List.filter_filterMap, hfun, filterMap_range_single X _ 16]
  cases expires (tb X) <;> simp [hX]

/-- The slot `X` after one tick. -/
theorem Tick_slot (tb : TimerBank) (X : Nat) :
    (Tick tb).1 X =
      if (tb X).armed then
        (if (tb X).remaining - 1 = 0 then { remaining := 0, armed := false }
         else { remaining := (tb X).remaining - 1, armed := true })
      else tb X := rfl

/-- The last of `n + 1` ticks. -/
theorem ticks_succ (n : Nat) : ∀ tb : TimerBank, ticks (n + 1) tb = (Tick (ticks n tb)).1 := by
  induction n with
  | zero => intro tb; rfl
  | succ n ih =>
    intro tb
    show ticks (n + 1) (Tick tb).1 = (Tick (ticks n (Tick tb).1)).1
    exact ih _

/-- Ticks compose. -/
theorem ticks_add (m n : Nat) : ∀ tb : TimerBank, ticks (m + n) tb = ticks n (ticks m tb) := by
  induction m with
  | zero => intro tb; simp [ticks]
  | succ m ih =>
    intro tb
    have h : m + 1 + n = (m + n) + 1 := by omega
    rw [h]
    show ticks (m + n) (Tick tb).1 = ticks n (ticks m (Tick tb).1)
    exact ih _

/-- A slot armed with `r` ticks is still armed, with `r - n` ticks left, after `n < r`
ticks. -/
theorem ticks_running (X : Nat) :
    ∀ (n r : Nat) (tb : TimerBank), tb X = { remaining := r, armed := true } → n < r →
      ticks n tb X = { remaining := r - n, armed := true } := by
  intro n
  induction n with
  | zero => intro r tb h _; simpa [ticks] using h
  | succ n ih =>
    intro r tb h hn
    have h1 : (Tick tb).1 X = { remaining := r - 1, armed := true } := by
      rw [Tick_slot, h]
      have : ¬ (r - 1 = 0) := by omega
      simp [this]
    have h2 := ih (r - 1) (Tick tb).1 h1 (by omega)
    show ticks n (Tick tb).1 X = _
    rw [h2]
    have : r - 1 - n = r - (n + 1) := by omega
    rw [this]

/-- A slot armed with `r ≥ 1` ticks is disarmed after exactly `r` ticks. -/
theorem ticks_expired (X r : Nat) (tb : TimerBank)
    (h : tb X = { remaining := r, armed := true }) (hr : 0 < r) :
    ticks r tb X = { remaining := 0, armed := false } := by
  obtain ⟨m, rfl⟩ : ∃ m, r = m + 1 := ⟨r - 1, by omega⟩
  have h1 := ticks_running X m (m + 1) tb h (by omega)
  rw [ticks_succ, Tick_slot, h1]
  have : m + 1 - m - 1 = 0 := by omega
  simp [this]

/-- A disarmed slot stays as it is under ticks. -/
theorem ticks_disarmed (X : Nat) :
    ∀ (n : Nat) (tb : TimerBank), (tb X).armed = false → ticks n tb X = tb X := by
  intro n
  induction n with
  | zero => intro tb _; rfl
  | succ n ih =>
    intro tb h
    have h1 : (Tick tb).1 X = tb X := by
      rw [Tick_slot]
      simp [h]
    show ticks n (Tick tb).1 X = tb X
    rw [ih (Tick tb).1 (by rw [h1]; exact h), h1]

/-- Arming a slot that the binding table assigns to a task sets its countdown. -/
theorem Arm_slot (tb : TimerBank) (X d : Nat) (svc : Service) (hX : X < 16)
    (hb : timerBinding X = some svc) : Arm tb X d X = { remaining := d, armed := true } := by
  simp [Arm, hX, hb]

/-- C25: for every slot `X` that the binding table assigns to a task, armed with `d1`
ticks and re-armed with `d2 ≥ 1` ticks after `k < d1` ticks: no `Timeout` is posted for
`X` in the `k` ticks before the re-arm nor in the first `d2 - 1` ticks after it; the tick
number `d2` after the re-arm posts exactly one `Timeout` with parameter `X`, to the bound
task, and leaves the slot disarmed; no later tick posts a `Timeout` for `X`. -/
theorem C25_rearm_cancels_pending (tb : TimerBank) (X d1 d2 k : Nat) (svc : Service)
    (hX : X < 16) (hb : timerBinding X = some svc) (hk : k < d1) (hd : 0 < d2) :
    (∀ j, j < k → (Tick (ticks j (Arm tb X d1))).2.filter (isTimeoutOf X) = []) ∧
    (∀ j, j + 1 < d2 →
      (Tick (ticks j (Arm (ticks k (Arm tb X d1)) X d2))).2.filter (isTimeoutOf X) = []) ∧
    (Tick (ticks (d2 - 1) (Arm (ticks k (Arm tb X d1)) X d2))).2.filter (isTimeoutOf X) =
      [Effect.Post svc { EventType := ES_TIMEOUT, EventParam := X }] ∧
    ticks d2 (Arm (ticks k (Arm tb X d1)) X d2) X = { remaining := 0, armed := false } ∧
    (∀ j, d2 ≤ j →
      (Tick (ticks j (Arm (ticks k (Arm tb X d1)) X d2))).2.filter (isTimeoutOf X) = []) := by
  have h1 := Arm_slot tb X d1 svc hX hb
  have h2 := Arm_slot (ticks k (Arm tb X d1)) X d2 svc hX hb
  have hend := ticks_expired X d2 _ h2 hd
  refine ⟨?_, ?_, ?_, hend, ?_⟩
  · intro j hj
    rw [Tick_timeouts _ X hX, ticks_running X j d1 _ h1 (by omega)]
    have : ¬ (d1 - j - 1 = 0) := by omega
    simp [expires, this]
  · intro j hj
    rw [Tick_timeouts _ X hX, ticks_running X j d2 _ h2 (by omega)]
    have : ¬ (d2 - j - 1 = 0) := by omega
    simp [expires, this]
  · rw [Tick_timeouts _ X hX, ticks_running X (d2 - 1) d2 _ h2 (by omega)]
    have : d2 - (d2 - 1) - 1 = 0 := by omega
    simp [expires, this, hb]
  · intro j hj
    obtain ⟨m, rfl⟩ : ∃ m, j = d2 + m := ⟨j - d2, by omega⟩
    rw [Tick_timeouts _ X hX, ticks_add, ticks_disarmed X m _ (by rw [hend]), hend]
    simp [expires]

theorem C25_rearm_cancels_pending_witness :
    (∀ j, j < 2 →
      (Tick (ticks j (Arm busyBank LED_MISSILE_TIMER 200))).2.filter
        (isTimeoutOf LED_MISSILE_TIMER) = []) ∧
    (∀ j, j + 1 < 1000 →
      (Tick (ticks j (Arm (ticks 2 (Arm busyBank LED_MISSILE_TIMER 200)) LED_MISSILE_TIMER
        1000))).2.filter (isTimeoutOf LED_MISSILE_TIMER) = []) ∧
    (Tick (ticks (1000 - 1) (Arm (ticks 2 (Arm busyBank LED_MISSILE_TIMER 200)) LED_MISSILE_TIMER
        1000))).2.filter (isTimeoutOf LED_MISSILE_TIMER) =
      [Effect.Post Service.LEDMissileService
        { EventType := ES_TIMEOUT, EventParam := LED_MISSILE_TIMER }] ∧
    ticks 1000 (Arm (ticks 2 (Arm busyBank LED_MISSILE_TIMER 200)) LED_MISSILE_TIMER 1000)
        LED_MISSILE_TIMER = { remaining := 0, armed := false } ∧
    (∀ j, 1000 ≤ j →
      (Tick (ticks j (Arm (ticks 2 (Arm busyBank LED_MISSILE_TIMER 200)) LED_MISSILE_TIMER
        1000))).2.filter (isTimeoutOf LED_MISSILE_TIMER) = []) :=
  C25_rearm_cancels_pending busyBank LED_MISSILE_TIMER 200 1000 2 Service.LEDMissileService
    (by decide) rfl (by decide) (by decide)

/-! ## Theorems: the live window of the missile display -/

/-- C35 (the code departs from the claim): after `ES_INIT`, `FIRE_MISSILE(8)` and five
timeouts the third blink is on and `EncoderFlag` is true; a `RESET` handled then sets
`BlinkFlag` and `MissileFlag` to 0 and leaves `EncoderFlag` true, so collision detection
is enabled with `BlinkFlag = 0` and `MissileFlag = 0`, and stays enabled through the next
`FIRE_MISSILE(1)` and its first timeout (`BlinkFlag = 1`). -/
theorem C35_reset_keeps_collisions_enabled :
    (runEvents runMissile InitLEDMissileVars
      ([{ EventType := ES_INIT, EventParam := 0 }, { EventType := FIRE_MISSILE, EventParam := 8 }]
        ++ List.replicate 5 missileTimeout ++ [{ EventType := RESET, EventParam := 0 }])) =
      { CurrentState := MissileFiring, BlinkFlag := 0, MissileFlag := 0, temp := 8,
        ledStatus := [0, 0, 0, 1, 0, 0, 0, 0, 0, 0, 0, 0], led1 := 4, led2 := 0, led3 := 0,
        EncoderFlag := true } ∧
    (runMissile
      (runEvents runMissile InitLEDMissileVars
        ([{ EventType := ES_INIT, EventParam := 0 }, { EventType := FIRE_MISSILE, EventParam := 8 }]
          ++ List.replicate 5 missileTimeout ++ [{ EventType := RESET, EventParam := 0 }]))
      { EventType := ENCODER_UPDATE, EventParam := 95 }).effects =
      [Effect.Post Service.GameService { EventType := ES_MISSILE_HIT, EventParam := 0 }] ∧
    (runEvents runMissile InitLEDMissileVars
      ([{ EventType := ES_INIT, EventParam := 0 }, { EventType := FIRE_MISSILE, EventParam := 8 }]
        ++ List.replicate 5 missileTimeout
        ++ [{ EventType := RESET, EventParam := 0 }, { EventType := FIRE_MISSILE, EventParam := 1 },
          missileTimeout])) =
      { CurrentState := MissileFiring, BlinkFlag := 1, MissileFlag := 0, temp := 1,
        ledStatus := [1, 0, 0, 0, 0, 0, 0, 0, 0, 0, 0, 0], led1 := 1, led2 := 0, led3 := 0,
        EncoderFlag := true } := by
  refine ⟨?_, ?_, ?_⟩ <;> decide

/-! ## Theorems: at most one hit per encoder update -/

/-- A filter whose predicate holds for at most one value keeps at most one entry of a list
without duplicates. -/
theorem filter_single_length (p : Nat → Bool) (c : Nat) (hp : ∀ i, p i = true → i = c) :
    ∀ l : List Nat, l.Nodup → (l.filter p).length ≤ 1 := by
  intro l
  induction l with
  | nil => intro _; simp
  | cons a t ih =>
    intro hnd
    have hat : a ∉ t := (List.nodup_cons.mp hnd).1
    have ht : t.Nodup := (List.nodup_cons.mp hnd).2
    by_cases hpa : p a = true
    · have hac : a = c := hp a hpa
      have hnil : t.filter p = [] := by
        rw [List.filter_eq_nil_iff]
        intro x hx hpx
        have hxc : x = c := hp x hpx
        exact hat (by rw [hac, ← hxc]; exact hx)
      simp [List.filter_cons, hpa, hnil]
    · simp only [List.filter_cons, hpa]
      exact ih ht

/-- A slot hit at `position` is the slot `(position + 10) / 30`: the windows
`[30 * i - 10, 30 * i + 10]` of distinct slots are disjoint. -/
theorem hitsSlot_unique (ledStatus : List Int) (position i : Nat)
    (h : hitsSlot ledStatus position i = true) : i = (position + 10) / 30 := by
  simp only [hitsSlot, delta, thresh, Bool.and_eq_true, decide_eq_true_eq] at h
  omega

/-- The posts of the collision loop: none, or a single `ES_MISSILE_HIT`. -/
theorem encoderPosts_cases (ledStatus : List Int) (position undef : Nat) :
    encoderPosts ledStatus position undef = [] ∨
    encoderPosts ledStatus position undef =
      [Effect.Post Service.GameService { EventType := ES_MISSILE_HIT, EventParam := undef }] := by
  have hlen : ((List.range 12).filter (hitsSlot ledStatus position)).length ≤ 1 :=
    filter_single_length _ _ (hitsSlot_unique ledStatus position) _ (List.nodup_range 12)
  simp only [encoderPosts]
  cases hf : (List.range 12).filter (hitsSlot ledStatus position) with
  | nil => left; rfl
  | cons a t =>
    rw [hf] at hlen
    cases t with
    | nil => right; rfl
    | cons b u => simp at hlen

/-- C34: for every `ENCODER_UPDATE(position)`, every state of the missile display and
every content of `ledStatus`, the run function has no effect or the single effect of
posting one `ES_MISSILE_HIT` to the coordinator; no position lies in the windows
`[30 * i - 10, 30 * i + 10]` of two distinct slots. -/
theorem C34_at_most_one_hit (s : MissileVars) (position undef : Nat) :
    ((RunLEDMissileService s { EventType := ENCODER_UPDATE, EventParam := position }
        undef).effects = [] ∨
      (RunLEDMissileService s { EventType := ENCODER_UPDATE, EventParam := position }
        undef).effects =
        [Effect.Post Service.GameService { EventType := ES_MISSILE_HIT, EventParam := undef }]) ∧
    (∀ i j : Nat, i ≠ j →
      ¬ ((position : Int) ≤ (i : Int) * delta + thresh ∧
          (position : Int) ≥ (i : Int) * delta - thresh ∧
          (position : Int) ≤ (j : Int) * delta + thresh ∧
          (position : Int) ≥ (j : Int) * delta - thresh)) := by
  refine ⟨?_, ?_⟩
  · cases hs : s.CurrentState with
    | InitPState => simp [RunLEDMissileService, hs]
    | MissileFiring =>
      by_cases hf : s.EncoderFlag = true
      · simpa [RunLEDMissileService, hs, hf] using encoderPosts_cases s.ledStatus position undef
      · simp [RunLEDMissileService, hs, hf]
  · intro i j hij h
    simp only [delta, thresh] at h
    omega

theorem C34_at_most_one_hit_witness :
    ((RunLEDMissileService liveVars { EventType := ENCODER_UPDATE, EventParam := 95 }
        0).effects = [] ∨
      (RunLEDMissileService liveVars { EventType := ENCODER_UPDATE, EventParam := 95 }
        0).effects =
        [Effect.Post Service.GameService { EventType := ES_MISSILE_HIT, EventParam := 0 }]) ∧
    (∀ i j : Nat, i ≠ j →
      ¬ (((95 : Nat) : Int) ≤ (i : Int) * delta + thresh ∧
          ((95 : Nat) : Int) ≥ (i : Int) * delta - thresh ∧
          ((95 : Nat) : Int) ≤ (j : Int) * delta + thresh ∧
          ((95 : Nat) : Int) ≥ (j : Int) * delta - thresh)) :=
  C34_at_most_one_hit liveVars 95 0

/-! ## Theorems: the stores of `decodeParam` -/

/-- The array after the first loop of `decodeParam` is the array after its stores, and the
loop leaves `i` advanced by their number. -/
theorem decodeLoop1_writes (fuel : Nat) : ∀ (param i : Nat) (l : List Int),
    decodeLoop1 fuel param i l =
      (i + (decodeWrites1 fuel param i).length, applyWrites l (decodeWrites1 fuel param i)) := by
  induction fuel with
  | zero => intro param i l; rfl
  | succ n ih =>
    intro param i l
    simp only [decodeLoop1, decodeWrites1]
    split_ifs with hp
    · rw [ih]
      simp only [List.length_cons, applyWrites, List.foldl_cons]
      have : i + 1 + (decodeWrites1 n (param / 2) (i + 1)).length
          = i + ((decodeWrites1 n (param / 2) (i + 1)).length + 1) := by omega
      rw [this]
    · rfl

/-- The array after the second loop of `decodeParam` is the array after its stores. -/
theorem decodeLoop2_writes (n : Nat) : ∀ (i : Nat) (l : List Int),
    decodeLoop2 n i l = applyWrites l (decodeWrites2 n i) := by
  induction n with
  | zero => intro i l; rfl
  | succ n ih =>
    intro i l
    simp only [decodeLoop2, decodeWrites2, applyWrites, List.foldl_cons]
    exact ih _ _

/-- The array after `decodeParam` is the array after its stores. -/
theorem decodeParam_writes (param : Nat) (l : List Int) :
    decodeParam param l = applyWrites l (decodeWrites param) := by
  simp only [decodeParam, decodeWrites, decodeLoop1_writes, decodeLoop2_writes, Nat.zero_add,
    applyWrites, List.foldl_append]

/-- The indices stored by the first loop are consecutive from `i`. -/
theorem decodeWrites1_indices (fuel : Nat) : ∀ (param i : Nat),
    (decodeWrites1 fuel param i).map Prod.fst =
      List.range' i (decodeWrites1 fuel param i).length := by
  induction fuel with
  | zero => intro param i; rfl
  | succ n ih =>
    intro param i
    simp only [decodeWrites1]
    split_ifs with hp
    · simp only [List.map_cons, List.length_cons, List.range'_succ, ih]
    · rfl

/-- The first loop makes at most `k` stores for a parameter below `2 ^ k`. -/
theorem decodeWrites1_length (fuel : Nat) : ∀ (param i k : Nat), param < 2 ^ k →
    (decodeWrites1 fuel param i).length ≤ k := by
  induction fuel with
  | zero => intro param i k _; simp [decodeWrites1]
  | succ n ih =>
    intro param i k hk
    simp only [decodeWrites1]
    split_ifs with hp
    · cases k with
      | zero => simp at hk; omega
      | succ k =>
        have h2 : param / 2 < 2 ^ k := by
          rw [Nat.div_lt_iff_lt_mul (by decide)]
          rw [pow_succ] at hk
          exact hk
        have := ih (param / 2) (i + 1) k h2
        simp only [List.length_cons]
        omega
    · simp

/-- The values stored by the first loop are 0 or 1. -/
theorem decodeWrites1_values (fuel : Nat) : ∀ (param i : Nat),
    ∀ w ∈ decodeWrites1 fuel param i, w.2 = 0 ∨ w.2 = 1 := by
  induction fuel with
  | zero => intro param i w hw; simp [decodeWrites1] at hw
  | succ n ih =>
    intro param i w hw
    simp only [decodeWrites1] at hw
    split_ifs at hw with hp
    · rcases List.mem_cons.mp hw with h | h
      · subst h
        show ((param % 2 : Nat) : Int) = 0 ∨ ((param % 2 : Nat) : Int) = 1
        rcases Nat.mod_two_eq_zero_or_one param with h0 | h1
        · left; rw [h0]; rfl
        · right; rw [h1]; rfl
      · exact ih _ _ w h
    · simp at hw

/-- The indices stored by the second loop are consecutive from `i`, the values are 0. -/
theorem decodeWrites2_spec (n : Nat) : ∀ i : Nat,
    (decodeWrites2 n i).map Prod.fst = List.range' i n ∧
    ∀ w ∈ decodeWrites2 n i, w.2 = 0 := by
  induction n with
  | zero => intro i; simp [decodeWrites2]
  | succ n ih =>
    intro i
    obtain ⟨h1, h2⟩ := ih (i + 1)
    refine ⟨?_, ?_⟩
    · simp only [decodeWrites2, List.map_cons, List.range'_succ, h1]
    · intro w hw
      simp only [decodeWrites2] at hw
      rcases List.mem_cons.mp hw with h | h
      · subst h; rfl
      · exact h2 w h

/-- C36: for every `param < 4096`, `decodeParam` stores to the indices 0, 1, ..., 11 of
`ledStatus`, in this order and each exactly once, so never to an index from 12 up; every
value stored is 0 or 1; and the array after the call is the array after these stores. -/
theorem C36_decodeParam_index_safe (param : Nat) (hp : param < 4096) :
    (decodeWrites param).map Prod.fst = List.range 12 ∧
    (∀ w ∈ decodeWrites param, w.1 < 12 ∧ (w.2 = 0 ∨ w.2 = 1)) ∧
    (∀ ledStatus : List Int,
      decodeParam param ledStatus = applyWrites ledStatus (decodeWrites param)) := by
  have hlen : (decodeWrites1 16 param 0).length ≤ 12 :=
    decodeWrites1_length 16 param 0 12 (by simpa using hp)
  have hidx : (decodeWrites param).map Prod.fst = List.range 12 := by
    simp only [decodeWrites, List.map_append, decodeWrites1_indices, (decodeWrites2_spec _ _).1]
    rw [List.range_eq_range']
    have h := List.range'_append_1 0 (decodeWrites1 16 param 0).length
      (12 - (decodeWrites1 16 param 0).length)
    simp only [Nat.zero_add] at h
    rw [h]
    congr 1
    omega
  refine ⟨hidx, ?_, fun l => decodeParam_writes param l⟩
  intro w hw
  refine ⟨?_, ?_⟩
  · have hmem : w.1 ∈ (decodeWrites param).map Prod.fst := List.mem_map_of_mem Prod.fst hw
    rw [hidx] at hmem
    exact List.mem_range.mp hmem
  · simp only [decodeWrites, List.mem_append] at hw
    rcases hw with h | h
    · exact decodeWrites1_values 16 param 0 w h
    · left
      exact (decodeWrites2_spec _ _).2 w h

theorem C36_decodeParam_index_safe_witness :
    (decodeWrites 8).map Prod.fst = List.range 12 ∧
    (∀ w ∈ decodeWrites 8, w.1 < 12 ∧ (w.2 = 0 ∨ w.2 = 1)) ∧
    (∀ ledStatus : List Int,
      decodeParam 8 ledStatus = applyWrites ledStatus (decodeWrites 8)) :=
  C36_decodeParam_index_safe 8 (by decide)

/-! ## Theorems: the start sensor is one-shot -/

/-- In `Idle` an event other than `RESET` and `ROS_RESET` changes nothing and has no
effect. -/
theorem opto_idle_ignores (s : OptoVars) (i : OptoInput) (hs : s.CurrentState = Idle)
    (h1 : i.event.EventType ≠ RESET) (h2 : i.event.EventType ≠ ROS_RESET) :
    optoStep s i = { vars := s, effects := [], ReturnEvent := ES_NO_EVENT } := by
  obtain ⟨⟨t, p⟩, adc, undef⟩ := i
  simp only at h1 h2
  cases t <;> simp_all [optoStep, RunOptoSensorService]

/-- In `Idle` a list of events without `RESET` and `ROS_RESET` changes nothing and has no
effect. -/
theorem opto_idle_sequence (s : OptoVars) (hs : s.CurrentState = Idle) :
    ∀ is : List OptoInput,
      (∀ i ∈ is, i.event.EventType ≠ RESET ∧ i.event.EventType ≠ ROS_RESET) →
      runSeq optoStep s is = s ∧ traceSeq optoStep s is = List.replicate is.length [] := by
  intro is
  induction is with
  | nil => intro _; exact ⟨rfl, rfl⟩
  | cons i is ih =>
    intro h
    have hi := h i (List.mem_cons_self _ _)
    have hstep := opto_idle_ignores s i hs hi.1 hi.2
    obtain ⟨ih1, ih2⟩ := ih (fun j hj => h j (List.mem_cons_of_mem _ hj))
    refine ⟨?_, ?_⟩
    · simp only [runSeq, hstep]
      exact ih1
    · simp only [traceSeq, hstep, List.length_cons, List.replicate_succ]
      rw [ih2]

/-- C37: the start sensor service posts `ES_HAND_DETECTED` only on a `ROS_READ` with a
reading below 970 in `Active`, and is then in `Idle`; from `Idle`, for every list of
inputs without `RESET` and `ROS_RESET`, the state stays `Idle` and no input has any
effect: no further `ES_HAND_DETECTED` is posted and no timer is armed; `RESET` and
`ROS_RESET` bring the service back to `Active`. -/
theorem C37_start_sensor_one_shot :
    (∀ (s : OptoVars) (i : OptoInput),
      (∃ e ∈ (optoStep s i).effects, isHandDetected e = true) →
        s.CurrentState = Active ∧ i.event.EventType = ROS_READ ∧ i.adc < 970 ∧
        (optoStep s i).vars.CurrentState = Idle) ∧
    (∀ (s : OptoVars) (is : List OptoInput), s.CurrentState = Idle →
      (∀ i ∈ is, i.event.EventType ≠ RESET ∧ i.event.EventType ≠ ROS_RESET) →
        (runSeq optoStep s is).CurrentState = Idle ∧
        ∀ effects ∈ traceSeq optoStep s is,
          ∀ e ∈ effects, isHandDetected e = false ∧ isInitTimer e = false) ∧
    (∀ (s : OptoVars) (i : OptoInput), s.CurrentState = Idle →
      i.event.EventType = RESET ∨ i.event.EventType = ROS_RESET →
        (optoStep s i).vars.CurrentState = Active) := by
  refine ⟨?_, ?_, ?_⟩
  · intro s i h
    obtain ⟨⟨t, p⟩, adc, undef⟩ := i
    obtain ⟨e, he, hd⟩ := h
    cases hs : s.CurrentState <;> cases t <;>
      simp [optoStep, RunOptoSensorService, hs] at he <;>
      try (subst he; simp [isHandDetected] at hd)
    by_cases hadc : adc < OPTO_THRESH
    · simp [optoStep, RunOptoSensorService, hs, hadc]
      exact hadc
    · simp [hadc] at he
      subst he
      simp [isHandDetected] at hd
  · intro s is hs his
    obtain ⟨h1, h2⟩ := opto_idle_sequence s hs is his
    refine ⟨by rw [h1]; exact hs, ?_⟩
    intro effects heff e he
    rw [h2] at heff
    have : effects = [] := (List.mem_replicate.mp heff).2
    rw [this] at he
    simp at he
  · intro s i hs hi
    obtain ⟨⟨t, p⟩, adc, undef⟩ := i
    simp only at hi
    rcases hi with hi | hi <;> subst hi <;> simp [optoStep, RunOptoSensorService, hs]

theorem C37_start_sensor_one_shot_witness :
    (runSeq optoStep (optoStep InitOptoVars
        { event := { EventType := ROS_READ, EventParam := 0 }, adc := 500, undef := 0 }).vars
        idleInputs).CurrentState = Idle ∧
    ∀ effects ∈ traceSeq optoStep (optoStep InitOptoVars
        { event := { EventType := ROS_READ, EventParam := 0 }, adc := 500, undef := 0 }).vars
        idleInputs,
      ∀ e ∈ effects, isHandDetected e = false ∧ isInitTimer e = false :=
  C37_start_sensor_one_shot.2.1
    (optoStep InitOptoVars
      { event := { EventType := ROS_READ, EventParam := 0 }, adc := 500, undef := 0 }).vars
    idleInputs rfl (by decide)

/-! ## Theorems: the missile tier -/

/-- The coordinator changes `numMissiles` only on `THROTTLE_VALUE` in `GamePlaying`. -/
theorem numMissiles_unchanged (s : GameVars) (e : ES_Event_t) (rand : Nat → Nat) (undef : Nat)
    (h : ¬ (s.CurrentState = GamePlaying ∧ e.EventType = THROTTLE_VALUE)) :
    (RunGameService s e rand undef).vars.numMissiles = s.numMissiles := by
  obtain ⟨t, p⟩ := e
  cases hs : s.CurrentState <;> cases t <;>
    simp_all [RunGameService] <;> split_ifs <;> rfl

/-- The tier after `THROTTLE_VALUE(v)` in `GamePlaying`. -/
theorem numMissiles_throttle (s : GameVars) (v : Nat) (rand : Nat → Nat) (undef : Nat)
    (hs : s.CurrentState = GamePlaying) :
    (RunGameService s { EventType := THROTTLE_VALUE, EventParam := v } rand undef).vars.numMissiles
      = if v < 850 then 3 else if v < 925 then 2 else if v < 1024 then 1 else s.numMissiles := by
  simp [RunGameService, hs]

/-- One event keeps `numMissiles` among 1, 2 and 3. -/
theorem tier_step (s : GameVars) (i : GameInput)
    (h : s.numMissiles = 1 ∨ s.numMissiles = 2 ∨ s.numMissiles = 3) :
    (gameStep s i).vars.numMissiles = 1 ∨ (gameStep s i).vars.numMissiles = 2 ∨
      (gameStep s i).vars.numMissiles = 3 := by
  obtain ⟨⟨t, p⟩, rand, undef⟩ := i
  by_cases hc : s.CurrentState = GamePlaying ∧ t = THROTTLE_VALUE
  · obtain ⟨hs, ht⟩ := hc
    subst ht
    simp only [gameStep]
    rw [numMissiles_throttle s p rand undef hs]
    split_ifs
    · right; right; rfl
    · right; left; rfl
    · left; rfl
    · exact h
  · simp only [gameStep]
    rw [numMissiles_unchanged s _ rand undef hc]
    exact h

/-- A list of events keeps `numMissiles` among 1, 2 and 3. -/
theorem tier_sequence : ∀ (is : List GameInput) (s : GameVars),
    (s.numMissiles = 1 ∨ s.numMissiles = 2 ∨ s.numMissiles = 3) →
      (runSeq gameStep s is).numMissiles = 1 ∨ (runSeq gameStep s is).numMissiles = 2 ∨
        (runSeq gameStep s is).numMissiles = 3 := by
  intro is
  induction is with
  | nil => intro s h; exact h
  | cons i is ih => intro s h; exact ih _ (tier_step s i h)

/-- C33: in every coordinator state reached from start-up by any list of events,
`numMissiles` is 1, 2 or 3; in every state a `THROTTLE_VALUE(v)` with `v ≥ 1024` leaves
`numMissiles` unchanged; and every event that is not a `THROTTLE_VALUE` handled in
`GamePlaying` (`RESET` and `RESET_ALL` among them) leaves it unchanged. -/
theorem C33_tier_invariant :
    (∀ is : List GameInput,
      (runSeq gameStep InitGameVars is).numMissiles = 1 ∨
      (runSeq gameStep InitGameVars is).numMissiles = 2 ∨
      (runSeq gameStep InitGameVars is).numMissiles = 3) ∧
    (∀ (s : GameVars) (v : Nat) (rand : Nat → Nat) (undef : Nat), 1024 ≤ v →
      (RunGameService s { EventType := THROTTLE_VALUE, EventParam := v } rand
        undef).vars.numMissiles = s.numMissiles) ∧
    (∀ (s : GameVars) (e : ES_Event_t) (rand : Nat → Nat) (undef : Nat),
      ¬ (s.CurrentState = GamePlaying ∧ e.EventType = THROTTLE_VALUE) →
      (RunGameService s e rand undef).vars.numMissiles = s.numMissiles) := by
  refine ⟨fun is => tier_sequence is InitGameVars (Or.inl rfl), ?_, numMissiles_unchanged⟩
  intro s v rand undef hv
  by_cases hs : s.CurrentState = GamePlaying
  · rw [numMissiles_throttle s v rand undef hs]
    have h1 : ¬ v < 850 := by omega
    have h2 : ¬ v < 925 := by omega
    have h3 : ¬ v < 1024 := by omega
    simp [h1, h2, h3]
  · exact numMissiles_unchanged s _ rand undef (fun h => hs h.1)

theorem C33_tier_invariant_witness :
    (runSeq gameStep InitGameVars tierInputs).numMissiles = 3 ∧
    (RunGameService (playingVars 500 2) { EventType := THROTTLE_VALUE, EventParam := 1024 }
      (constRand 0) 0).vars.numMissiles = (playingVars 500 2).numMissiles ∧
    (RunGameService (playingVars 500 2) { EventType := RESET, EventParam := 0 }
      (constRand 0) 0).vars.numMissiles = (playingVars 500 2).numMissiles :=
  ⟨by decide,
    C33_tier_invariant.2.1 (playingVars 500 2) 1024 (constRand 0) 0 (by decide),
    C33_tier_invariant.2.2 (playingVars 500 2) { EventType := RESET, EventParam := 0 }
      (constRand 0) 0 (by decide)⟩

/-! ## Theorems: the set bits of the `FIRE_MISSILE` parameter -/

/-- The parameter built from one, two and three draws, as sums of powers of two. -/
theorem missileParam_draws (rand : Nat → Nat) :
    missileParam rand 1 = (0 + 2 ^ (rand 0 % 12)) % 65536 ∧
    missileParam rand 2 = ((0 + 2 ^ (rand 0 % 12)) % 65536 + 2 ^ (rand 1 % 12)) % 65536 ∧
    missileParam rand 3 =
      (((0 + 2 ^ (rand 0 % 12)) % 65536 + 2 ^ (rand 1 % 12)) % 65536 + 2 ^ (rand 2 % 12))
        % 65536 :=
  ⟨rfl, rfl, rfl⟩

/-- The set bits of a power of two and of the sum of two powers of two with exponents below
12: the sums do not wrap, have at least one set bit and at most as many as there are terms,
and exactly as many when the exponents are distinct. -/
theorem draw_bits_table2 :
    ∀ a < 12, ∀ b < 12,
      ((0 + 2 ^ a) % 65536 = 2 ^ a ∧ popCount16 ((0 + 2 ^ a) % 65536) = 1) ∧
      (((0 + 2 ^ a) % 65536 + 2 ^ b) % 65536 = 2 ^ a + 2 ^ b ∧
        1 ≤ popCount16 (((0 + 2 ^ a) % 65536 + 2 ^ b) % 65536) ∧
        popCount16 (((0 + 2 ^ a) % 65536 + 2 ^ b) % 65536) ≤ 2 ∧
        (a ≠ b → popCount16 (((0 + 2 ^ a) % 65536 + 2 ^ b) % 65536) = 2)) := by
  decide!

set_option synthInstance.maxSize 4096 in
set_option synthInstance.maxHeartbeats 400000 in
/-- The set bits of the sum of three powers of two with exponents below 12. -/
theorem draw_bits_table3 :
    ∀ a < 12, ∀ b < 12, ∀ c < 12,
      ((((0 + 2 ^ a) % 65536 + 2 ^ b) % 65536 + 2 ^ c) % 65536 = 2 ^ a + 2 ^ b + 2 ^ c ∧
        2 ^ a + 2 ^ b + 2 ^ c ≤ 3 * 2048 ∧
        1 ≤ popCount16 ((((0 + 2 ^ a) % 65536 + 2 ^ b) % 65536 + 2 ^ c) % 65536) ∧
        popCount16 ((((0 + 2 ^ a) % 65536 + 2 ^ b) % 65536 + 2 ^ c) % 65536) ≤ 3 ∧
        (a ≠ b ∧ a ≠ c ∧ b ≠ c →
          popCount16 ((((0 + 2 ^ a) % 65536 + 2 ^ b) % 65536 + 2 ^ c) % 65536) = 3)) := by
  decide!

/-- The `FIRE_MISSILE` parameter of tier `k` (1, 2 or 3): it is the sum of the `k` powers
of two of the drawn indices, at most `3 * 2048`, with at least one and at most `k` set
bits, and exactly `k` when the drawn indices are pairwise distinct. -/
theorem missileParam_bits (rand : Nat → Nat) (k : Int) (hk : k = 1 ∨ k = 2 ∨ k = 3) :
    missileParam rand k = ((List.range k.toNat).map (fun i => 2 ^ (rand i % 12))).sum ∧
    missileParam rand k ≤ 3 * 2048 ∧
    1 ≤ popCount16 (missileParam rand k) ∧
    popCount16 (missileParam rand k) ≤ k.toNat ∧
    (((List.range k.toNat).map (fun i => rand i % 12)).Nodup →
      popCount16 (missileParam rand k) = k.toNat) := by
  have ha : rand 0 % 12 < 12 := Nat.mod_lt _ (by decide)
  have hb : rand 1 % 12 < 12 := Nat.mod_lt _ (by decide)
  have hc : rand 2 % 12 < 12 := Nat.mod_lt _ (by decide)
  have h2 := draw_bits_table2 _ ha _ hb
  have h3 := draw_bits_table3 _ ha _ hb _ hc
  obtain ⟨p1, p2, p3⟩ := missileParam_draws rand
  rcases hk with hk | hk | hk <;> subst hk
  · rw [p1]
    have hr : List.range (1 : Int).toNat = [0] := rfl
    rw [hr]
    obtain ⟨⟨e1, c1⟩, _⟩ := h2
    refine ⟨?_, ?_, ?_, ?_, ?_⟩
    · rw [e1]; simp
    · rw [e1]
      have : 2 ^ (rand 0 % 12) ≤ 2 ^ 11 := Nat.pow_le_pow_right (by decide) (by omega)
      omega
    · rw [c1]
    · rw [c1]; decide
    · intro _; rw [c1]; rfl
  · rw [p2]
    have hr : List.range (2 : Int).toNat = [0, 1] := rfl
    rw [hr]
    obtain ⟨_, e2, l2, u2, d2⟩ := h2
    obtain ⟨e3, b3, _⟩ := h3
    refine ⟨?_, ?_, l2, u2, ?_⟩
    · rw [e2]; simp
    · rw [e2]
      have : 0 < 2 ^ (rand 2 % 12) := Nat.pow_pos (by decide)
      omega
    · intro hnd
      have hne : rand 0 % 12 ≠ rand 1 % 12 := by
        simpa [List.nodup_cons] using hnd
      exact d2 hne
  · rw [p3]
    have hr : List.range (3 : Int).toNat = [0, 1, 2] := rfl
    rw [hr]
    obtain ⟨e3, b3, l3, u3, d3⟩ := h3
    refine ⟨?_, ?_, l3, u3, ?_⟩
    · rw [e3]; simp; omega
    · rw [e3]; exact b3
    · intro hnd
      have hne : rand 0 % 12 ≠ rand 1 % 12 ∧ rand 0 % 12 ≠ rand 2 % 12 ∧
          rand 1 % 12 ≠ rand 2 % 12 := by
        simp only [List.map_cons, List.map_nil, List.nodup_cons, List.mem_cons,
          List.mem_singleton, not_or, List.not_mem_nil, not_false_eq_true, List.nodup_nil,
          and_true] at hnd
        exact ⟨hnd.1.1, hnd.1.2, hnd.2⟩
      exact d3 hne

/-- C32: in `GamePlaying` with tier `numMissiles` equal to 1, 2 or 3, the timeout of
`MISSILE_TIMER` posts `FIRE_MISSILE` with the parameter built from `numMissiles` draws;
this parameter is the sum of the powers of two of the drawn indices without wrapping (it is
at most `3 * 2048`), has at least 1 and at most `numMissiles` set bits, and exactly
`numMissiles` set bits when the drawn indices are pairwise distinct. -/
theorem C32_fire_parameter_bits (s : GameVars) (rand : Nat → Nat) (undef : Nat)
    (hs : s.CurrentState = GamePlaying)
    (hk : s.numMissiles = 1 ∨ s.numMissiles = 2 ∨ s.numMissiles = 3) :
    (RunGameService s { EventType := ES_TIMEOUT, EventParam := MISSILE_TIMER } rand undef).effects =
      [Effect.Post Service.LEDMissileService
          { EventType := FIRE_MISSILE, EventParam := missileParam rand s.numMissiles },
        Effect.InitTimer MISSILE_TIMER 4000] ∧
    missileParam rand s.numMissiles =
      ((List.range s.numMissiles.toNat).map (fun i => 2 ^ (rand i % 12))).sum ∧
    missileParam rand s.numMissiles ≤ 3 * 2048 ∧
    1 ≤ popCount16 (missileParam rand s.numMissiles) ∧
    popCount16 (missileParam rand s.numMissiles) ≤ s.numMissiles.toNat ∧
    (((List.range s.numMissiles.toNat).map (fun i => rand i % 12)).Nodup →
      popCount16 (missileParam rand s.numMissiles) = s.numMissiles.toNat) := by
  refine ⟨?_, missileParam_bits rand s.numMissiles hk⟩
  simp [RunGameService, hs, MISSILE_TIMER, INACTIVITY_TIMER, MissileFireTime]

theorem C32_fire_parameter_bits_witness :
    (RunGameService (playingVars 900 2) { EventType := ES_TIMEOUT, EventParam := MISSILE_TIMER }
        (fun i => 3 + 4 * i) 0).effects =
      [Effect.Post Service.LEDMissileService
          { EventType := FIRE_MISSILE,
            EventParam := missileParam (fun i => 3 + 4 * i) (playingVars 900 2).numMissiles },
        Effect.InitTimer MISSILE_TIMER 4000] ∧
    missileParam (fun i => 3 + 4 * i) (playingVars 900 2).numMissiles =
      ((List.range (playingVars 900 2).numMissiles.toNat).map
        (fun i => 2 ^ ((fun i => 3 + 4 * i) i % 12))).sum ∧
    missileParam (fun i => 3 + 4 * i) (playingVars 900 2).numMissiles ≤ 3 * 2048 ∧
    1 ≤ popCount16 (missileParam (fun i => 3 + 4 * i) (playingVars 900 2).numMissiles) ∧
    popCount16 (missileParam (fun i => 3 + 4 * i) (playingVars 900 2).numMissiles)
      ≤ (playingVars 900 2).numMissiles.toNat ∧
    (((List.range (playingVars 900 2).numMissiles.toNat).map
        (fun i => (fun i => 3 + 4 * i) i % 12)).Nodup →
      popCount16 (missileParam (fun i => 3 + 4 * i) (playingVars 900 2).numMissiles)
        = (playingVars 900 2).numMissiles.toNat) :=
  C32_fire_parameter_bits (playingVars 900 2) (fun i => 3 + 4 * i) 0 rfl (by decide)

/-! ## Theorems: the servo position stays between its limits -/

/-- One call of `TakeMoveStep` from a position between the limits, when a step fits below
the CW limit and above the CCW limit within 16 bits: the sum and the difference do not
wrap, the limits are unchanged and the new position lies between them. -/
theorem TakeMoveStep_bound (s : ServoVars) (undef : Nat)
    (hcw : TICKS_PER_STEP ≤ s.cwLimit) (hccw : s.ccwLimit + TICKS_PER_STEP < 65536)
    (hlo : s.cwLimit ≤ s.CurrentPosition) (hhi : s.CurrentPosition ≤ s.ccwLimit) :
    (TakeMoveStep s undef).1.cwLimit = s.cwLimit ∧
    (TakeMoveStep s undef).1.ccwLimit = s.ccwLimit ∧
    s.cwLimit ≤ (TakeMoveStep s undef).1.CurrentPosition ∧
    (TakeMoveStep s undef).1.CurrentPosition ≤ s.ccwLimit ∧
    (s.CurrentPosition + TICKS_PER_STEP) % 65536 = s.CurrentPosition + TICKS_PER_STEP ∧
    (s.CurrentPosition + 65536 - TICKS_PER_STEP) % 65536 = s.CurrentPosition - TICKS_PER_STEP := by
  have h38 : TICKS_PER_STEP = 38 := servo_constants.2.2
  rw [h38] at hcw hccw ⊢
  have hup : (s.CurrentPosition + 38) % 65536 = s.CurrentPosition + 38 := by omega
  have hdn : (s.CurrentPosition + 65536 - 38) % 65536 = s.CurrentPosition - 38 := by omega
  have hup2 : (s.CurrentPosition + 38 + 65536 - 38) % 65536 = s.CurrentPosition := by omega
  have hdn2 : (s.CurrentPosition - 38 + 38) % 65536 = s.CurrentPosition := by omega
  refine ⟨?_, ?_, ?_, ?_, hup, hdn⟩ <;>
    (simp only [TakeMoveStep, h38, hup, hdn, hup2, hdn2]
     split_ifs <;> simp only [] <;> omega)

/-- The invariant of the servo service: the limits are 1750 and 5625 and the position lies
between them. -/
theorem servo_step_bound (s : ServoVars) (e : ES_Event_t) (undef : Nat)
    (hc : s.cwLimit = 1750) (hl : s.ccwLimit = 5625)
    (hlo : 1750 ≤ s.CurrentPosition) (hhi : s.CurrentPosition ≤ 5625) :
    (RunServoService s e undef).vars.cwLimit = 1750 ∧
    (RunServoService s e undef).vars.ccwLimit = 5625 ∧
    1750 ≤ (RunServoService s e undef).vars.CurrentPosition ∧
    (RunServoService s e undef).vars.CurrentPosition ≤ 5625 := by
  have h38 : TICKS_PER_STEP = 38 := servo_constants.2.2
  have hstep := TakeMoveStep_bound s undef (by rw [h38, hc]; decide) (by rw [h38, hl]; decide)
    (by rw [hc]; exact hlo) (by rw [hl]; exact hhi)
  rw [hc, hl] at hstep
  obtain ⟨t, p⟩ := e
  cases hs : s.CurrentState <;> cases t <;>
    simp [RunServoService, hs, DecodeKey, key, hc, hl, hlo, hhi]
  split_ifs <;> simp [hc, hl, hlo, hhi, hstep]

/-- The invariant of `servo_step_bound` along a list of events. -/
theorem servo_sequence_bound (undef : Nat) : ∀ (es : List ES_Event_t) (s : ServoVars),
    s.cwLimit = 1750 → s.ccwLimit = 5625 → 1750 ≤ s.CurrentPosition → s.CurrentPosition ≤ 5625 →
    (runEvents (fun s e => RunServoService s e undef) s es).cwLimit = 1750 ∧
    (runEvents (fun s e => RunServoService s e undef) s es).ccwLimit = 5625 ∧
    1750 ≤ (runEvents (fun s e => RunServoService s e undef) s es).CurrentPosition ∧
    (runEvents (fun s e => RunServoService s e undef) s es).CurrentPosition ≤ 5625 := by
  intro es
  induction es with
  | nil => intro s hc hl hlo hhi; exact ⟨hc, hl, hlo, hhi⟩
  | cons e es ih =>
    intro s hc hl hlo hhi
    obtain ⟨h1, h2, h3, h4⟩ := servo_step_bound s e undef hc hl hlo hhi
    exact ih _ h1 h2 h3 h4

/-- C31: if `cwLimit ≤ CurrentPosition ≤ ccwLimit` holds before a call of `TakeMoveStep`
then it holds afterwards, for either move direction, and neither the sum nor the
difference of the 16-bit position and the step wraps (the limits leave room for one step:
`TICKS_PER_STEP ≤ cwLimit` and `ccwLimit + TICKS_PER_STEP < 65536`, as the limits 1750 and
5625 of the code do); hence the bound holds in every state reached from the start-up state
by any list of events. -/
theorem C31_servo_position_bound :
    (∀ (s : ServoVars) (undef : Nat),
      TICKS_PER_STEP ≤ s.cwLimit → s.ccwLimit + TICKS_PER_STEP < 65536 →
      s.cwLimit ≤ s.CurrentPosition → s.CurrentPosition ≤ s.ccwLimit →
        (TakeMoveStep s undef).1.cwLimit ≤ (TakeMoveStep s undef).1.CurrentPosition ∧
        (TakeMoveStep s undef).1.CurrentPosition ≤ (TakeMoveStep s undef).1.ccwLimit ∧
        (s.CurrentPosition + TICKS_PER_STEP) % 65536 = s.CurrentPosition + TICKS_PER_STEP ∧
        (s.CurrentPosition + 65536 - TICKS_PER_STEP) % 65536
          = s.CurrentPosition - TICKS_PER_STEP) ∧
    (TICKS_PER_STEP ≤ InitServoVars.cwLimit ∧ InitServoVars.ccwLimit + TICKS_PER_STEP < 65536) ∧
    (∀ (es : List ES_Event_t) (undef : Nat),
      (runEvents (fun s e => RunServoService s e undef) InitServoVars es).cwLimit ≤
        (runEvents (fun s e => RunServoService s e undef) InitServoVars es).CurrentPosition ∧
      (runEvents (fun s e => RunServoService s e undef) InitServoVars es).CurrentPosition ≤
        (runEvents (fun s e => RunServoService s e undef) InitServoVars es).ccwLimit) := by
  refine ⟨?_, ?_, ?_⟩
  · intro s undef hcw hccw hlo hhi
    obtain ⟨h1, h2, h3, h4, h5, h6⟩ := TakeMoveStep_bound s undef hcw hccw hlo hhi
    rw [h1, h2]
    exact ⟨h3, h4, h5, h6⟩
  · have hc : InitServoVars.cwLimit = 1750 := servo_constants.1
    have hl : InitServoVars.ccwLimit = 5625 := servo_constants.2.1
    rw [hc, hl, servo_constants.2.2]
    decide
  · intro es undef
    have hc : InitServoVars.cwLimit = 1750 := servo_constants.1
    have hl : InitServoVars.ccwLimit = 5625 := servo_constants.2.1
    have hp : InitServoVars.CurrentPosition = 5625 := servo_constants.2.1
    obtain ⟨h1, h2, h3, h4⟩ := servo_sequence_bound undef es InitServoVars hc hl
      (by rw [hp]; decide) (by rw [hp])
    rw [h1, h2]
    exact ⟨h3, h4⟩

theorem C31_servo_position_bound_witness :
    (TakeMoveStep movedServo 0).1.cwLimit ≤ (TakeMoveStep movedServo 0).1.CurrentPosition ∧
    (TakeMoveStep movedServo 0).1.CurrentPosition ≤ (TakeMoveStep movedServo 0).1.ccwLimit ∧
    (movedServo.CurrentPosition + TICKS_PER_STEP) % 65536
      = movedServo.CurrentPosition + TICKS_PER_STEP ∧
    (movedServo.CurrentPosition + 65536 - TICKS_PER_STEP) % 65536
      = movedServo.CurrentPosition - TICKS_PER_STEP :=
  C31_servo_position_bound.1 movedServo 0 (by decide!) (by decide!) (by decide!) (by decide!)

/-! ## Theorems: timer routing -/

/-- The timers armed by two lists of effects in sequence. -/
theorem armedTimers_append (a b : List Effect) :
    armedTimers (a ++ b) = armedTimers a ++ armedTimers b := by
  simp [armedTimers, List.filterMap_append]

/-- The coordinator arms only `COUNTDOWN_TIMER`, `MISSILE_TIMER` and `INACTIVITY_TIMER`. -/
theorem game_arms (s : GameVars) (e : ES_Event_t) (rand : Nat → Nat) (undef : Nat) :
    ∀ id ∈ armedTimers (RunGameService s e rand undef).effects,
      id ∈ [COUNTDOWN_TIMER, MISSILE_TIMER, INACTIVITY_TIMER] := by
  obtain ⟨t, p⟩ := e
  cases hs : s.CurrentState <;> cases t <;>
    simp [RunGameService, hs, armedTimers, armedTimer] <;>
    split_ifs <;> simp [armedTimer]

/-- The timers armed by the empty list of effects. -/
theorem armedTimers_nil : armedTimers [] = [] := rfl

/-- The timers armed by a list of effects, by its first effect. -/
theorem armedTimers_cons (e : Effect) (es : List Effect) :
    armedTimers (e :: es) = (armedTimer e).toList ++ armedTimers es := by
  cases h : armedTimer e <;> simp [armedTimers, List.filterMap_cons, h]

/-- A change of direction arms no timer. -/
theorem SetDir_arms (s : MotorVars) (dir : Bool) : armedTimers (SetDir s dir).2 = [] := by
  simp only [SetDir]
  split_ifs <;> rfl

/-- A speed command arms no timer. -/
theorem SetSpeed_arms (s : MotorVars) (cmd : Nat) : armedTimers (SetSpeed s cmd).2 = [] := by
  simp only [SetSpeed]
  split_ifs <;> simp only [armedTimers_append, SetDir_arms, List.nil_append] <;> rfl

/-- A digit key of the motor service arms no timer. -/
theorem speedByDir_arms (s : MotorVars) (a b : Nat) :
    armedTimers (speedByDir s a b).2 = [] := by
  simp only [speedByDir]
  split_ifs <;> exact SetSpeed_arms _ _

/-- A choice between two results that arm no timer arms no timer. -/
theorem ite_arms {σ : Type} (c : Prop) [Decidable c] (a b : Step σ)
    (ha : armedTimers a.2 = []) (hb : armedTimers b.2 = []) :
    armedTimers (if c then a else b).2 = [] := by
  split <;> assumption

/-- A key of the motor service arms no timer. -/
theorem DecodeMotorKey_arms (s : MotorVars) (k : Nat) :
    armedTimers (DecodeMotorKey s k).2 = [] := by
  unfold DecodeMotorKey
  repeat' first
    | exact SetDir_arms _ _
    | exact SetSpeed_arms _ _
    | exact speedByDir_arms _ _ _
    | rfl
    | apply ite_arms

/-- The motor service arms only `ENCODER_TIMER`. -/
theorem motor_arms (s : MotorVars) (e : ES_Event_t) :
    armedTimers (RunDCMotorService s e).effects ⊆ [ENCODER_TIMER] := by
  obtain ⟨t, p⟩ := e
  cases t <;>
    simp only [RunDCMotorService] <;>
    (try split_ifs) <;>
    simp only [armedTimers_append, armedTimers_cons, armedTimers_nil, armedTimer, SetSpeed_arms,
      SetDir_arms, DecodeMotorKey_arms, Option.toList, List.nil_append, List.append_nil,
      List.cons_append, List.Subset.refl, List.nil_subset]

/-- The collision loop arms no timer. -/
theorem encoderPosts_arms (ledStatus : List Int) (position undef : Nat) :
    armedTimers (encoderPosts ledStatus position undef) = [] := by
  simp only [encoderPosts, armedTimers, List.filterMap_map]
  rw [List.filterMap_eq_nil_iff]
  intro a _
  rfl

/-- The missile display arms only `LED_MISSILE_TIMER`. -/
theorem missile_arms (s : MissileVars) (e : ES_Event_t) (undef : Nat) :
    armedTimers (RunLEDMissileService s e undef).effects ⊆ [LED_MISSILE_TIMER] := by
  obtain ⟨t, p⟩ := e
  cases hs : s.CurrentState <;> cases t <;>
    simp only [RunLEDMissileService, hs] <;>
    (try split_ifs) <;>
    simp only [armedTimers_append, armedTimers_cons, armedTimers_nil, armedTimer,
      encoderPosts_arms,
      Option.toList, List.nil_append, List.append_nil, List.cons_append, List.nil_subset,
      List.cons_subset, List.mem_cons, true_or, or_true, and_self]

/-- The throttle service arms only `THROTTLE_TIMER`. -/
theorem throttle_arms (e : ES_Event_t) (adc : Nat) :
    armedTimers (RunThrottleService e adc).effects ⊆ [THROTTLE_TIMER] := by
  obtain ⟨t, p⟩ := e
  cases t <;>
    simp only [RunThrottleService, armedTimers_append, armedTimers_cons, armedTimers_nil,
      armedTimer,
      Option.toList, List.nil_append, List.append_nil, List.cons_append, List.nil_subset,
      List.cons_subset, List.mem_cons, true_or, or_true, and_self]

/-- The IR service arms only `IR_TIMER`. -/
theorem ir_arms (s : IRVars) (e : ES_Event_t) (adc : Nat → Nat) (undef : Nat) :
    armedTimers (RunIRService s e adc undef).effects ⊆ [IR_TIMER] := by
  obtain ⟨t, p⟩ := e
  cases t <;> simp only [RunIRService] <;> (try split_ifs) <;>
    simp only [armedTimers_append, armedTimers_cons, armedTimers_nil, armedTimer,
      Option.toList, List.nil_append, List.append_nil, List.cons_append, List.nil_subset,
      List.cons_subset, List.mem_cons, true_or, or_true, and_self]

/-- The start sensor service arms only `OPTO_TIMER`. -/
theorem opto_arms (s : OptoVars) (e : ES_Event_t) (adc undef : Nat) :
    armedTimers (RunOptoSensorService s e adc undef).effects ⊆ [OPTO_TIMER] := by
  obtain ⟨t, p⟩ := e
  cases hs : s.CurrentState <;> cases t <;>
    simp only [RunOptoSensorService, hs] <;> (try split_ifs) <;>
    simp only [armedTimers_append, armedTimers_cons, armedTimers_nil, armedTimer,
      Option.toList, List.nil_append, List.append_nil, List.cons_append, List.nil_subset,
      List.cons_subset, List.mem_cons, true_or, or_true, and_self]

/-- The audio service arms only `AUDIO_TIMER`. -/
theorem audio_arms (s : AudioVars) (e : ES_Event_t) :
    armedTimers (RunAudioService s e).effects ⊆ [AUDIO_TIMER] := by
  obtain ⟨t, p⟩ := e
  cases hs : s.CurrentState <;> cases t <;>
    simp only [RunAudioService, hs] <;> (try split_ifs) <;>
    simp only [armedTimers_append, armedTimers_cons, armedTimers_nil, armedTimer,
      Option.toList, List.nil_append, List.append_nil, List.cons_append, List.nil_subset,
      List.cons_subset, List.mem_cons, true_or, or_true, and_self]

/-- A step of the servo arms no timer. -/
theorem TakeMoveStep_arms (s : ServoVars) (undef : Nat) :
    armedTimers (TakeMoveStep s undef).2 = [] := by
  unfold TakeMoveStep
  repeat' first
    | rfl
    | apply ite_arms

/-- A key of the servo service arms only `SERVO_STEP_TIMER`. -/
theorem DecodeKey_arms (s : ServoVars) (k : Nat) :
    armedTimers (DecodeKey s k).2 ⊆ [SERVO_STEP_TIMER] := by
  unfold DecodeKey
  split <;> [skip; split] <;>
    simp only [armedTimers_cons, armedTimers_nil, armedTimer,
      Option.toList, List.nil_append, List.append_nil, List.cons_append, List.nil_subset,
      List.cons_subset, List.mem_cons, true_or, or_true, and_self]

/-- The servo service arms only `SERVO_STEP_TIMER`. -/
theorem servo_arms (s : ServoVars) (e : ES_Event_t) (undef : Nat) :
    armedTimers (RunServoService s e undef).effects ⊆ [SERVO_STEP_TIMER] := by
  obtain ⟨t, p⟩ := e
  have hkey := DecodeKey_arms s (key 'r')
  cases hs : s.CurrentState <;> cases t <;>
    simp only [RunServoService, hs] <;> (try split_ifs) <;>
    simp only [armedTimers_append, armedTimers_cons, armedTimers_nil, armedTimer,
      TakeMoveStep_arms, List.append_subset, hkey,
      Option.toList, List.nil_append, List.append_nil, List.cons_append, List.nil_subset,
      List.cons_subset, List.mem_cons, true_or, or_true, and_self]

/-- The fuel display arms no timer. -/
theorem fuel_arms (s : LEDFuelVars) (e : ES_Event_t) (undef : Nat) :
    armedTimers (RunLEDFuelService s e undef).effects = [] := by
  obtain ⟨t, p⟩ := e
  cases t <;> simp only [RunLEDFuelService] <;> (try split_ifs) <;>
    simp only [armedTimers_append, armedTimers_cons, armedTimers_nil, armedTimer,
      Option.toList, List.nil_append, List.append_nil, List.cons_append]
/-- The copy of the servo's timeout case in `FuelService.c` arms only
`SERVO_STEP_TIMER`. -/
theorem servo_copy_arms (s : ServoVars) (e : ES_Event_t) (undef : Nat) :
    armedTimers (RunServoService_FuelService_timeout s e undef).effects ⊆ [SERVO_STEP_TIMER] := by
  have hkey := DecodeKey_arms
  simp only [RunServoService_FuelService_timeout]
  split_ifs <;>
    simp only [armedTimers_append, armedTimers_cons, armedTimers_nil, armedTimer,
      TakeMoveStep_arms, List.append_subset, hkey,
      Option.toList, List.nil_append, List.append_nil, List.cons_append, List.nil_subset,
      List.cons_subset, List.mem_cons, true_or, or_true, and_self]

/-- C38: every timer id that a run function arms with `ES_Timer_InitTimer` is one of the
ids listed for its service (coordinator: `COUNTDOWN_TIMER`, `MISSILE_TIMER`,
`INACTIVITY_TIMER`; motor: `ENCODER_TIMER`; missile display: `LED_MISSILE_TIMER`; throttle:
`THROTTLE_TIMER`; IR: `IR_TIMER`; start sensor: `OPTO_TIMER`; audio: `AUDIO_TIMER`; servo:
`SERVO_STEP_TIMER`; the fuel display arms none) and the timer binding table binds it to the
post function of that same service. -/
theorem C38_timer_routing :
    (∀ (s : GameVars) (e : ES_Event_t) (rand : Nat → Nat) (undef : Nat),
      ∀ id ∈ armedTimers (RunGameService s e rand undef).effects,
        id ∈ [COUNTDOWN_TIMER, MISSILE_TIMER, INACTIVITY_TIMER] ∧
        timerBinding id = some Service.GameService) ∧
    (∀ (s : MotorVars) (e : ES_Event_t),
      ∀ id ∈ armedTimers (RunDCMotorService s e).effects,
        id ∈ [ENCODER_TIMER] ∧ timerBinding id = some Service.DCMotorService) ∧
    (∀ (s : MissileVars) (e : ES_Event_t) (undef : Nat),
      ∀ id ∈ armedTimers (RunLEDMissileService s e undef).effects,
        id ∈ [LED_MISSILE_TIMER] ∧ timerBinding id = some Service.LEDMissileService) ∧
    (∀ (e : ES_Event_t) (adc : Nat),
      ∀ id ∈ armedTimers (RunThrottleService e adc).effects,
        id ∈ [THROTTLE_TIMER] ∧ timerBinding id = some Service.ThrottleService) ∧
    (∀ (s : IRVars) (e : ES_Event_t) (adc : Nat → Nat) (undef : Nat),
      ∀ id ∈ armedTimers (RunIRService s e adc undef).effects,
        id ∈ [IR_TIMER] ∧ timerBinding id = some Service.IRService) ∧
    (∀ (s : OptoVars) (e : ES_Event_t) (adc undef : Nat),
      ∀ id ∈ armedTimers (RunOptoSensorService s e adc undef).effects,
        id ∈ [OPTO_TIMER] ∧ timerBinding id = some Service.OptoSensorService) ∧
    (∀ (s : AudioVars) (e : ES_Event_t),
      ∀ id ∈ armedTimers (RunAudioService s e).effects,
        id ∈ [AUDIO_TIMER] ∧ timerBinding id = some Service.AudioService) ∧
    (∀ (s : ServoVars) (e : ES_Event_t) (undef : Nat),
      ∀ id ∈ armedTimers (RunServoService s e undef).effects,
        id ∈ [SERVO_STEP_TIMER] ∧ timerBinding id = some Service.ServoService) ∧
    (∀ (s : LEDFuelVars) (e : ES_Event_t) (undef : Nat),
      armedTimers (RunLEDFuelService s e undef).effects = []) := by
  have hg : ∀ id ∈ [COUNTDOWN_TIMER, MISSILE_TIMER, INACTIVITY_TIMER],
      timerBinding id = some Service.GameService := by decide
  have hm : ∀ id ∈ [ENCODER_TIMER], timerBinding id = some Service.DCMotorService := by decide
  have hl : ∀ id ∈ [LED_MISSILE_TIMER], timerBinding id = some Service.LEDMissileService := by
    decide
  have ht : ∀ id ∈ [THROTTLE_TIMER], timerBinding id = some Service.ThrottleService := by decide
  have hi : ∀ id ∈ [IR_TIMER], timerBinding id = some Service.IRService := by decide
  have ho : ∀ id ∈ [OPTO_TIMER], timerBinding id = some Service.OptoSensorService := by decide
  have ha : ∀ id ∈ [AUDIO_TIMER], timerBinding id = some Service.AudioService := by decide
  have hs : ∀ id ∈ [SERVO_STEP_TIMER], timerBinding id = some Service.ServoService := by decide
  refine ⟨?_, ?_, ?_, ?_, ?_, ?_, ?_, ?_, fuel_arms⟩
  · exact fun s e rand undef id h =>
      ⟨game_arms s e rand undef id h, hg id (game_arms s e rand undef id h)⟩
  · exact fun s e id h => ⟨motor_arms s e h, hm id (motor_arms s e h)⟩
  · exact fun s e undef id h => ⟨missile_arms s e undef h, hl id (missile_arms s e undef h)⟩
  · exact fun e adc id h => ⟨throttle_arms e adc h, ht id (throttle_arms e adc h)⟩
  · exact fun s e adc undef id h => ⟨ir_arms s e adc undef h, hi id (ir_arms s e adc undef h)⟩
  · exact fun s e adc undef id h =>
      ⟨opto_arms s e adc undef h, ho id (opto_arms s e adc undef h)⟩
  · exact fun s e id h => ⟨audio_arms s e h, ha id (audio_arms s e h)⟩
  · exact fun s e undef id h => ⟨servo_arms s e undef h, hs id (servo_arms s e undef h)⟩

theorem C38_timer_routing_witness :
    (COUNTDOWN_TIMER ∈ [COUNTDOWN_TIMER, MISSILE_TIMER, INACTIVITY_TIMER] ∧
      timerBinding COUNTDOWN_TIMER = some Service.GameService) ∧
    (MISSILE_TIMER ∈ [COUNTDOWN_TIMER, MISSILE_TIMER, INACTIVITY_TIMER] ∧
      timerBinding MISSILE_TIMER = some Service.GameService) ∧
    (INACTIVITY_TIMER ∈ [COUNTDOWN_TIMER, MISSILE_TIMER, INACTIVITY_TIMER] ∧
      timerBinding INACTIVITY_TIMER = some Service.GameService) ∧
    (ENCODER_TIMER ∈ [ENCODER_TIMER] ∧
      timerBinding ENCODER_TIMER = some Service.DCMotorService) ∧
    (LED_MISSILE_TIMER ∈ [LED_MISSILE_TIMER] ∧
      timerBinding LED_MISSILE_TIMER = some Service.LEDMissileService) ∧
    (THROTTLE_TIMER ∈ [THROTTLE_TIMER] ∧
      timerBinding THROTTLE_TIMER = some Service.ThrottleService) ∧
    (IR_TIMER ∈ [IR_TIMER] ∧ timerBinding IR_TIMER = some Service.IRService) ∧
    (OPTO_TIMER ∈ [OPTO_TIMER] ∧ timerBinding OPTO_TIMER = some Service.OptoSensorService) ∧
    (AUDIO_TIMER ∈ [AUDIO_TIMER] ∧ timerBinding AUDIO_TIMER = some Service.AudioService) ∧
    (SERVO_STEP_TIMER ∈ [SERVO_STEP_TIMER] ∧
      timerBinding SERVO_STEP_TIMER = some Service.ServoService) :=
  ⟨C38_timer_routing.1 welcomeVars { EventType := ES_HAND_DETECTED, EventParam := 0 }
      (constRand 0) 0 COUNTDOWN_TIMER (by decide),
    C38_timer_routing.1 welcomeVars { EventType := ES_TIMEOUT, EventParam := COUNTDOWN_TIMER }
      (constRand 0) 0 MISSILE_TIMER (by decide),
    C38_timer_routing.1 (playingVars 500 1) { EventType := THROTTLE_VALUE, EventParam := 520 }
      (constRand 0) 0 INACTIVITY_TIMER (by decide),
    C38_timer_routing.2.1 (motorAt 0 CW 0) { EventType := ES_TIMEOUT, EventParam := ENCODER_TIMER }
      ENCODER_TIMER (by decide),
    C38_timer_routing.2.2.1 firingVars { EventType := FIRE_MISSILE, EventParam := 8 } 0
      LED_MISSILE_TIMER (by decide),
    C38_timer_routing.2.2.2.1 { EventType := ES_INIT, EventParam := 0 } 0
      THROTTLE_TIMER (by decide),
    C38_timer_routing.2.2.2.2.1 { LastPostedValue := [0, 0, 0] }
      { EventType := ES_INIT, EventParam := 0 } (fun _ => 0) 0 IR_TIMER (by decide),
    C38_timer_routing.2.2.2.2.2.1 InitOptoVars { EventType := ES_INIT, EventParam := 0 } 0 0
      OPTO_TIMER (by decide),
    C38_timer_routing.2.2.2.2.2.2.1 { CurrentState := AudioServiceState_t.AudioWaiting }
      { EventType := ES_WIN, EventParam := 0 } AUDIO_TIMER (by decide),
    C38_timer_routing.2.2.2.2.2.2.2.1 movedServo stepTimeout 0 SERVO_STEP_TIMER (by decide!)⟩

end NoTimeToFly
